import Mathlib

/-!
# Survey prompt: normalizer, answer store, validator, submit and prober

A shallow embedding of `src/components/SurveyPrompt.js`, of the effect of
`src/hooks/useSurveyPrompt.js` and of the role helpers of
`src/contexts/AuthContext.js`.

JavaScript values are embedded as `JSValue`.  Numbers are the integers together
with `NaN` (the component only subtracts order keys and compares numbers with
`0`, and a rating is an integer), arrays hold primitive values, and `obj` is a
plain object, which converts to the string `[object Object]` and to the number
`NaN`.  The coercions `truthy` and `toStr` follow `ToBoolean` and `ToString`.
The conversion `ToNumber` comes in two forms.  `numberSign` gives the sign of
`Number(v)` for every value, strings being read by the whole grammar of
`StringToNumber`; the validator, which only compares `Number(v)` with `0`, uses
it.  `toNumber` gives the number itself where it is an integer: from a string
it reads decimal integer literals only, so the statements on order keys and on
`scaleMax`, where the number itself matters, are made for values that are not
strings, arrays or objects.

Asynchronous functions are embedded as run to completion for a given outcome
of the awaited call, with the calls they make recorded as a list of effects.
Local storage is the pair of items the prober uses; eligibility records carry
a string identifier, and the stored prompted-id item is given by what
`JSON.parse` reads from it.
-/

namespace SurveyPrompt

/-! ## JavaScript values -/

/-- Primitive JavaScript values; `nan` is the number `NaN`. -/
inductive JSPrim where
  | undefined
  | null
  | bool (b : Bool)
  | num (n : Int)
  | nan
  | str (s : String)
  deriving DecidableEq, Repr

/-- JavaScript values: a primitive, an array of primitives, or a plain
object. -/
inductive JSValue where
  | prim (p : JSPrim)
  | arr (xs : List JSPrim)
  | obj
  deriving DecidableEq, Repr

namespace JSValue

/-- The value `undefined`, also the result of reading an absent property. -/
def undefined : JSValue := prim JSPrim.undefined

/-- The value `null`. -/
def null : JSValue := prim JSPrim.null

/-- A boolean value. -/
def bool (b : Bool) : JSValue := prim (JSPrim.bool b)

/-- An integer number value. -/
def num (n : Int) : JSValue := prim (JSPrim.num n)

/-- The number `NaN`. -/
def nan : JSValue := prim JSPrim.nan

/-- A string value. -/
def str (s : String) : JSValue := prim (JSPrim.str s)

end JSValue

/-- The conversion `ToBoolean` on primitives: `undefined`, `null`, `false`, `0`, `NaN` and
`''` are falsy. -/
def JSPrim.truthy : JSPrim → Bool
  | JSPrim.undefined => false
  | JSPrim.null => false
  | JSPrim.bool b => b
  | JSPrim.num n => n != 0
  | JSPrim.nan => false
  | JSPrim.str s => s != ""

/-- The conversion `ToBoolean`: every array and object is truthy. -/
def truthy : JSValue → Bool
  | JSValue.prim p => p.truthy
  | JSValue.arr _ => true
  | JSValue.obj => true

/-- The operator `a || b`: `a` when it is truthy, else `b`. -/
def jsOr (a b : JSValue) : JSValue := if truthy a then a else b

/-- The conversion `ToString` on primitives. -/
def JSPrim.toStr : JSPrim → String
  | JSPrim.undefined => "undefined"
  | JSPrim.null => "null"
  | JSPrim.bool b => if b then "true" else "false"
  | JSPrim.num n => toString n
  | JSPrim.nan => "NaN"
  | JSPrim.str s => s

/-- The string an array element contributes to `Array.prototype.join`:
`undefined` and `null` contribute the empty string. -/
def JSPrim.joinStr : JSPrim → String
  | JSPrim.undefined => ""
  | JSPrim.null => ""
  | p => p.toStr

/-- The conversion `ToString`, as applied by `String(v)`, by template literals and by
property-key conversion: an array is its elements joined with commas. -/
def toStr : JSValue → String
  | JSValue.prim p => p.toStr
  | JSValue.arr xs => ",".intercalate (xs.map JSPrim.joinStr)
  | JSValue.obj => "[object Object]"

/-- The code points `StrWhiteSpaceChar` of `StringToNumber`: the `WhiteSpace` code points (tab,
vertical tab, form feed, the byte order mark and the space separators) and the
four line terminators. -/
def isStrWhiteSpaceChar (c : Char) : Bool :=
  c.toNat == 0x9 || c.toNat == 0xA || c.toNat == 0xB || c.toNat == 0xC || c.toNat == 0xD
    || c.toNat == 0x20 || c.toNat == 0xA0 || c.toNat == 0x1680
    || (decide (0x2000 ≤ c.toNat) && decide (c.toNat ≤ 0x200A))
    || c.toNat == 0x2028 || c.toNat == 0x2029 || c.toNat == 0x202F || c.toNat == 0x205F
    || c.toNat == 0x3000 || c.toNat == 0xFEFF

/-- The value of a non-empty run of decimal digits, `none` for anything
else. -/
def parseDigits : List Char → Option Nat
  | [] => none
  | cs => if cs.all Char.isDigit
          then some (cs.foldl (fun acc c => 10 * acc + (c.toNat - 48)) 0)
          else none

/-- The conversion `StringToNumber` on decimal integer literals: surrounding white space is
dropped, the empty string is `0`, an optionally signed run of digits is its
value and every other string is `NaN` (`none`). -/
def stringToNumber (s : String) : Option Int :=
  let cs := ((s.data.dropWhile isStrWhiteSpaceChar).reverse.dropWhile
    isStrWhiteSpaceChar).reverse
  match cs with
  | [] => some 0
  | '+' :: ds => (parseDigits ds).map Int.ofNat
  | '-' :: ds => (parseDigits ds).map (fun n => - Int.ofNat n)
  | ds => (parseDigits ds).map Int.ofNat

/-- The conversion `ToNumber` on primitives; `none` is `NaN`. -/
def JSPrim.toNumber : JSPrim → Option Int
  | JSPrim.undefined => none
  | JSPrim.null => some 0
  | JSPrim.bool b => some (if b then 1 else 0)
  | JSPrim.num n => some n
  | JSPrim.nan => none
  | JSPrim.str s => stringToNumber s

/-- The conversion `ToNumber`, as applied by `Number(v)` and by the operators `-` and `<=`;
`none` is `NaN`.  An array is converted through its string form and any other
object is `NaN`. -/
def toNumber : JSValue → Option Int
  | JSValue.prim p => p.toNumber
  | JSValue.arr xs => stringToNumber (toStr (JSValue.arr xs))
  | JSValue.obj => none

/-- Whether `toNumber v` is the number `Number(v)` itself: `v` is `undefined`, `null`, a
boolean, a number or the empty string.  Strings with characters, arrays and
objects are left out, `toNumber` reading decimal integer literals only. -/
def hasExactNumber : JSValue → Bool
  | JSValue.prim (JSPrim.str s) => s == ""
  | JSValue.prim _ => true
  | _ => false

/-- The sign of a number: `NaN`, below zero, zero (`+0` or `-0`), or above
zero. -/
inductive NumSign where
  | nan
  | negative
  | zero
  | positive
  deriving DecidableEq, Repr

/-- The sign of `-x`. -/
def NumSign.neg : NumSign → NumSign
  | NumSign.positive => NumSign.negative
  | NumSign.negative => NumSign.positive
  | s => s

/-- The comparison `x <= 0` on a number of the given sign: false on `NaN`. -/
def NumSign.leZero : NumSign → Bool
  | NumSign.negative => true
  | NumSign.zero => true
  | _ => false

/-- The sign of an integer. -/
def intSign (n : Int) : NumSign :=
  if n < 0 then NumSign.negative else if n = 0 then NumSign.zero else NumSign.positive

/-- The value of a run of decimal digits, `0` for the empty run. -/
def digitsValue (cs : List Char) : Nat :=
  cs.foldl (fun acc c => 10 * acc + (c.toNat - 48)) 0

/-- The optional `ExponentPart` that ends a decimal literal: nothing (exponent `0`), or
`e` or `E` and an optionally signed non-empty run of digits; `none` for
anything else. -/
def exponentPart : List Char → Option Int
  | [] => some 0
  | c :: rest =>
      if c == 'e' || c == 'E' then
        match rest with
        | '+' :: ds => (parseDigits ds).map Int.ofNat
        | '-' :: ds => (parseDigits ds).map (fun n => - Int.ofNat n)
        | ds => (parseDigits ds).map Int.ofNat
      else none

/-- Whether the positive value `m * 10 ^ k` is rounded to `0` by the
conversion to a double: it is at most `2 ^ -1075`, half the least positive
double. -/
def roundsToZero (m : Nat) (k : Int) : Bool :=
  decide (k < 0) && decide (m ≤ (10 ^ k.natAbs) >>> 1075)

/-- The sign of the number an unsigned decimal literal stands for
(`StrUnsignedDecimalLiteral`): `Infinity`, or digits with an optional fraction and an
optional exponent, at least one digit before or after the point.  `NaN` when
the characters are no such literal. -/
def unsignedDecimalSign (cs : List Char) : NumSign :=
  if cs = "Infinity".data then NumSign.positive
  else
    let ip := cs.takeWhile Char.isDigit
    let rest := cs.dropWhile Char.isDigit
    let fp := match rest with
      | '.' :: r => r.takeWhile Char.isDigit
      | _ => []
    let tail := match rest with
      | '.' :: r => r.dropWhile Char.isDigit
      | r => r
    if ip.isEmpty && fp.isEmpty then NumSign.nan
    else
      match exponentPart tail with
      | none => NumSign.nan
      | some e =>
          if digitsValue (ip ++ fp) = 0 then NumSign.zero
          else if roundsToZero (digitsValue (ip ++ fp)) (e - Int.ofNat fp.length)
          then NumSign.zero
          else NumSign.positive

/-- Whether `c` is a digit of the given radix (`2`, `8` or `16`). -/
def isRadixDigit (radix : Nat) (c : Char) : Bool :=
  (c.isDigit && decide (c.toNat - 48 < radix))
    || (radix == 16 && ((decide ('a' ≤ c) && decide (c ≤ 'f'))
          || (decide ('A' ≤ c) && decide (c ≤ 'F'))))

/-- The sign of the number the digits of a binary, octal or hexadecimal
literal stand for; `NaN` when there is no digit or a character is not a digit
of the radix. -/
def radixDigitsSign (radix : Nat) (ds : List Char) : NumSign :=
  if ds.isEmpty || !ds.all (isRadixDigit radix) then NumSign.nan
  else if ds.all (fun c => c == '0') then NumSign.zero
  else NumSign.positive

/-- The sign of `Number(s)` for a string `s` (`StringToNumber`): surrounding white space is
dropped; the empty string is `0`; a decimal literal may carry a sign; a
binary, octal or hexadecimal literal may not; every other string is `NaN`. -/
def stringSign (s : String) : NumSign :=
  match ((s.data.dropWhile isStrWhiteSpaceChar).reverse.dropWhile
      isStrWhiteSpaceChar).reverse with
  | [] => NumSign.zero
  | '+' :: cs => unsignedDecimalSign cs
  | '-' :: cs => (unsignedDecimalSign cs).neg
  | '0' :: 'x' :: ds => radixDigitsSign 16 ds
  | '0' :: 'X' :: ds => radixDigitsSign 16 ds
  | '0' :: 'o' :: ds => radixDigitsSign 8 ds
  | '0' :: 'O' :: ds => radixDigitsSign 8 ds
  | '0' :: 'b' :: ds => radixDigitsSign 2 ds
  | '0' :: 'B' :: ds => radixDigitsSign 2 ds
  | cs => unsignedDecimalSign cs

/-- The sign of `Number(p)` for a primitive `p`. -/
def JSPrim.numberSign : JSPrim → NumSign
  | JSPrim.undefined => NumSign.nan
  | JSPrim.null => NumSign.zero
  | JSPrim.bool b => if b then NumSign.positive else NumSign.zero
  | JSPrim.num n => intSign n
  | JSPrim.nan => NumSign.nan
  | JSPrim.str s => stringSign s

/-- The sign of `Number(v)`: an array is converted through its string form, and a plain
object is `NaN`. -/
def numberSign : JSValue → NumSign
  | JSValue.prim p => p.numberSign
  | JSValue.arr xs => stringSign (toStr (JSValue.arr xs))
  | JSValue.obj => NumSign.nan

/-- The comparison `x <= y` on numbers: false as soon as one side is `NaN`. -/
def numLe : Option Int → Option Int → Bool
  | some a, some b => decide (a ≤ b)
  | _, _ => false

/-- The comparison `x > y` on numbers: false as soon as one side is `NaN`. -/
def numGt : Option Int → Option Int → Bool
  | some a, some b => decide (b < a)
  | _, _ => false

/-- The subtraction `x - y` on numbers: `NaN` as soon as one side is `NaN`. -/
def numSub : Option Int → Option Int → Option Int
  | some a, some b => some (a - b)
  | _, _ => none

/-- The test `Array.isArray(v)`. -/
def isArray : JSValue → Bool
  | JSValue.arr _ => true
  | _ => false

/-- The test `v == null`: true of `null` and `undefined` only. -/
def looseEqNull : JSValue → Bool
  | JSValue.prim JSPrim.null => true
  | JSValue.prim JSPrim.undefined => true
  | _ => false

/-- The test `v === s` against a string literal `s`. -/
def strictEqStr (v : JSValue) (s : String) : Bool := decide (v = JSValue.str s)

/-- The lower-case form of a code point whose lower-case form is ASCII: the
letters `A` to `Z` and the Kelvin sign U+212A, which becomes `k`.  Every other
code point, whose lower-case form holds a code point outside ASCII, is left as
it is. -/
def lowerChar (c : Char) : Char := if c.toNat == 0x212A then 'k' else c.toLower

/-- The method `String.prototype.toLowerCase`, as the comparisons with the ASCII aliases of
the renderer and of the validator see it: code point by code point with
`lowerChar`. -/
def toLowerCase (s : String) : String := String.mk (s.data.map lowerChar)

/-- Whether `v` is a `type` on which `toLowerCase` is the method of the language itself: a
string of ASCII characters, or a missing type (`undefined` or `null`).  The
lower-case forms of the other code points, beyond the Kelvin sign, follow the
Unicode tables and are not modelled. -/
def hasAsciiType : JSValue → Bool
  | JSValue.prim (JSPrim.str s) => s.data.all (fun c => decide (c.toNat < 128))
  | JSValue.prim JSPrim.undefined => true
  | JSValue.prim JSPrim.null => true
  | _ => false

/-! ## Questions and the answer store -/

/-- A question object, raw or normalized: the properties the component reads
or writes.  An absent property is `undefined`. -/
structure Question where
  _id : JSValue
  id : JSValue
  key : JSValue
  type : JSValue
  text : JSValue
  label : JSValue
  options : JSValue
  scaleMax : JSValue
  order : JSValue
  required : JSValue
  _qid : JSValue
  deriving DecidableEq, Repr

/-- The object literal `{}` seen as a question: every property absent. -/
def Question.empty : Question :=
  { _id := JSValue.undefined, id := JSValue.undefined, key := JSValue.undefined,
    type := JSValue.undefined, text := JSValue.undefined, label := JSValue.undefined,
    options := JSValue.undefined, scaleMax := JSValue.undefined,
    order := JSValue.undefined, required := JSValue.undefined,
    _qid := JSValue.undefined }

/-- The `answers` object: its own properties, as key and value pairs, in the order in which
the keys were first written.  (The language lists integer-like keys first;
nothing below depends on the order of the pairs of a store with such keys.) -/
abbrev Answers := List (String × JSValue)

/-- The property read `answers[k]`: the key is converted to a string and an
absent key reads as `undefined`.  What an absent key inherits from
`Object.prototype` (under `__proto__`, `constructor` and the like) is not part of
this read. -/
def getAnswer (answers : Answers) (k : JSValue) : JSValue :=
  (answers.lookup (toStr k)).getD JSValue.undefined

/-- The object `{ ...a, [qid]: val }`: the value under `qid` is replaced, or
the pair is added when the key is new. -/
def setKey : Answers → String → JSValue → Answers
  | [], k, v => [(k, v)]
  | (k', v') :: rest, k, v =>
      if k' = k then (k', v) :: rest else (k', v') :: setKey rest k v

/-- The function `setAnswer(qid, val)` (line 72). -/
def setAnswer (answers : Answers) (qid val : JSValue) : Answers :=
  setKey answers (toStr qid) val

/-! ## Validator (`requiredMissing`, lines 74-83) -/

/-- The test `q.type === 'checkbox' || q.type === 'multi'`. -/
def isMultiType (t : JSValue) : Bool :=
  strictEqStr t "checkbox" || strictEqStr t "multi"

/-- The test `q.type === 'rating'`. -/
def isRatingType (t : JSValue) : Bool := strictEqStr t "rating"

/-- The array test of line 78: `!Array.isArray(v) || v.length === 0`. -/
def notNonEmptyArray : JSValue → Bool
  | JSValue.arr xs => xs.length == 0
  | _ => true

/-- The function `requiredMissing()`: the loop of lines 75-81 over `questions`, reading the
answers of the current render.  `none` is the `null` of line 82. -/
def requiredMissing : List Question → Answers → Option Question
  | [], _ => none
  | q :: rest, answers =>
      if !truthy q.required then requiredMissing rest answers
      else
        let v := getAnswer answers q._qid
        if isMultiType q.type && notNonEmptyArray v then some q
        else if isRatingType q.type && (!truthy v || (numberSign v).leZero)
        then some q
        else if !(isMultiType q.type || isRatingType q.type)
                  && (strictEqStr v "" || looseEqNull v)
        then some q
        else requiredMissing rest answers

/-! ## Schema normalizer (`questions`, lines 42-53) -/

/-- One operand of the comparator of line 44, `a.order || 0`, as the number
the subtraction sees; `none` is `NaN`. -/
def orderKey (q : Question) : Option Int :=
  toNumber (jsOr q.order (JSValue.num 0))

/-- The comparator of line 44: `(a.order || 0) - (b.order || 0)`. -/
def compareOrder (a b : Question) : Option Int :=
  numSub (orderKey a) (orderKey b)

/-- Whether `Array.prototype.sort` may leave `a` before `b`: the comparator's
result is not positive, a `NaN` result being taken as `+0`. -/
def sortLe (a b : Question) : Bool :=
  match compareOrder a b with
  | none => true
  | some d => decide (d ≤ 0)

/-- The array `sorted` of line 44: `[...arr].sort(...)`, a stable sort, as
insertion of each element before the first element it may precede.  When an
order key is `NaN` the comparator is not consistent and the language leaves
the order of the result to the engine; the statements on the order of
`sorted` are made for keys that are not `NaN`. -/
def sortedQuestions (arr : List Question) : List Question :=
  arr.insertionSort (fun a b => sortLe a b = true)

/-- The method `Array.prototype.map` with the callback's index argument, counting from
`i`. -/
def mapFrom {α β : Type} (f : α → Nat → β) : Nat → List α → List β
  | _, [] => []
  | i, x :: xs => f x i :: mapFrom f (i + 1) xs

/-- The value of `Number(q.scaleMax)` as a JavaScript value. -/
def numberValue : Option Int → JSValue
  | some n => JSValue.num n
  | none => JSValue.nan

/-- The callback of lines 45-52: the object `{ ...q, _qid, type, text,
options, scaleMax }` built for the question `q` at position `idx`. -/
def normalizeQuestion (q : Question) (idx : Nat) : Question :=
  { q with
    _qid := jsOr (jsOr (jsOr q._id q.id) q.key) (JSValue.str ("q" ++ toString idx))
    type := JSValue.str (toLowerCase (toStr (jsOr q.type (JSValue.str ""))))
    text := jsOr (jsOr q.text q.label) (JSValue.str ("Question " ++ toString (idx + 1)))
    options := if isArray q.options then q.options else JSValue.arr []
    scaleMax := if numGt (toNumber q.scaleMax) (some 0)
                then numberValue (toNumber q.scaleMax) else JSValue.num 5 }

/-- The normalizer of lines 44-52 on the array `arr`: sort, then map. -/
def normalize (arr : List Question) : List Question :=
  mapFrom normalizeQuestion 0 (sortedQuestions arr)

/-- A survey object: its `_id` and its `questions`, which is `none` when the
property is not an array. -/
structure Survey where
  _id : JSValue
  questions : Option (List Question)
  deriving DecidableEq, Repr

/-- The memoized `questions` of lines 42-53 for the current `survey`; a missing
survey or a `questions` property that is not an array gives `[]`. -/
def questions (survey : Option Survey) : List Question :=
  match survey with
  | some s => normalize (s.questions.getD [])
  | none => normalize []

/-- The effect of lines 56-63: the object `init` filled by `forEach`, each assignment
creating or overwriting the property of its key.  (The key `__proto__`, whose
assignment creates no property, is kept out of the statements on this
object.) -/
def initAnswers (qs : List Question) : Answers :=
  qs.foldl
    (fun init q =>
      if isMultiType q.type then setKey init (toStr q._qid) (JSValue.arr [])
      else setKey init (toStr q._qid) (JSValue.str ""))
    []

/-- The loop of lines 58-61 continued from an object `init` already holding
some keys. -/
def initFrom (init : Answers) (qs : List Question) : Answers :=
  qs.foldl
    (fun init q =>
      if isMultiType q.type then setKey init (toStr q._qid) (JSValue.arr [])
      else setKey init (toStr q._qid) (JSValue.str ""))
    init

/-! ## Prompt controller (`close` and `submit`, lines 65-111) -/

/-- The props of the component; `onClose` and `onSubmitted` record whether
the host supplied that handler. -/
structure Props where
  openProp : JSValue
  survey : Option Survey
  onClose : Bool
  onSubmitted : Bool
  deriving DecidableEq, Repr

/-- The component state held by `useState`. -/
structure State where
  internalOpen : Bool
  internalSurvey : Option Survey
  answers : Answers
  saving : Bool
  deriving DecidableEq, Repr

/-- One entry of the submit payload (lines 94-99). -/
structure PayloadEntry where
  questionId : JSValue
  type : JSValue
  label : JSValue
  value : JSValue
  deriving DecidableEq, Repr

/-- What `submit` and `close` do to the outside world, in call order. -/
inductive Effect where
  | toastError (msg : JSValue)
  | toastSuccess (msg : String)
  | submitCall (surveyId : JSValue) (answers : List PayloadEntry)
  | onSubmitted
  | onClose
  deriving DecidableEq, Repr

/-- The error a rejected submit call carries: `e?.response?.data?.error` and
`e?.message`. -/
structure SubmitError where
  responseError : JSValue
  message : JSValue
  deriving DecidableEq, Repr

/-- How the awaited call of line 102 settles. -/
inductive SubmitOutcome where
  | resolved
  | rejected (e : SubmitError)
  deriving DecidableEq, Repr

/-- Line 15: `typeof props.open === 'boolean' || !!props.survey`. -/
def controlled (props : Props) : Bool :=
  (match props.openProp with
   | JSValue.prim (JSPrim.bool _) => true
   | _ => false) || props.survey.isSome

/-- Line 20: `controlled ? props.open : internalOpen`. -/
def isOpen (props : Props) (st : State) : JSValue :=
  if controlled props then props.openProp else JSValue.bool st.internalOpen

/-- Line 21: `controlled ? props.survey : internalSurvey`. -/
def currentSurvey (props : Props) (st : State) : Option Survey :=
  if controlled props then props.survey else st.internalSurvey

/-- Line 65: the component renders the prompt, and defines its handlers,
only when there is a survey and `open` is truthy. -/
def rendered (props : Props) (st : State) : Bool :=
  (currentSurvey props st).isSome && truthy (isOpen props st)

/-- The function `close()` (lines 67-70): the host's `onClose` when controlled and
supplied, else `setInternalOpen(false)`. -/
def close (props : Props) (st : State) : State × List Effect :=
  if controlled props then (st, if props.onClose then [Effect.onClose] else [])
  else ({ st with internalOpen := false }, [])

/-- The list `payload.answers` of lines 94-99. -/
def buildPayload (qs : List Question) (answers : Answers) : List PayloadEntry :=
  qs.map (fun q =>
    { questionId := jsOr (jsOr q._id q.id) q._qid
      type := q.type
      label := q.text
      value := getAnswer answers q._qid })

/-- The message of line 107:
`e?.response?.data?.error || e?.message || 'Submission failed'`. -/
def failureMessage (e : SubmitError) : JSValue :=
  jsOr (jsOr e.responseError e.message) (JSValue.str "Submission failed")

/-- The function `submit()` up to the `await` of line 102: either the validation message of
lines 86-90 (`Sum.inl`), or `setSaving(true)` and the call to the submit
interface (`Sum.inr`). -/
def submitBegin (survey : Survey) (st : State) :
    (State × List Effect) ⊕ (State × List Effect) :=
  let qs := questions (some survey)
  match requiredMissing qs st.answers with
  | some miss =>
      Sum.inl (st, [Effect.toastError (JSValue.str ("Please answer: " ++ toStr miss.text))])
  | none =>
      Sum.inr ({ st with saving := true },
        [Effect.submitCall survey._id (buildPayload qs st.answers)])

/-- The function `submit()` after the `await` of line 102 (lines 103-110): on success the
toast, `props.onSubmitted?.()` and `close()`; on rejection the error toast;
`setSaving(false)` in both cases. -/
def submitSettle (props : Props) (st : State) : SubmitOutcome → State × List Effect
  | SubmitOutcome.resolved =>
      let r := close props st
      ({ r.1 with saving := false },
        [Effect.toastSuccess "Thanks! Your response has been submitted."]
          ++ (if props.onSubmitted then [Effect.onSubmitted] else []) ++ r.2)
  | SubmitOutcome.rejected e =>
      ({ st with saving := false }, [Effect.toastError (failureMessage e)])

/-- The function `submit()` (lines 85-111) run to completion, the awaited call settling as
`outcome`.  The handler exists only on a rendered prompt (line 65). -/
def submit (props : Props) (st : State) (outcome : SubmitOutcome) : State × List Effect :=
  if rendered props st then
    match currentSurvey props st with
    | none => (st, [])
    | some survey =>
        match submitBegin survey st with
        | Sum.inl r => r
        | Sum.inr (st1, effs1) =>
            let r := submitSettle props st1 outcome
            (r.1, effs1 ++ r.2)
  else (st, [])

/-! ## Multi-choice toggle (lines 184-189) -/

/-- The test `arr.includes(opt)`: membership under SameValueZero, which on
primitives is equality of values (`NaN` is found in a list holding `NaN`). -/
def includes (arr : List JSPrim) (opt : JSPrim) : Bool := decide (opt ∈ arr)

/-- The test `x !== opt` on primitives: `NaN` differs from everything, itself
included. -/
def strictNe (x opt : JSPrim) : Bool := decide (x = JSPrim.nan ∨ x ≠ opt)

/-- The list `arr` of line 185: `Array.isArray(val) ? val : []`. -/
def answerList : JSValue → List JSPrim
  | JSValue.arr xs => xs
  | _ => []

/-- The function `toggle(opt)` of lines 186-189 for the question `q`, on the
answers of the current render. -/
def toggle (answers : Answers) (q : Question) (opt : JSPrim) : Answers :=
  let arr := answerList (getAnswer answers q._qid)
  if includes arr opt
  then setAnswer answers q._qid (JSValue.arr (arr.filter (fun x => strictNe x opt)))
  else setAnswer answers q._qid (JSValue.arr (arr ++ [opt]))

/-! ## Auto-prompt effect (lines 27-40) -/

/-- What the awaited eligibility result of line 32 holds: an array of surveys,
a single survey object, or a falsy value. -/
inductive FetchData where
  | list (surveys : List Survey)
  | single (survey : Survey)
  | falsy
  deriving DecidableEq, Repr

/-- How the awaited call of lines 31-32 settles. -/
inductive FetchOutcome where
  | resolved (data : FetchData)
  | rejected
  deriving DecidableEq, Repr

/-- What the auto-prompt effect does to the outside world: its one call,
`surveysAPI.eligibleActive?.() || surveysAPI.forMe()`. -/
inductive AutoEffect where
  | eligibleQuery
  deriving DecidableEq, Repr

/-- Line 33: `Array.isArray(data) ? data[0] : data`, `none` when that value is
falsy. -/
def firstSurvey : FetchData → Option Survey
  | FetchData.list surveys => surveys.head?
  | FetchData.single survey => some survey
  | FetchData.falsy => none

/-- The effect of lines 27-40 run to completion, the awaited call settling as
`outcome`: nothing when controlled; else the query, and on a truthy survey
`setInternalSurvey(s)` and `setInternalOpen(true)`. -/
def autoPrompt (props : Props) (st : State) (outcome : FetchOutcome) :
    State × List AutoEffect :=
  if controlled props then (st, [])
  else
    match outcome with
    | FetchOutcome.rejected => (st, [AutoEffect.eligibleQuery])
    | FetchOutcome.resolved data =>
        match firstSurvey data with
        | some s =>
            ({ st with internalSurvey := some s, internalOpen := true },
              [AutoEffect.eligibleQuery])
        | none => (st, [AutoEffect.eligibleQuery])

/-! ## Eligibility prober (`hooks/useSurveyPrompt.js`) and the role helpers
of `contexts/AuthContext.js` -/

/-- The user object of the auth state: the three properties the role is read
from. -/
structure User where
  role : JSValue
  userType : JSValue
  type : JSValue
  deriving DecidableEq, Repr

/-- Line 54 of `AuthContext.js`:
`u?.role || u?.userType || u?.type || null`. -/
def getRoleFromUser (u : Option User) : JSValue :=
  match u with
  | none => JSValue.null
  | some u => jsOr (jsOr (jsOr u.role u.userType) u.type) JSValue.null

/-- Line 135 of `AuthContext.js`: `role === 'student' || role === 'alumni'`. -/
def isStudentOrAlumni (role : JSValue) : Bool :=
  strictEqStr role "student" || strictEqStr role "alumni"

/-- An eligibility record: its string identifier `_id` and the stub's other
properties. -/
structure EligibilityRecord where
  _id : String
  title : JSValue
  description : JSValue
  deriving DecidableEq, Repr

/-- The item `survey_prompted_ids` of local storage, by what line 21 reads
from it: nothing stored (the `'[]'` default applies), the JSON text of an
array of identifiers as line 26 writes it, or a text on which `JSON.parse`
throws. -/
inductive PromptedItem where
  | absent
  | array (ids : List String)
  | malformed
  deriving DecidableEq, Repr

/-- The two items of local storage the prober uses. -/
structure LocalStorage where
  survey_last_check : Option String
  survey_prompted_ids : PromptedItem
  deriving DecidableEq, Repr

/-- An error caught by line 29: the rejection of the eligibility call, or the
`SyntaxError` of `JSON.parse`. -/
inductive ProberError where
  | rejection (e : JSValue)
  | jsonSyntaxError
  deriving DecidableEq, Repr

/-- How the awaited call of line 17 settles; a resolved value that is not an
array is `none`. -/
inductive EligibleOutcome where
  | resolved (list : Option (List EligibilityRecord))
  | rejected (e : JSValue)
  deriving DecidableEq, Repr

/-- What a run of the prober does to the outside world, in call order. -/
inductive ProberEffect where
  | eligible
  | setLastCheck (value : String)
  | setPromptedIds (ids : List String)
  | onFound (first : EligibilityRecord)
  | warn (e : ProberError)
  deriving DecidableEq, Repr

/-- The parameter `{ onFound, throttleMinutes = 60 }` of line 5: whether a
callback was supplied, and the supplied `throttleMinutes` (`undefined` when it
was not). -/
structure ProberOptions where
  onFound : Bool
  throttleMinutes : JSValue
  deriving DecidableEq, Repr

/-- The inputs of one run of the effect of lines 8-34: the auth state, the
options, the two readings of `Date.now()` (lines 11 and 18) and the way the
eligibility call settles. -/
structure ProberRun where
  isAuthenticated : Bool
  user : Option User
  options : ProberOptions
  now : Int
  nowAfterCall : Int
  outcome : EligibleOutcome
  deriving DecidableEq, Repr

/-- The outcome of a run: the storage it leaves, its effects, and the error
that escapes to its caller, if any. -/
structure ProberResult where
  storage : LocalStorage
  effects : List ProberEffect
  uncaught : Option ProberError
  deriving DecidableEq, Repr

/-- The comparison `x < y` on numbers: false as soon as one side is `NaN`. -/
def numLt : Option Int → Option Int → Bool
  | some a, some b => decide (a < b)
  | _, _ => false

/-- The product `x * y` on numbers: `NaN` as soon as one side is `NaN`. -/
def numMul : Option Int → Option Int → Option Int
  | some a, some b => some (a * b)
  | _, _ => none

/-- The value of `localStorage.getItem('survey_last_check')`: the stored
string, or `null`. -/
def getLastCheck (st : LocalStorage) : JSValue :=
  match st.survey_last_check with
  | some s => JSValue.str s
  | none => JSValue.null

/-- Line 12: `Number(localStorage.getItem('survey_last_check') || 0)`. -/
def lastChecked (st : LocalStorage) : Option Int :=
  toNumber (jsOr (getLastCheck st) (JSValue.num 0))

/-- The default of line 5: `throttleMinutes` is `60` when `undefined`. -/
def throttleMinutes (options : ProberOptions) : JSValue :=
  if options.throttleMinutes = JSValue.undefined then JSValue.num 60
  else options.throttleMinutes

/-- The right-hand side of line 13: `throttleMinutes * 60_000`. -/
def throttleWindow (options : ProberOptions) : Option Int :=
  numMul (toNumber (throttleMinutes options)) (some 60000)

/-- The test of line 13: `now - last < throttleMinutes * 60_000`. -/
def throttled (run : ProberRun) (st : LocalStorage) : Bool :=
  numLt (numSub (some run.now) (lastChecked st)) (throttleWindow run.options)

/-- Line 21: `JSON.parse(localStorage.getItem('survey_prompted_ids') || '[]')`;
`none` when `JSON.parse` throws. -/
def parsePrompted : PromptedItem → Option (List String)
  | PromptedItem.absent => some []
  | PromptedItem.array ids => some ids
  | PromptedItem.malformed => none

/-- Line 22: `Array.isArray(list) ? list.find(s => !prompted.includes(s._id))
: null`. -/
def findFirst (list : Option (List EligibilityRecord)) (prompted : List String) :
    Option EligibilityRecord :=
  match list with
  | some records => records.find? (fun s => !decide (s._id ∈ prompted))
  | none => none

/-- The body of the `try` (lines 17-28) once the awaited call has settled:
the storage and effects so far, and the error thrown, if any. -/
def proberTry (options : ProberOptions) (nowAfterCall : Int) (outcome : EligibleOutcome)
    (st : LocalStorage) : LocalStorage × List ProberEffect × Option ProberError :=
  match outcome with
  | EligibleOutcome.rejected e => (st, [], some (ProberError.rejection e))
  | EligibleOutcome.resolved list =>
      let st1 := { st with survey_last_check := some (toString nowAfterCall) }
      let effs1 := [ProberEffect.setLastCheck (toString nowAfterCall)]
      match parsePrompted st1.survey_prompted_ids with
      | none => (st1, effs1, some ProberError.jsonSyntaxError)
      | some prompted =>
          match findFirst list prompted with
          | none => (st1, effs1, none)
          | some first =>
              ({ st1 with
                  survey_prompted_ids := PromptedItem.array (prompted ++ [first._id]) },
                effs1 ++ [ProberEffect.setPromptedIds (prompted ++ [first._id])]
                  ++ (if options.onFound then [ProberEffect.onFound first] else []),
                none)

/-- The async function of lines 15-33 after its `await`: the `try` body, and
the `catch` of lines 29-32, which logs the error and lets nothing escape. -/
def proberAsync (options : ProberOptions) (nowAfterCall : Int) (outcome : EligibleOutcome)
    (st : LocalStorage) : ProberResult :=
  match proberTry options nowAfterCall outcome st with
  | (st1, effs, none) => { storage := st1, effects := effs, uncaught := none }
  | (st1, effs, some e) =>
      { storage := st1, effects := effs ++ [ProberEffect.warn e], uncaught := none }

/-- One run of the effect of `useSurveyPrompt` (lines 8-34): the guards of
lines 9 and 13, then the eligibility call and the async function. -/
def useSurveyPrompt (run : ProberRun) (st : LocalStorage) : ProberResult :=
  if !run.isAuthenticated || !isStudentOrAlumni (getRoleFromUser run.user) then
    { storage := st, effects := [], uncaught := none }
  else if throttled run st then
    { storage := st, effects := [], uncaught := none }
  else
    let r := proberAsync run.options run.nowAfterCall run.outcome st
    { storage := r.storage, effects := ProberEffect.eligible :: r.effects,
      uncaught := r.uncaught }

/-- A sequence of runs sharing one local storage: each run starts on the
storage the previous one left; the effects are collected in order. -/
def proberRuns : List ProberRun → LocalStorage → LocalStorage × List ProberEffect
  | [], st => (st, [])
  | run :: rest, st =>
      let r := useSurveyPrompt run st
      let r2 := proberRuns rest r.storage
      (r2.1, r.effects ++ r2.2)

/-- The identifiers of the records passed to `onFound`, in call order. -/
def foundIds : List ProberEffect → List String
  | [] => []
  | ProberEffect.onFound first :: rest => first._id :: foundIds rest
  | _ :: rest => foundIds rest

/-- The identifiers line 21 reads from the storage; none when the item cannot
be parsed. -/
def promptedIds (st : LocalStorage) : List String :=
  (parsePrompted st.survey_prompted_ids).getD []

/-! ## Renderers (`Rating`, lines 114-136, and `Question`, lines 138-218) -/

/-- The element the `Question` component returns: the text input of line 144
(which the default of line 210 repeats), the textarea, the radio group, the
checkbox group with `toggle`, or the `Rating` component. -/
inductive InputKind where
  | textInput
  | textarea
  | radioGroup
  | checkboxGroup
  | rating
  deriving DecidableEq, Repr

/-- The chain of tests on `t = q.type` in the `Question` component (lines
142, 153, 164, 184 and 205), ending on the default of line 208. -/
def renderQuestion (t : JSValue) : InputKind :=
  if strictEqStr t "text" || strictEqStr t "short" || strictEqStr t "short_text" then
    InputKind.textInput
  else if strictEqStr t "textarea" || strictEqStr t "essay" || strictEqStr t "paragraph"
      || strictEqStr t "short_essay" || strictEqStr t "long_text" then
    InputKind.textarea
  else if strictEqStr t "radio" || strictEqStr t "choice" || strictEqStr t "single"
      || strictEqStr t "multiple_choice" then
    InputKind.radioGroup
  else if strictEqStr t "checkbox" || strictEqStr t "multi" then
    InputKind.checkboxGroup
  else if strictEqStr t "rating" then
    InputKind.rating
  else
    InputKind.textInput

/-- Line 116: `q.scaleMax || 5`. -/
def ratingMax (q : Question) : JSValue := jsOr q.scaleMax (JSValue.num 5)

/-- The numbers `n = i + 1` of the buttons drawn by line 119,
`Array.from({ length: max })`, for a `max` that is a number: `1` to `max`, none when `max` is
not positive, and none either from `2 ^ 32` on, where `Array.from` throws a
`RangeError` instead of building the array. -/
def ratingButtons (q : Question) : List Int :=
  match toNumber (ratingMax q) with
  | some m =>
      if m < 4294967296 then (List.range m.toNat).map (fun (i : Nat) => Int.ofNat i + 1)
      else []
  | none => []

/-- The click handler of the button `n` (line 126): `setAnswer(q._qid, n)`. -/
def clickRating (answers : Answers) (q : Question) (n : Int) : Answers :=
  setAnswer answers q._qid (JSValue.num n)

/-! ## Dismissal (lines 225 and 238) -/

/-- The click handler of the close button (line 238), `close`; the button
exists only on a rendered prompt. -/
def clickCloseButton (props : Props) (st : State) : State × List Effect :=
  if rendered props st then close props st else (st, [])

/-- The click handler of the backdrop (line 225):
`if (e.target === e.currentTarget) close()`, where `onBackdrop` tells whether
the click hit the backdrop itself rather than the panel inside it. -/
def clickBackdrop (onBackdrop : Bool) (props : Props) (st : State) :
    State × List Effect :=
  if rendered props st then
    (if onBackdrop then close props st else (st, []))
  else (st, [])

/-! ## The specification's wording, for comparison with the code -/

/-- Whether `v` is a non-empty list. -/
def isNonEmptyList : JSValue → Bool
  | JSValue.arr (_ :: _) => true
  | _ => false

/-- The per-type requirement check in the specification's words: a
multi-choice question fails when the stored value is not a non-empty list, a
rating question when it is falsy or numerically at most `0`, and every other
question when it is the empty string, `null` or `undefined`. -/
def specRequirementFails (q : Question) (v : JSValue) : Bool :=
  if isMultiType q.type then !isNonEmptyList v
  else if isRatingType q.type then !truthy v || (numberSign v).leZero
  else decide (v = JSValue.str "" ∨ v = JSValue.null ∨ v = JSValue.undefined)

/-- A question is unmet when it is required and its stored answer fails the
per-type requirement check. -/
def specUnmet (answers : Answers) (q : Question) : Bool :=
  truthy q.required && specRequirementFails q (getAnswer answers q._qid)

/-- The order key in the specification's words: the numeric `order`, a
missing or non-numeric one counting as `0`. -/
def specOrderKey (q : Question) : Int :=
  match q.order with
  | JSValue.prim (JSPrim.num n) => n
  | _ => 0

/-- The order key the comparator of line 44 works with, `Number(q.order || 0)`,
read as `0` where that is `NaN`. -/
def orderNumber (q : Question) : Int := (orderKey q).getD 0

/-- The list `sorted` is `arr` stably sorted by `key`: a rearrangement of
`arr`, ascending in `key`, in which the questions of each key keep the
relative order they have in `arr`. -/
def IsStableSortBy (key : Question → Int) (arr sorted : List Question) : Prop :=
  sorted.Perm arr ∧
  sorted.Pairwise (fun a b => key a ≤ key b) ∧
  ∀ k : Int,
    sorted.filter (fun q => decide (key q = k)) = arr.filter (fun q => decide (key q = k))

/-- The list `out` is the normalization, position by position, of `arr`
stably sorted by `key`. -/
def NormalizedStableSortBy (key : Question → Int) (arr out : List Question) : Prop :=
  ∃ sorted, IsStableSortBy key arr sorted ∧ out = mapFrom normalizeQuestion 0 sorted

/-- The identifier chain of line 47 spelled out: the first truthy one of
`_id`, `id` and `key`, else the synthetic `q{idx}`. -/
def specIdentifier (q : Question) (idx : Nat) : JSValue :=
  if truthy q._id then q._id
  else if truthy q.id then q.id
  else if truthy q.key then q.key
  else JSValue.str ("q" ++ toString idx)

/-- The text chain of line 49 spelled out: the first truthy one of `text` and
`label`, else `Question {idx + 1}`. -/
def specText (q : Question) (idx : Nat) : JSValue :=
  if truthy q.text then q.text
  else if truthy q.label then q.label
  else JSValue.str ("Question " ++ toString (idx + 1))

/-- The initial answer of a question in the specification's words: the empty
list for a multi-choice question, the empty string for every other one. -/
def specInitialAnswer (q : Question) : JSValue :=
  if isMultiType q.type then JSValue.arr [] else JSValue.str ""

/-- The self-driven rule in the specification's words, for the prober clock
and options of `run`, the local storage `storage` and the eligibility result
`surveys`: while the throttle window has not elapsed the controller neither
queries nor opens; otherwise it opens with the first survey whose identifier
is not in the persisted prompted-set, and stays as it is when there is
none. -/
def SelfDrivenFollowsProber (props : Props) (st : State) (run : ProberRun)
    (storage : LocalStorage) (surveys : List Survey) : Prop :=
  (throttled run storage = true →
    autoPrompt props st (FetchOutcome.resolved (FetchData.list surveys)) = (st, [])) ∧
  (throttled run storage = false →
    (autoPrompt props st (FetchOutcome.resolved (FetchData.list surveys))).1
      = match surveys.find? (fun s => !decide (toStr s._id ∈ promptedIds storage)) with
        | some s => { st with internalSurvey := some s, internalOpen := true }
        | none => st)

/-- The key under which a question's answer is kept: its identifier as a
property key. -/
def answerKey (q : Question) : String := toStr q._qid

/-- The store holds exactly one entry per question, in the specification's
words: as many keys as questions, and no two questions of the list share a
key. -/
def OneEntryPerQuestion (qs : List Question) : Prop :=
  (initAnswers qs).length = qs.length ∧
  qs.Pairwise (fun a b => answerKey a ≠ answerKey b)

/-- Whether `k` is a string other than `__proto__`: an identifier as the data model has
it, under which the assignment `init[k] = v` creates a property of `init`. -/
def isStringKey : JSValue → Bool
  | JSValue.prim (JSPrim.str s) => s != "__proto__"
  | _ => false

/-- The identifiers of `qs` are strings other than `__proto__` and pairwise
distinct. -/
def distinctStringKeys (qs : List Question) : Bool :=
  qs.all (fun q => isStringKey q._qid) && decide ((qs.map answerKey).Nodup)

/-- Validating the fresh store returns the first required question of the
list, in the specification's words; `none` is `null`. -/
def FreshStoreReportsFirstRequired (qs : List Question) : Prop :=
  requiredMissing qs (initAnswers qs) = qs.find? (fun q => truthy q.required)

/-- Dismissal is blocked while a submit is in flight, in the specification's
words: in a rendered state where saving is true, the close button and a click
on the backdrop leave the prompt rendered, change nothing and call nothing. -/
def DismissalBlockedWhileSaving (props : Props) (st : State) : Prop :=
  rendered props st = true → st.saving = true →
    (clickCloseButton props st = (st, []) ∧ clickBackdrop true props st = (st, []))

/-- A question type is choice-based when the renderer draws a radio group
(single-choice) or a checkbox group (multi-choice) for it. -/
def isChoiceBased (t : JSValue) : Bool :=
  decide (renderQuestion t = InputKind.radioGroup)
    || decide (renderQuestion t = InputKind.checkboxGroup)

/-- The scale maximum in the specification's words: the provided value when
it is a positive number, and `5` otherwise. -/
def specScaleMax (provided : JSValue) : JSValue :=
  match provided with
  | JSValue.prim (JSPrim.num n) => if 0 < n then JSValue.num n else JSValue.num 5
  | _ => JSValue.num 5

/-- The aliases the renderer recognizes, for the five question kinds. -/
def recognizedAliases : List String :=
  ["text", "short", "short_text",
   "textarea", "essay", "paragraph", "short_essay", "long_text",
   "radio", "choice", "single", "multiple_choice",
   "checkbox", "multi",
   "rating"]

/-- A stale response is discarded, in the specification's words: when the
response of the call made for the survey `inflight` arrives while the prompt,
as the host and the state now have it, shows another survey or is closed, the
continuation of `submit` (run with the props of the render it was started
from) has no effect and leaves the open flag as it is. -/
def StaleResponseDiscarded (inflight : Survey) (props propsNow : Props) (st : State)
    (outcome : SubmitOutcome) : Prop :=
  (currentSurvey propsNow st ≠ some inflight ∨ rendered propsNow st = false) →
    ((submitSettle props st outcome).2 = [] ∧
      (submitSettle props st outcome).1.internalOpen = st.internalOpen)

/-- The validator applies the non-empty-list check to questions of type `t`:
a required question of that type is reported exactly when its stored value is
not a non-empty list. -/
def ValidatorAppliesListCheck (t : String) : Prop :=
  ∀ (q : Question) (answers : Answers), q.type = JSValue.str t →
    truthy q.required = true →
    (requiredMissing [q] answers = some q ↔
      isNonEmptyList (getAnswer answers q._qid) = false)

/-! ## Lemmas on the validator -/

theorem notNonEmptyArray_eq (v : JSValue) : notNonEmptyArray v = !isNonEmptyList v := by
  cases v with
  | prim p => rfl
  | arr xs => cases xs <;> rfl
  | obj => rfl

theorem multi_not_rating (t : JSValue) (h : isMultiType t = true) : isRatingType t = false := by
  unfold isMultiType strictEqStr at h
  unfold isRatingType strictEqStr
  rcases Bool.or_eq_true _ _ |>.mp h with h1 | h1
  · have := of_decide_eq_true h1; subst this; decide
  · have := of_decide_eq_true h1; subst this; decide

theorem looseEqNull_eq (v : JSValue) :
    (strictEqStr v "" || looseEqNull v)
      = decide (v = JSValue.str "" ∨ v = JSValue.null ∨ v = JSValue.undefined) := by
  cases v with
  | prim p =>
      cases p <;> simp [strictEqStr, looseEqNull, JSValue.str, JSValue.null, JSValue.undefined]
  | arr xs => simp [strictEqStr, looseEqNull, JSValue.str, JSValue.null, JSValue.undefined]
  | obj => simp [strictEqStr, looseEqNull, JSValue.str, JSValue.null, JSValue.undefined]

/-- The values of `hasExactNumber`, one by one. -/
theorem hasExactNumber_cases (v : JSValue) (h : hasExactNumber v = true) :
    v = JSValue.undefined ∨ v = JSValue.null ∨ v = JSValue.nan ∨ v = JSValue.str "" ∨
      (∃ b : Bool, v = JSValue.bool b) ∨ (∃ n : Int, v = JSValue.num n) := by
  cases v with
  | prim p =>
      cases p with
      | undefined => exact Or.inl rfl
      | null => exact Or.inr (Or.inl rfl)
      | bool b => exact Or.inr (Or.inr (Or.inr (Or.inr (Or.inl ⟨b, rfl⟩))))
      | num n => exact Or.inr (Or.inr (Or.inr (Or.inr (Or.inr ⟨n, rfl⟩))))
      | nan => exact Or.inr (Or.inr (Or.inl rfl))
      | str t =>
          have ht : t = "" := by simpa [hasExactNumber] using h
          subst ht
          exact Or.inr (Or.inr (Or.inr (Or.inl rfl)))
  | arr xs => simp [hasExactNumber] at h
  | obj => simp [hasExactNumber] at h

/-- On the values whose number `toNumber` gives exactly, `numberSign` is the sign of
that number. -/
theorem numberSign_eq_toNumber (v : JSValue) (h : hasExactNumber v = true) :
    numberSign v = match toNumber v with
      | some n => intSign n
      | none => NumSign.nan := by
  rcases hasExactNumber_cases v h with h | h | h | h | ⟨b, h⟩ | ⟨n, h⟩
  · subst h; rfl
  · subst h; rfl
  · subst h; rfl
  · subst h; decide
  · subst h; cases b <;> rfl
  · subst h; rfl

/-- One turn of the loop of lines 75-81: the three tests of lines 78-80 taken
together are the per-type requirement check. -/
theorem requiredMissing_cons (q : Question) (rest : List Question) (answers : Answers) :
    requiredMissing (q :: rest) answers
      = if specUnmet answers q = true then some q else requiredMissing rest answers := by
  unfold specUnmet specRequirementFails
  rw [requiredMissing]
  simp only [notNonEmptyArray_eq, looseEqNull_eq]
  by_cases hr : truthy q.required = true
  · by_cases hm : isMultiType q.type = true
    · have hrt := multi_not_rating _ hm
      by_cases hv : isNonEmptyList (getAnswer answers q._qid) = true <;>
        simp [hr, hm, hrt, hv]
    · by_cases hrt : isRatingType q.type = true
      · by_cases hv : (!truthy (getAnswer answers q._qid)
            || (numberSign (getAnswer answers q._qid)).leZero) = true
        · simp only [Bool.not_eq_true] at hm
          simp [hr, hm, hrt, hv]
        · simp only [Bool.not_eq_true] at hm hv
          simp [hr, hm, hrt, hv]
      · simp only [Bool.not_eq_true] at hm hrt
        simp [hr, hm, hrt]
  · simp only [Bool.not_eq_true] at hr
    simp [hr]

/-- The validator returns the first unmet question of the list. -/
theorem requiredMissing_eq_find (qs : List Question) (answers : Answers) :
    requiredMissing qs answers = qs.find? (specUnmet answers) := by
  induction qs with
  | nil => rfl
  | cons q rest ih =>
      rw [requiredMissing_cons, List.find?_cons, ih]
      cases specUnmet answers q <;> rfl

/-! ## Validator: the claims -/

/-- C1: `requiredMissing` returns the first question in list order that is
required and fails its per-type requirement check (every earlier question is
met), returns `null` exactly when no required question fails, and a returned
question always has its required flag set; on the questions
`[{id:'a',required:true,type:'short_text'},{id:'b',required:true,type:'rating'}]`
with answers `{a:'', b:0}` it returns question `a`. -/
theorem requiredMissing_first_unmet (qs : List Question) (answers : Answers) :
    (∀ q, requiredMissing qs answers = some q →
        truthy q.required = true ∧
        specRequirementFails q (getAnswer answers q._qid) = true ∧
        ∃ before after, qs = before ++ q :: after ∧
          ∀ p ∈ before, ¬ (truthy p.required = true ∧
            specRequirementFails p (getAnswer answers p._qid) = true)) ∧
    (requiredMissing qs answers = none ↔
        ∀ q ∈ qs, ¬ (truthy q.required = true ∧
          specRequirementFails q (getAnswer answers q._qid) = true)) ∧
    requiredMissing
        (normalize
          [{ Question.empty with
              id := JSValue.str "a", required := JSValue.bool true,
              type := JSValue.str "short_text" },
           { Question.empty with
              id := JSValue.str "b", required := JSValue.bool true,
              type := JSValue.str "rating" }])
        [("a", JSValue.str ""), ("b", JSValue.num 0)]
      = some (normalizeQuestion
          { Question.empty with
              id := JSValue.str "a", required := JSValue.bool true,
              type := JSValue.str "short_text" } 0) := by
  refine ⟨?_, ?_, by decide⟩
  · intro q h
    rw [requiredMissing_eq_find, List.find?_eq_some] at h
    obtain ⟨hq, before, after, hsplit, hbefore⟩ := h
    have hq' : truthy q.required = true
        ∧ specRequirementFails q (getAnswer answers q._qid) = true := by
      simpa [specUnmet] using hq
    refine ⟨hq'.1, hq'.2, before, after, hsplit, ?_⟩
    intro p hp hcon
    have := hbefore p hp
    simp [specUnmet, hcon.1, hcon.2] at this
  · rw [requiredMissing_eq_find, List.find?_eq_none]
    constructor
    · intro h q hq hcon
      exact h q hq (by simp [specUnmet, hcon.1, hcon.2])
    · intro h q hq hcon
      apply h q hq
      simpa [specUnmet] using hcon

/-- Witness for C1 on a two-question list whose first question is answered and
whose second, a required rating, holds `0`. -/
theorem requiredMissing_first_unmet_witness :
    requiredMissing
        [{ Question.empty with
            _qid := JSValue.str "a", required := JSValue.bool true,
            type := JSValue.str "short_text" },
         { Question.empty with
            _qid := JSValue.str "b", required := JSValue.bool true,
            type := JSValue.str "rating" }]
        [("a", JSValue.str "x"), ("b", JSValue.num 0)]
      = some { Question.empty with
            _qid := JSValue.str "b", required := JSValue.bool true,
            type := JSValue.str "rating" } ∧
    (truthy (JSValue.bool true) = true ∧
      specRequirementFails
        { Question.empty with
            _qid := JSValue.str "b", required := JSValue.bool true,
            type := JSValue.str "rating" } (JSValue.num 0) = true) :=
  ⟨by decide,
   let h := (requiredMissing_first_unmet
      [{ Question.empty with
          _qid := JSValue.str "a", required := JSValue.bool true,
          type := JSValue.str "short_text" },
       { Question.empty with
          _qid := JSValue.str "b", required := JSValue.bool true,
          type := JSValue.str "rating" }]
      [("a", JSValue.str "x"), ("b", JSValue.num 0)]).1
      { Question.empty with
          _qid := JSValue.str "b", required := JSValue.bool true,
          type := JSValue.str "rating" } (by decide)
   ⟨h.1, h.2.1⟩⟩

/-- C2: for a required multi-choice question (type `checkbox` or `multi`) and
any stored value, the validator reports the question exactly when the stored
value is not a non-empty list, and passes it exactly when it is one. -/
theorem multi_choice_requirement (q : Question) (answers : Answers)
    (hreq : truthy q.required = true) (hmulti : isMultiType q.type = true) :
    (requiredMissing [q] answers = some q ↔
        ¬ ∃ x xs, getAnswer answers q._qid = JSValue.arr (x :: xs)) ∧
    (requiredMissing [q] answers = none ↔
        ∃ x xs, getAnswer answers q._qid = JSValue.arr (x :: xs)) := by
  have hne : isNonEmptyList (getAnswer answers q._qid) = true ↔
      ∃ x xs, getAnswer answers q._qid = JSValue.arr (x :: xs) := by
    cases getAnswer answers q._qid with
    | prim p => simp [isNonEmptyList]
    | arr xs => cases xs <;> simp [isNonEmptyList]
    | obj => simp [isNonEmptyList]
  rw [← hne]
  rw [requiredMissing_cons]
  simp only [specUnmet, specRequirementFails, hreq, hmulti, requiredMissing]
  cases isNonEmptyList (getAnswer answers q._qid) <;> simp

/-- Witness for C2: a required `checkbox` question with the answer `[]` is
unmet, and with the answer `['x']` it is met. -/
theorem multi_choice_requirement_witness :
    requiredMissing
        [{ Question.empty with
            _qid := JSValue.str "m", required := JSValue.bool true,
            type := JSValue.str "checkbox" }]
        [("m", JSValue.arr [])]
      = some { Question.empty with
            _qid := JSValue.str "m", required := JSValue.bool true,
            type := JSValue.str "checkbox" } ∧
    requiredMissing
        [{ Question.empty with
            _qid := JSValue.str "m", required := JSValue.bool true,
            type := JSValue.str "checkbox" }]
        [("m", JSValue.arr [JSPrim.str "x"])]
      = none :=
  ⟨(multi_choice_requirement
      { Question.empty with
          _qid := JSValue.str "m", required := JSValue.bool true,
          type := JSValue.str "checkbox" }
      [("m", JSValue.arr [])] (by decide) (by decide)).1.mpr
      (fun ⟨_, _, h⟩ => by
        rw [show getAnswer [("m", JSValue.arr [])] (JSValue.str "m") = JSValue.arr [] by
          decide] at h
        cases h),
   (multi_choice_requirement
      { Question.empty with
          _qid := JSValue.str "m", required := JSValue.bool true,
          type := JSValue.str "checkbox" }
      [("m", JSValue.arr [JSPrim.str "x"])] (by decide) (by decide)).2.mpr
      ⟨JSPrim.str "x", [], by decide⟩⟩

/-- C3: for a required rating question and any stored value `v`, the validator
reports the question exactly when `v` is falsy or `Number(v) <= 0`, that is
when `Number(v)` is negative or zero (`NaN` compares false); for a stored
number `n` that is `n <= 0`.  A stored `0` and the initial `''` are reported,
and every integer `n >= 1` (so every rating from 1 to scaleMax) is
accepted. -/
theorem rating_requirement (q : Question) (answers : Answers)
    (hreq : truthy q.required = true) (hrating : isRatingType q.type = true) :
    (requiredMissing [q] answers = some q ↔
        (truthy (getAnswer answers q._qid) = false ∨
          numberSign (getAnswer answers q._qid) = NumSign.negative ∨
          numberSign (getAnswer answers q._qid) = NumSign.zero)) ∧
    (requiredMissing [q] answers = none ↔
        ¬ (truthy (getAnswer answers q._qid) = false ∨
          numberSign (getAnswer answers q._qid) = NumSign.negative ∨
          numberSign (getAnswer answers q._qid) = NumSign.zero)) ∧
    (∀ n : Int, getAnswer answers q._qid = JSValue.num n →
        (requiredMissing [q] answers = some q ↔ n ≤ 0)) ∧
    (getAnswer answers q._qid = JSValue.num 0 → requiredMissing [q] answers = some q) ∧
    (getAnswer answers q._qid = JSValue.str "" → requiredMissing [q] answers = some q) ∧
    (∀ n : Int, 1 ≤ n → getAnswer answers q._qid = JSValue.num n →
        requiredMissing [q] answers = none) := by
  have hmulti : isMultiType q.type = false := by
    cases hm : isMultiType q.type
    · rfl
    · rw [multi_not_rating _ hm] at hrating; cases hrating
  have hle : ∀ s : NumSign, s.leZero = true ↔ (s = NumSign.negative ∨ s = NumSign.zero) := by
    intro s
    cases s <;> simp [NumSign.leZero]
  have key : requiredMissing [q] answers =
      if (!truthy (getAnswer answers q._qid)
          || (numberSign (getAnswer answers q._qid)).leZero) = true
      then some q else none := by
    rw [requiredMissing_cons]
    simp only [specUnmet, specRequirementFails, hreq, hmulti, hrating, requiredMissing]
    simp
  have hiff : (!truthy (getAnswer answers q._qid)
          || (numberSign (getAnswer answers q._qid)).leZero) = true ↔
      (truthy (getAnswer answers q._qid) = false ∨
          numberSign (getAnswer answers q._qid) = NumSign.negative ∨
          numberSign (getAnswer answers q._qid) = NumSign.zero) := by
    rw [Bool.or_eq_true, hle]
    simp
  have hnum : ∀ n : Int, (!truthy (JSValue.num n) || (numberSign (JSValue.num n)).leZero) = true
      ↔ n ≤ 0 := by
    intro n
    simp only [truthy, JSValue.num, JSPrim.truthy, numberSign, JSPrim.numberSign, intSign]
    by_cases h0 : n < 0
    · have hne : n ≠ 0 := by omega
      simp [h0, hne, NumSign.leZero]
      omega
    · by_cases h1 : n = 0
      · simp [h1, NumSign.leZero]
      · simp [h0, h1, NumSign.leZero]
        omega
  refine ⟨?_, ?_, ?_, ?_, ?_, ?_⟩
  · rw [key, ← hiff]
    by_cases h : (!truthy (getAnswer answers q._qid)
          || (numberSign (getAnswer answers q._qid)).leZero) = true <;> simp [h]
  · rw [key, ← hiff]
    by_cases h : (!truthy (getAnswer answers q._qid)
          || (numberSign (getAnswer answers q._qid)).leZero) = true <;> simp [h]
  · intro n hv
    rw [key, hv, ← hnum n]
    by_cases h : (!truthy (JSValue.num n) || (numberSign (JSValue.num n)).leZero) = true <;>
      simp [h]
  · intro hv
    rw [key, hv]
    rfl
  · intro hv
    rw [key, hv]
    rfl
  · intro n hn hv
    rw [key, hv]
    have h2 : ¬ ((!truthy (JSValue.num n) || (numberSign (JSValue.num n)).leZero) = true) := by
      rw [hnum n]
      omega
    simp only [Bool.not_eq_true] at h2
    simp [h2]

/-- Witness for C3: a required rating question holding `4` is accepted, one
holding the string `'0.0'` or `'-1.5'` is reported, and one holding `' 4 '` or
a string that is no number is accepted. -/
theorem rating_requirement_witness :
    truthy (JSValue.bool true) = true ∧ isRatingType (JSValue.str "rating") = true ∧
    requiredMissing
        [{ Question.empty with
            _qid := JSValue.str "r", required := JSValue.bool true,
            type := JSValue.str "rating" }]
        [("r", JSValue.num 4)]
      = none ∧
    requiredMissing
        [{ Question.empty with
            _qid := JSValue.str "r", required := JSValue.bool true,
            type := JSValue.str "rating" }]
        [("r", JSValue.str "0.0")]
      = some { Question.empty with
            _qid := JSValue.str "r", required := JSValue.bool true,
            type := JSValue.str "rating" } ∧
    requiredMissing
        [{ Question.empty with
            _qid := JSValue.str "r", required := JSValue.bool true,
            type := JSValue.str "rating" }]
        [("r", JSValue.str "-1.5")]
      = some { Question.empty with
            _qid := JSValue.str "r", required := JSValue.bool true,
            type := JSValue.str "rating" } ∧
    requiredMissing
        [{ Question.empty with
            _qid := JSValue.str "r", required := JSValue.bool true,
            type := JSValue.str "rating" }]
        [("r", JSValue.str "abc")]
      = none :=
  ⟨by decide, by decide,
   (rating_requirement
      { Question.empty with
          _qid := JSValue.str "r", required := JSValue.bool true,
          type := JSValue.str "rating" }
      [("r", JSValue.num 4)] (by decide) (by decide)).2.2.2.2.2 4 (by decide) (by decide),
   (rating_requirement
      { Question.empty with
          _qid := JSValue.str "r", required := JSValue.bool true,
          type := JSValue.str "rating" }
      [("r", JSValue.str "0.0")] (by decide) (by decide)).1.mpr (by decide),
   (rating_requirement
      { Question.empty with
          _qid := JSValue.str "r", required := JSValue.bool true,
          type := JSValue.str "rating" }
      [("r", JSValue.str "-1.5")] (by decide) (by decide)).1.mpr (by decide),
   (rating_requirement
      { Question.empty with
          _qid := JSValue.str "r", required := JSValue.bool true,
          type := JSValue.str "rating" }
      [("r", JSValue.str "abc")] (by decide) (by decide)).2.1.mpr (by decide)⟩

/-- C4: for a required question whose type is neither multi-choice nor rating
(any other value of `type`, the empty string included) and any stored value
`v`, the validator reports the question exactly when `v` is `''`, `null` or
`undefined`. -/
theorem other_type_requirement (q : Question) (answers : Answers)
    (hreq : truthy q.required = true)
    (hmulti : isMultiType q.type = false) (hrating : isRatingType q.type = false) :
    (requiredMissing [q] answers = some q ↔
        (getAnswer answers q._qid = JSValue.str "" ∨
          getAnswer answers q._qid = JSValue.null ∨
          getAnswer answers q._qid = JSValue.undefined)) ∧
    (requiredMissing [q] answers = none ↔
        ¬ (getAnswer answers q._qid = JSValue.str "" ∨
          getAnswer answers q._qid = JSValue.null ∨
          getAnswer answers q._qid = JSValue.undefined)) := by
  have key : requiredMissing [q] answers =
      if (getAnswer answers q._qid = JSValue.str "" ∨
          getAnswer answers q._qid = JSValue.null ∨
          getAnswer answers q._qid = JSValue.undefined)
      then some q else none := by
    rw [requiredMissing_cons]
    simp only [specUnmet, specRequirementFails, hreq, hmulti, hrating, requiredMissing]
    simp
  rw [key]
  by_cases h : (getAnswer answers q._qid = JSValue.str "" ∨
          getAnswer answers q._qid = JSValue.null ∨
          getAnswer answers q._qid = JSValue.undefined)
  · simp [h]
  · simp [h]

/-- Witness for C4: a required question of the empty type with no stored
answer is reported, and the same question holding `'x'` is accepted. -/
theorem other_type_requirement_witness :
    requiredMissing
        [{ Question.empty with
            _qid := JSValue.str "t", required := JSValue.bool true,
            type := JSValue.str "" }]
        []
      = some { Question.empty with
            _qid := JSValue.str "t", required := JSValue.bool true,
            type := JSValue.str "" } ∧
    requiredMissing
        [{ Question.empty with
            _qid := JSValue.str "t", required := JSValue.bool true,
            type := JSValue.str "" }]
        [("t", JSValue.str "x")]
      = none :=
  ⟨(other_type_requirement
      { Question.empty with
          _qid := JSValue.str "t", required := JSValue.bool true,
          type := JSValue.str "" }
      [] (by decide) (by decide) (by decide)).1.mpr (by decide),
   (other_type_requirement
      { Question.empty with
          _qid := JSValue.str "t", required := JSValue.bool true,
          type := JSValue.str "" }
      [("t", JSValue.str "x")] (by decide) (by decide) (by decide)).2.mpr (by decide)⟩

/-! ## Lemmas on the normalizer's output -/

theorem toLower_toLower (c : Char) : c.toLower.toLower = c.toLower := by
  unfold Char.toLower
  by_cases h : c.toNat ≥ 65 ∧ c.toNat ≤ 90
  · simp only [h, and_self, if_true]
    obtain ⟨h1, h2⟩ := h
    generalize c.toNat = n at h1 h2
    interval_cases n <;> decide
  · simp [h]

theorem toLower_ne_kelvin (c : Char) (hc : ¬ c.toNat = 0x212A) :
    ¬ c.toLower.toNat = 0x212A := by
  unfold Char.toLower
  by_cases h : c.toNat ≥ 65 ∧ c.toNat ≤ 90
  · simp only [h, and_self, if_true]
    obtain ⟨h1, h2⟩ := h
    generalize c.toNat = n at h1 h2
    interval_cases n <;> decide
  · simp [h, hc]

theorem lowerChar_lowerChar (c : Char) : lowerChar (lowerChar c) = lowerChar c := by
  by_cases hc : c.toNat = 0x212A
  · have : lowerChar c = 'k' := by simp [lowerChar, hc]
    rw [this]; decide
  · have h1 : lowerChar c = c.toLower := by simp [lowerChar, hc]
    rw [h1]
    have h2 := toLower_ne_kelvin c hc
    simp [lowerChar, h2, toLower_toLower]

theorem toLowerCase_idem (s : String) : toLowerCase (toLowerCase s) = toLowerCase s := by
  simp [toLowerCase, List.map_map, Function.comp_def, lowerChar_lowerChar]

theorem mem_mapFrom {α β : Type} (f : α → Nat → β) (xs : List α) (i : Nat) (y : β)
    (h : y ∈ mapFrom f i xs) : ∃ x j, x ∈ xs ∧ y = f x j := by
  induction xs generalizing i with
  | nil => simp [mapFrom] at h
  | cons x xs ih =>
      simp only [mapFrom, List.mem_cons] at h
      rcases h with h | h
      · exact ⟨x, i, by simp, h⟩
      · obtain ⟨x', j, hx, hy⟩ := ih (i + 1) h
        exact ⟨x', j, by simp [hx], hy⟩

theorem length_mapFrom {α β : Type} (f : α → Nat → β) (xs : List α) (i : Nat) :
    (mapFrom f i xs).length = xs.length := by
  induction xs generalizing i with
  | nil => rfl
  | cons x xs ih => simp [mapFrom, ih]

/-- On a normalized question the chain `q._id || q.id || q._qid` of line 95
ends on the same value as `q._qid`. -/
theorem questionId_eq_qid (q : Question) (idx : Nat) :
    jsOr (jsOr (normalizeQuestion q idx)._id (normalizeQuestion q idx).id)
        (normalizeQuestion q idx)._qid
      = (normalizeQuestion q idx)._qid := by
  simp only [normalizeQuestion, jsOr]
  by_cases h1 : truthy q._id = true
  · simp [h1]
  · by_cases h2 : truthy q.id = true
    · simp [h1, h2]
    · simp [h1, h2]

/-- Every question of the normalizer's output is `normalizeQuestion` of a
question of the input. -/
theorem mem_normalize (arr : List Question) (q : Question) (h : q ∈ normalize arr) :
    ∃ raw idx, raw ∈ arr ∧ q = normalizeQuestion raw idx := by
  obtain ⟨raw, idx, hraw, hq⟩ := mem_mapFrom _ _ _ _ h
  exact ⟨raw, idx, (List.mem_insertionSort _).mp hraw, hq⟩

theorem buildPayload_normalize (arr : List Question) (answers : Answers) :
    buildPayload (normalize arr) answers
      = (normalize arr).map (fun q =>
          { questionId := q._qid, type := q.type, label := q.text,
            value := getAnswer answers q._qid }) := by
  unfold buildPayload
  apply List.map_congr_left
  intro q hq
  obtain ⟨raw, idx, _, rfl⟩ := mem_normalize arr q hq
  rw [questionId_eq_qid]

/-- What `submit` does on a rendered prompt whose answers pass validation. -/
theorem submit_valid (props : Props) (st : State) (outcome : SubmitOutcome)
    (survey : Survey) (hopen : rendered props st = true)
    (hsurvey : currentSurvey props st = some survey)
    (hvalid : requiredMissing (questions (some survey)) st.answers = none) :
    submit props st outcome
      = ((submitSettle props { st with saving := true } outcome).1,
          Effect.submitCall survey._id (buildPayload (questions (some survey)) st.answers)
            :: (submitSettle props { st with saving := true } outcome).2) := by
  simp [submit, hopen, hsurvey, submitBegin, hvalid]

/-! ## Submit: the claims -/

/-- C5: for every raw question list `arr` and answer store, the payload built
from the normalized list has exactly one entry per question, in the normalized
order, the entry of a question carrying its identifier `_qid`, its lower-cased
type, its text as label and the value stored under its identifier; and a
submit on a rendered prompt that passes validation hands exactly this payload,
with the survey's `_id`, to the submit interface as its first effect. -/
theorem submit_payload (arr : List Question) (answers : Answers) :
    buildPayload (normalize arr) answers
      = (normalize arr).map (fun q =>
          { questionId := q._qid, type := q.type, label := q.text,
            value := getAnswer answers q._qid }) ∧
    (buildPayload (normalize arr) answers).length = (normalize arr).length ∧
    (∀ q ∈ normalize arr, ∃ t, q.type = JSValue.str t ∧ toLowerCase t = t) ∧
    (∀ (props : Props) (st : State) (outcome : SubmitOutcome) (survey : Survey),
      rendered props st = true → currentSurvey props st = some survey →
      survey.questions.getD [] = arr → st.answers = answers →
      requiredMissing (normalize arr) answers = none →
      (submit props st outcome).2.head?
        = some (Effect.submitCall survey._id (buildPayload (normalize arr) answers))) := by
  refine ⟨buildPayload_normalize arr answers, by simp [buildPayload], ?_, ?_⟩
  · intro q hq
    obtain ⟨raw, idx, _, rfl⟩ := mem_normalize arr q hq
    exact ⟨_, rfl, toLowerCase_idem _⟩
  · intro props st outcome survey hopen hsurvey hqs hans hvalid
    have hq : questions (some survey) = normalize arr := by simp [questions, hqs]
    rw [submit_valid props st outcome survey hopen hsurvey (by rw [hq, hans]; exact hvalid)]
    simp [hq, hans]

/-- Witness for C5: the survey `{_id:'s1', questions:[{id:'q1', type:'rating',
required:true}]}` opened by the host, with the answer `q1 = 4`, submits the
payload `[{questionId:'q1', type:'rating', label:'Question 1', value:4}]`. -/
theorem submit_payload_witness :
    (submit
        { openProp := JSValue.bool true,
          survey := some
            { _id := JSValue.str "s1",
              questions := some
                [{ Question.empty with
                    id := JSValue.str "q1", type := JSValue.str "rating",
                    required := JSValue.bool true }] },
          onClose := true, onSubmitted := true }
        { internalOpen := false, internalSurvey := none,
          answers := [("q1", JSValue.num 4)], saving := false }
        SubmitOutcome.resolved).2.head?
      = some (Effect.submitCall (JSValue.str "s1")
          [{ questionId := JSValue.str "q1", type := JSValue.str "rating",
             label := JSValue.str "Question 1", value := JSValue.num 4 }]) :=
  (submit_payload
      [{ Question.empty with
          id := JSValue.str "q1", type := JSValue.str "rating",
          required := JSValue.bool true }]
      [("q1", JSValue.num 4)]).2.2.2
    { openProp := JSValue.bool true,
      survey := some
        { _id := JSValue.str "s1",
          questions := some
            [{ Question.empty with
                id := JSValue.str "q1", type := JSValue.str "rating",
                required := JSValue.bool true }] },
      onClose := true, onSubmitted := true }
    { internalOpen := false, internalSurvey := none,
      answers := [("q1", JSValue.num 4)], saving := false }
    SubmitOutcome.resolved
    { _id := JSValue.str "s1",
      questions := some
        [{ Question.empty with
            id := JSValue.str "q1", type := JSValue.str "rating",
            required := JSValue.bool true }] }
    (by decide) (by decide) rfl rfl (by decide)

/-- C6: on a rendered (open) prompt whose validator reports the unmet
question `q`, `submit` changes no state (the prompt stays open, the answers are
untouched), makes no call to the submit interface, and its only effect is the
error message `Please answer: ` followed by the text of `q`. -/
theorem submit_unmet_requirement (props : Props) (st : State) (outcome : SubmitOutcome)
    (survey : Survey) (q : Question) (hopen : rendered props st = true)
    (hsurvey : currentSurvey props st = some survey)
    (hmiss : requiredMissing (questions (some survey)) st.answers = some q) :
    (submit props st outcome).2
        = [Effect.toastError (JSValue.str ("Please answer: " ++ toStr q.text))] ∧
    (∀ surveyId payload, Effect.submitCall surveyId payload ∉ (submit props st outcome).2) ∧
    (submit props st outcome).1 = st ∧
    rendered props (submit props st outcome).1 = true ∧
    (submit props st outcome).1.answers = st.answers := by
  have h : submit props st outcome
      = (st, [Effect.toastError (JSValue.str ("Please answer: " ++ toStr q.text))]) := by
    simp [submit, hopen, hsurvey, submitBegin, hmiss]
  rw [h]
  refine ⟨rfl, ?_, rfl, hopen, rfl⟩
  intro surveyId payload hmem
  simp at hmem

/-- Witness for C6: a self-driven prompt on a survey with one required
short-text question and the answer `''`. -/
theorem submit_unmet_requirement_witness :
    (submit
        { openProp := JSValue.undefined, survey := none, onClose := false,
          onSubmitted := true }
        { internalOpen := true,
          internalSurvey := some
            { _id := JSValue.str "s1",
              questions := some
                [{ Question.empty with
                    id := JSValue.str "a", text := JSValue.str "Your name",
                    required := JSValue.bool true, type := JSValue.str "short_text" }] },
          answers := [("a", JSValue.str "")], saving := false }
        SubmitOutcome.resolved).2
      = [Effect.toastError (JSValue.str "Please answer: Your name")] :=
  (submit_unmet_requirement
    { openProp := JSValue.undefined, survey := none, onClose := false,
      onSubmitted := true }
    { internalOpen := true,
      internalSurvey := some
        { _id := JSValue.str "s1",
          questions := some
            [{ Question.empty with
                id := JSValue.str "a", text := JSValue.str "Your name",
                required := JSValue.bool true, type := JSValue.str "short_text" }] },
      answers := [("a", JSValue.str "")], saving := false }
    SubmitOutcome.resolved
    { _id := JSValue.str "s1",
      questions := some
        [{ Question.empty with
            id := JSValue.str "a", text := JSValue.str "Your name",
            required := JSValue.bool true, type := JSValue.str "short_text" }] }
    (normalizeQuestion
      { Question.empty with
          id := JSValue.str "a", text := JSValue.str "Your name",
          required := JSValue.bool true, type := JSValue.str "short_text" } 0)
    (by decide) (by decide) (by decide)).1

/-- C7: on a rendered (open) prompt with no unmet requirement, when the submit
call rejects with error `e`, the prompt is still rendered afterwards, neither
`onSubmitted` nor `onClose` has been called, the internal open flag and the
whole answer store are as before (so every key reads the same value), saving
is false, and the effects are the call followed by the error message. -/
theorem submit_rejected_preserves (props : Props) (st : State) (e : SubmitError)
    (survey : Survey) (hopen : rendered props st = true)
    (hsurvey : currentSurvey props st = some survey)
    (hvalid : requiredMissing (questions (some survey)) st.answers = none) :
    rendered props (submit props st (SubmitOutcome.rejected e)).1 = true ∧
    Effect.onSubmitted ∉ (submit props st (SubmitOutcome.rejected e)).2 ∧
    Effect.onClose ∉ (submit props st (SubmitOutcome.rejected e)).2 ∧
    (submit props st (SubmitOutcome.rejected e)).1.internalOpen = st.internalOpen ∧
    (submit props st (SubmitOutcome.rejected e)).1.answers = st.answers ∧
    (∀ k, getAnswer (submit props st (SubmitOutcome.rejected e)).1.answers k
        = getAnswer st.answers k) ∧
    (submit props st (SubmitOutcome.rejected e)).1.saving = false ∧
    (submit props st (SubmitOutcome.rejected e)).2
      = [Effect.submitCall survey._id (buildPayload (questions (some survey)) st.answers),
         Effect.toastError (failureMessage e)] := by
  rw [submit_valid props st _ survey hopen hsurvey hvalid]
  refine ⟨?_, ?_, ?_, ?_, ?_, ?_, ?_, ?_⟩
  · simpa [rendered, currentSurvey, isOpen, submitSettle] using hopen
  all_goals simp [submitSettle]

/-- Witness for C7: the host-opened survey `s1` with `q1 = 4`; after a rejected
submit the prompt is rendered and `q1` still reads `4`. -/
theorem submit_rejected_preserves_witness :
    rendered
        { openProp := JSValue.bool true,
          survey := some
            { _id := JSValue.str "s1",
              questions := some
                [{ Question.empty with
                    id := JSValue.str "q1", type := JSValue.str "rating",
                    required := JSValue.bool true }] },
          onClose := true, onSubmitted := true }
        (submit
          { openProp := JSValue.bool true,
            survey := some
              { _id := JSValue.str "s1",
                questions := some
                  [{ Question.empty with
                      id := JSValue.str "q1", type := JSValue.str "rating",
                      required := JSValue.bool true }] },
            onClose := true, onSubmitted := true }
          { internalOpen := false, internalSurvey := none,
            answers := [("q1", JSValue.num 4)], saving := false }
          (SubmitOutcome.rejected
            { responseError := JSValue.undefined,
              message := JSValue.str "Network Error" })).1 = true ∧
    getAnswer
        (submit
          { openProp := JSValue.bool true,
            survey := some
              { _id := JSValue.str "s1",
                questions := some
                  [{ Question.empty with
                      id := JSValue.str "q1", type := JSValue.str "rating",
                      required := JSValue.bool true }] },
            onClose := true, onSubmitted := true }
          { internalOpen := false, internalSurvey := none,
            answers := [("q1", JSValue.num 4)], saving := false }
          (SubmitOutcome.rejected
            { responseError := JSValue.undefined,
              message := JSValue.str "Network Error" })).1.answers
        (JSValue.str "q1") = JSValue.num 4 :=
  let h := submit_rejected_preserves
    { openProp := JSValue.bool true,
      survey := some
        { _id := JSValue.str "s1",
          questions := some
            [{ Question.empty with
                id := JSValue.str "q1", type := JSValue.str "rating",
                required := JSValue.bool true }] },
      onClose := true, onSubmitted := true }
    { internalOpen := false, internalSurvey := none,
      answers := [("q1", JSValue.num 4)], saving := false }
    { responseError := JSValue.undefined, message := JSValue.str "Network Error" }
    { _id := JSValue.str "s1",
      questions := some
        [{ Question.empty with
            id := JSValue.str "q1", type := JSValue.str "rating",
            required := JSValue.bool true }] }
    (by decide) (by decide) (by decide)
  ⟨h.1, (h.2.2.2.2.2.1 (JSValue.str "q1")).trans (by decide)⟩

/-- C8: on a rendered (open) prompt with no unmet requirement, when the submit
call succeeds, the host's `onSubmitted` handler is called exactly once when it
is supplied and never more than once; in self-driven mode the internal open
flag becomes false and the prompt is no longer rendered; in host-driven mode
the host's `onClose` handler is called exactly once when it is supplied, after
`onSubmitted`; and saving is false afterwards. -/
theorem submit_resolved_closes (props : Props) (st : State)
    (survey : Survey) (hopen : rendered props st = true)
    (hsurvey : currentSurvey props st = some survey)
    (hvalid : requiredMissing (questions (some survey)) st.answers = none) :
    (props.onSubmitted = true →
      (submit props st SubmitOutcome.resolved).2.count Effect.onSubmitted = 1) ∧
    (submit props st SubmitOutcome.resolved).2.count Effect.onSubmitted ≤ 1 ∧
    (controlled props = false →
      (submit props st SubmitOutcome.resolved).1.internalOpen = false ∧
      rendered props (submit props st SubmitOutcome.resolved).1 = false ∧
      Effect.onClose ∉ (submit props st SubmitOutcome.resolved).2) ∧
    (controlled props = true → props.onClose = true →
      (submit props st SubmitOutcome.resolved).2.count Effect.onClose = 1 ∧
      (submit props st SubmitOutcome.resolved).2.getLast? = some Effect.onClose) ∧
    (submit props st SubmitOutcome.resolved).1.saving = false ∧
    (submit props st SubmitOutcome.resolved).1.answers = st.answers := by
  rw [submit_valid props st _ survey hopen hsurvey hvalid]
  simp only [submitSettle, close]
  by_cases hc : controlled props = true
  · cases hs : props.onSubmitted <;> cases ho : props.onClose <;>
      simp [hc, List.count_cons]
  · simp only [Bool.not_eq_true] at hc
    cases hs : props.onSubmitted <;>
      simp [hc, List.count_cons, rendered, isOpen, truthy, JSValue.bool, JSPrim.truthy]

/-- Witness for C8: a self-driven prompt on survey `s1` with `q1 = 4`; after a
successful submit `onSubmitted` has been called once and the internal open
flag is false. -/
theorem submit_resolved_closes_witness :
    (submit
        { openProp := JSValue.undefined, survey := none, onClose := false,
          onSubmitted := true }
        { internalOpen := true,
          internalSurvey := some
            { _id := JSValue.str "s1",
              questions := some
                [{ Question.empty with
                    id := JSValue.str "q1", type := JSValue.str "rating",
                    required := JSValue.bool true }] },
          answers := [("q1", JSValue.num 4)], saving := false }
        SubmitOutcome.resolved).2.count Effect.onSubmitted = 1 ∧
    (submit
        { openProp := JSValue.undefined, survey := none, onClose := false,
          onSubmitted := true }
        { internalOpen := true,
          internalSurvey := some
            { _id := JSValue.str "s1",
              questions := some
                [{ Question.empty with
                    id := JSValue.str "q1", type := JSValue.str "rating",
                    required := JSValue.bool true }] },
          answers := [("q1", JSValue.num 4)], saving := false }
        SubmitOutcome.resolved).1.internalOpen = false :=
  let h := submit_resolved_closes
    { openProp := JSValue.undefined, survey := none, onClose := false,
      onSubmitted := true }
    { internalOpen := true,
      internalSurvey := some
        { _id := JSValue.str "s1",
          questions := some
            [{ Question.empty with
                id := JSValue.str "q1", type := JSValue.str "rating",
                required := JSValue.bool true }] },
      answers := [("q1", JSValue.num 4)], saving := false }
    { _id := JSValue.str "s1",
      questions := some
        [{ Question.empty with
            id := JSValue.str "q1", type := JSValue.str "rating",
            required := JSValue.bool true }] }
    (by decide) (by decide) (by decide)
  ⟨h.1 rfl, (h.2.2.1 (by decide)).1⟩

/-! ## Lemmas on the sort of line 44 -/

theorem orderedInsert_congr {α : Type} (r s : α → α → Prop) [DecidableRel r] [DecidableRel s]
    (a : α) (l : List α) (h : ∀ b ∈ l, (r a b ↔ s a b)) :
    l.orderedInsert r a = l.orderedInsert s a := by
  induction l with
  | nil => rfl
  | cons b l ih =>
      have hb := h b (by simp)
      have ih' := ih (fun c hc => h c (by simp [hc]))
      by_cases hr : r a b
      · simp [List.orderedInsert, hr, hb.mp hr]
      · have hs : ¬ s a b := fun hs => hr (hb.mpr hs)
        simp [List.orderedInsert, hr, hs, ih']

theorem insertionSort_congr {α : Type} (r s : α → α → Prop) [DecidableRel r] [DecidableRel s]
    (l : List α) (h : ∀ a ∈ l, ∀ b ∈ l, (r a b ↔ s a b)) :
    l.insertionSort r = l.insertionSort s := by
  induction l with
  | nil => rfl
  | cons a l ih =>
      have ih' := ih (fun x hx y hy => h x (by simp [hx]) y (by simp [hy]))
      simp only [List.insertionSort]
      rw [ih']
      apply orderedInsert_congr
      intro b hb
      exact h a (by simp) b (by simp [(List.mem_insertionSort s).mp hb])

/-- Inserting `a` keeps, for every key `k`, the questions of key `k` in the
order of `a :: l`: `a` only moves past questions of a strictly smaller key. -/
theorem filter_orderedInsert {α : Type} (key : α → Int) (k : Int) (a : α) (l : List α) :
    (l.orderedInsert (fun x y => key x ≤ key y) a).filter (fun q => decide (key q = k))
      = (a :: l).filter (fun q => decide (key q = k)) := by
  induction l with
  | nil => rfl
  | cons b l ih =>
      by_cases h : key a ≤ key b
      · simp [List.orderedInsert, h]
      · simp only [List.orderedInsert, h, if_false]
        rw [List.filter_cons, ih]
        by_cases ha : key a = k
        · have hb : ¬ key b = k := by omega
          simp [List.filter_cons, ha, hb]
        · simp [List.filter_cons, ha]

theorem filter_insertionSort {α : Type} (key : α → Int) (k : Int) (l : List α) :
    (l.insertionSort (fun x y => key x ≤ key y)).filter (fun q => decide (key q = k))
      = l.filter (fun q => decide (key q = k)) := by
  induction l with
  | nil => rfl
  | cons a l ih =>
      simp only [List.insertionSort]
      rw [filter_orderedInsert, List.filter_cons, List.filter_cons, ih]

theorem sortLe_iff (a b : Question) (ha : orderKey a ≠ none) (hb : orderKey b ≠ none) :
    sortLe a b = true ↔ orderNumber a ≤ orderNumber b := by
  unfold sortLe compareOrder orderNumber
  cases hka : orderKey a with
  | none => exact absurd hka ha
  | some x =>
      cases hkb : orderKey b with
      | none => exact absurd hkb hb
      | some y => simp [numSub]

/-- When no order key is `NaN`, the array `sorted` of line 44 is the input
stably sorted by `Number(order || 0)`. -/
theorem sortedQuestions_stable (arr : List Question) (h : ∀ q ∈ arr, orderKey q ≠ none) :
    IsStableSortBy orderNumber arr (sortedQuestions arr) := by
  have hcongr : sortedQuestions arr
      = arr.insertionSort (fun a b => orderNumber a ≤ orderNumber b) := by
    unfold sortedQuestions
    apply insertionSort_congr
    intro a ha b hb
    exact sortLe_iff a b (h a ha) (h b hb)
  rw [hcongr]
  haveI : IsTotal Question (fun a b => orderNumber a ≤ orderNumber b) :=
    ⟨fun a b => le_total _ _⟩
  haveI : IsTrans Question (fun a b => orderNumber a ≤ orderNumber b) :=
    ⟨fun a b c hab hbc => le_trans hab hbc⟩
  exact ⟨List.perm_insertionSort _ arr, List.sorted_insertionSort _ arr,
    fun k => filter_insertionSort orderNumber k arr⟩

/-- An order that is `undefined`, `null`, a boolean, a number, `NaN` or `''` has a key that
is not `NaN`. -/
theorem orderKey_ne_none (q : Question) (h : hasExactNumber q.order = true) :
    orderKey q ≠ none := by
  unfold orderKey
  cases hq : q.order with
  | prim p =>
      cases p with
      | undefined => simp [jsOr, truthy, JSPrim.truthy, toNumber, JSValue.num, JSPrim.toNumber]
      | null => simp [jsOr, truthy, JSPrim.truthy, toNumber, JSValue.num, JSPrim.toNumber]
      | bool b =>
          cases b <;>
            simp [jsOr, truthy, JSPrim.truthy, toNumber, JSValue.num, JSPrim.toNumber]
      | num n =>
          by_cases hn : n = 0
          · simp [jsOr, truthy, JSPrim.truthy, toNumber, JSValue.num, JSPrim.toNumber, hn]
          · simp [jsOr, truthy, JSPrim.truthy, toNumber, JSValue.num, JSPrim.toNumber, hn]
      | nan => simp [jsOr, truthy, JSPrim.truthy, toNumber, JSValue.num, JSPrim.toNumber]
      | str t =>
          rw [hq] at h
          have ht : t = "" := by simpa [hasExactNumber] using h
          subst ht
          simp [jsOr, truthy, JSPrim.truthy, toNumber, JSValue.num, JSPrim.toNumber]
  | arr xs => rw [hq] at h; simp [hasExactNumber] at h
  | obj => rw [hq] at h; simp [hasExactNumber] at h

theorem length_normalize (arr : List Question) : (normalize arr).length = arr.length := by
  unfold normalize sortedQuestions
  rw [length_mapFrom, List.length_insertionSort]

/-! ## Normalizer: the claims -/

/-- C9, as stated, fails: on `[{id:'a', order:true}, {id:'b', order:0}]` both
questions have a missing-or-non-numeric-as-0 key of `0`, so a stable sort by
that key keeps `a` before `b`, but the comparator computes `true - 0 = 1` and
the normalizer puts `b` first. -/
theorem normalize_not_sorted_by_specOrderKey :
    (normalize
        [{ Question.empty with id := JSValue.str "a", order := JSValue.bool true },
         { Question.empty with id := JSValue.str "b", order := JSValue.num 0 }]).map
        (fun q => q._qid) = [JSValue.str "b", JSValue.str "a"] ∧
    ¬ ((normalize
          [{ Question.empty with id := JSValue.str "a", order := JSValue.bool true },
           { Question.empty with id := JSValue.str "b", order := JSValue.num 0 }]).length
        = [{ Question.empty with id := JSValue.str "a", order := JSValue.bool true },
           { Question.empty with id := JSValue.str "b",
                                 order := JSValue.num 0 }].length ∧
      NormalizedStableSortBy specOrderKey
        [{ Question.empty with id := JSValue.str "a", order := JSValue.bool true },
         { Question.empty with id := JSValue.str "b", order := JSValue.num 0 }]
        (normalize
          [{ Question.empty with id := JSValue.str "a", order := JSValue.bool true },
           { Question.empty with id := JSValue.str "b", order := JSValue.num 0 }])) := by
  refine ⟨by decide, ?_⟩
  rintro ⟨_, sorted, ⟨hperm, _, hstable⟩, hout⟩
  have hall : ∀ x ∈ sorted, decide (specOrderKey x = 0) = true := by
    intro x hx
    have hx' := hperm.subset hx
    simp only [List.mem_cons, List.mem_singleton, List.not_mem_nil, or_false] at hx'
    rcases hx' with rfl | rfl <;> decide
  have hsorted := hstable 0
  rw [List.filter_eq_self.mpr hall] at hsorted
  rw [hsorted] at hout
  revert hout
  decide

/-- C9, amended: the normalizer's output always has the length of its input;
a falsy `order` gives the key `0`, a number gives itself and `true` gives `1`;
and when every `order` is `undefined` (missing), `null`, a boolean, a number, `NaN` or
`''`, the output is the normalization of the input stably sorted in ascending
order of that key, questions of equal keys keeping their input order. -/
theorem normalize_stable_sort (arr : List Question) :
    (normalize arr).length = arr.length ∧
    (∀ q : Question, truthy q.order = false → orderKey q = some 0) ∧
    (∀ (q : Question) (n : Int), q.order = JSValue.num n → orderKey q = some n) ∧
    (∀ q : Question, q.order = JSValue.bool true → orderKey q = some 1) ∧
    ((∀ q ∈ arr, hasExactNumber q.order = true) →
      NormalizedStableSortBy orderNumber arr (normalize arr)) := by
  refine ⟨length_normalize arr, ?_, ?_, ?_, ?_⟩
  · intro q hq
    simp [orderKey, jsOr, hq, toNumber, JSValue.num, JSPrim.toNumber]
  · intro q n hq
    by_cases hn : n = 0
    · subst hn
      simp [orderKey, jsOr, hq, toNumber, JSValue.num, JSPrim.toNumber]
    · simp [orderKey, jsOr, hq, toNumber, JSValue.num, JSPrim.toNumber, truthy,
        JSPrim.truthy, hn]
  · intro q hq
    simp [orderKey, jsOr, hq, toNumber, JSValue.bool, JSPrim.toNumber, truthy,
      JSPrim.truthy]
  · intro h
    exact ⟨sortedQuestions arr,
      sortedQuestions_stable arr (fun q hq => orderKey_ne_none q (h q hq)), rfl⟩

/-- Witness for C9 amended: orders `2`, missing, `2`, `1` are numbers or
missing, and the output is in the order `b`, `d`, `a`, `c`. -/
theorem normalize_stable_sort_witness :
    (∀ q ∈
        [{ Question.empty with id := JSValue.str "a", order := JSValue.num 2 },
         { Question.empty with id := JSValue.str "b" },
         { Question.empty with id := JSValue.str "c", order := JSValue.num 2 },
         { Question.empty with id := JSValue.str "d", order := JSValue.num 1 }],
      hasExactNumber q.order = true) ∧
    NormalizedStableSortBy orderNumber
        [{ Question.empty with id := JSValue.str "a", order := JSValue.num 2 },
         { Question.empty with id := JSValue.str "b" },
         { Question.empty with id := JSValue.str "c", order := JSValue.num 2 },
         { Question.empty with id := JSValue.str "d", order := JSValue.num 1 }]
        (normalize
          [{ Question.empty with id := JSValue.str "a", order := JSValue.num 2 },
           { Question.empty with id := JSValue.str "b" },
           { Question.empty with id := JSValue.str "c", order := JSValue.num 2 },
           { Question.empty with id := JSValue.str "d", order := JSValue.num 1 }]) ∧
    (normalize
        [{ Question.empty with id := JSValue.str "a", order := JSValue.num 2 },
         { Question.empty with id := JSValue.str "b" },
         { Question.empty with id := JSValue.str "c", order := JSValue.num 2 },
         { Question.empty with id := JSValue.str "d", order := JSValue.num 1 }]).map
        (fun q => q._qid)
      = [JSValue.str "b", JSValue.str "d", JSValue.str "a", JSValue.str "c"] :=
  ⟨by decide,
   (normalize_stable_sort
      [{ Question.empty with id := JSValue.str "a", order := JSValue.num 2 },
       { Question.empty with id := JSValue.str "b" },
       { Question.empty with id := JSValue.str "c", order := JSValue.num 2 },
       { Question.empty with id := JSValue.str "d", order := JSValue.num 1 }]).2.2.2.2
      (by decide),
   by decide⟩

/-! ## Lemmas on identifiers and texts -/

theorem synthetic_id_ne_empty (idx : Nat) : "q" ++ toString idx ≠ "" := by
  intro h
  have hlen := congrArg String.length h
  simp at hlen
  exact absurd hlen.1 (by decide)

theorem synthetic_text_ne_empty (idx : Nat) : "Question " ++ toString (idx + 1) ≠ "" := by
  intro h
  have hlen := congrArg String.length h
  simp at hlen
  exact absurd hlen.1 (by decide)

/-- A truthy value is none of `''`, `null` and `undefined`. -/
theorem truthy_ne_empty (v : JSValue) (h : truthy v = true) :
    v ≠ JSValue.str "" ∧ v ≠ JSValue.null ∧ v ≠ JSValue.undefined := by
  refine ⟨?_, ?_, ?_⟩ <;> intro hv <;> subst hv <;> revert h <;> decide

theorem normalizeQuestion_qid (q : Question) (idx : Nat) :
    (normalizeQuestion q idx)._qid = specIdentifier q idx := by
  simp only [normalizeQuestion, specIdentifier, jsOr]
  by_cases h1 : truthy q._id = true
  · simp [h1]
  · by_cases h2 : truthy q.id = true
    · simp [h1, h2]
    · by_cases h3 : truthy q.key = true
      · simp [h1, h2, h3]
      · simp [h1, h2, h3]

theorem normalizeQuestion_text (q : Question) (idx : Nat) :
    (normalizeQuestion q idx).text = specText q idx := by
  simp only [normalizeQuestion, specText, jsOr]
  by_cases h1 : truthy q.text = true
  · simp [h1]
  · by_cases h2 : truthy q.label = true
    · simp [h1, h2]
    · simp [h1, h2]

theorem specIdentifier_truthy (q : Question) (idx : Nat) :
    truthy (specIdentifier q idx) = true := by
  unfold specIdentifier
  split_ifs with h1 h2 h3
  · exact h1
  · exact h2
  · exact h3
  · simpa [truthy, JSValue.str, JSPrim.truthy] using synthetic_id_ne_empty idx

theorem specText_truthy (q : Question) (idx : Nat) :
    truthy (specText q idx) = true := by
  unfold specText
  split_ifs with h1 h2
  · exact h1
  · exact h2
  · simpa [truthy, JSValue.str, JSPrim.truthy] using synthetic_text_ne_empty idx

theorem getElem?_mapFrom {α β : Type} (f : α → Nat → β) (xs : List α) (k i : Nat) :
    (mapFrom f k xs)[i]? = (xs[i]?).map (fun x => f x (k + i)) := by
  induction xs generalizing k i with
  | nil => simp [mapFrom]
  | cons x xs ih =>
      cases i with
      | zero => simp [mapFrom]
      | succ j =>
          simp only [mapFrom, List.getElem?_cons_succ]
          rw [ih]
          congr 1
          funext y
          congr 1
          omega

/-- C10, counterexample: the raw question `{ id: [], text: [] }` keeps the empty array as its
identifier and as its text (an array is truthy), and the string form of both,
the property key of the answer and the text shown, is the empty string; so
not every question of the output has a non-empty identifier and a non-empty
text. -/
theorem normalize_empty_array_identifier :
    (normalize [{ Question.empty with id := JSValue.arr [], text := JSValue.arr [] }]).map
        (fun q => (q._qid, answerKey q, q.text, toStr q.text))
      = [(JSValue.arr [], "", JSValue.arr [], "")] ∧
    ¬ (∀ q ∈ normalize [{ Question.empty with id := JSValue.arr [], text := JSValue.arr [] }],
        answerKey q ≠ "" ∧ toStr q.text ≠ "") := by
  refine ⟨by decide, ?_⟩
  intro h
  have h0 := h (normalizeQuestion
      { Question.empty with id := JSValue.arr [], text := JSValue.arr [] } 0) (by decide)
  exact h0.1 (by decide)

/-- C10, amended: every question of the normalizer's output has a truthy identifier and
a truthy text, so neither is `''`, `null` or `undefined`, and one that is a
string is not the empty string (the answer key of a string identifier is not
empty either); the question at position `i` of the output comes from a raw
question of the input and has as identifier the first truthy one of the raw
`_id`, `id` and `key`, else the synthetic `q{i}`, and as text the first truthy
one of the raw `text` and `label`, else `Question {i+1}`, both fallbacks being
non-empty strings; a raw question with none of these properties gets `q0` and
`Question 1`. -/
theorem normalize_identifier_text (arr : List Question) :
    (∀ q ∈ normalize arr,
        truthy q._qid = true ∧ truthy q.text = true ∧
        (q._qid ≠ JSValue.str "" ∧ q._qid ≠ JSValue.null ∧ q._qid ≠ JSValue.undefined) ∧
        (q.text ≠ JSValue.str "" ∧ q.text ≠ JSValue.null ∧ q.text ≠ JSValue.undefined) ∧
        (∀ s : String, q._qid = JSValue.str s → s ≠ "" ∧ answerKey q ≠ "") ∧
        (∀ s : String, q.text = JSValue.str s → s ≠ "" ∧ toStr q.text ≠ "")) ∧
    (∀ (i : Nat) (q : Question), (normalize arr)[i]? = some q →
        ∃ raw ∈ arr, q._qid = specIdentifier raw i ∧ q.text = specText raw i) ∧
    (∀ idx : Nat, "q" ++ toString idx ≠ "" ∧ "Question " ++ toString (idx + 1) ≠ "") ∧
    (normalize [Question.empty]).map (fun q => (q._qid, q.text))
      = [(JSValue.str "q0", JSValue.str "Question 1")] := by
  refine ⟨?_, ?_, fun idx => ⟨synthetic_id_ne_empty idx, synthetic_text_ne_empty idx⟩,
    by decide⟩
  · intro q hq
    obtain ⟨raw, idx, _, rfl⟩ := mem_normalize arr q hq
    have hid : truthy (normalizeQuestion raw idx)._qid = true := by
      rw [normalizeQuestion_qid]; exact specIdentifier_truthy raw idx
    have htext : truthy (normalizeQuestion raw idx).text = true := by
      rw [normalizeQuestion_text]; exact specText_truthy raw idx
    refine ⟨hid, htext, truthy_ne_empty _ hid, truthy_ne_empty _ htext, ?_, ?_⟩
    · intro s hs
      have hne : s ≠ "" := by
        intro h0
        rw [hs, h0] at hid
        revert hid
        decide
      refine ⟨hne, ?_⟩
      unfold answerKey
      rw [hs]
      exact hne
    · intro s hs
      have hne : s ≠ "" := by
        intro h0
        rw [hs, h0] at htext
        revert htext
        decide
      refine ⟨hne, ?_⟩
      rw [hs]
      exact hne
  · intro i q hq
    unfold normalize at hq
    rw [getElem?_mapFrom] at hq
    cases hraw : (sortedQuestions arr)[i]? with
    | none => rw [hraw] at hq; simp at hq
    | some raw =>
        rw [hraw] at hq
        simp only [Option.map_some', zero_add, Option.some.injEq] at hq
        have hmem : raw ∈ sortedQuestions arr := by
          obtain ⟨hlt, hget⟩ := List.getElem?_eq_some.mp hraw
          rw [← hget]
          exact List.getElem_mem hlt
        have hmem2 : raw ∈ arr :=
          (List.perm_insertionSort (fun a b => sortLe a b = true) arr).mem_iff.mp hmem
        refine ⟨raw, hmem2, ?_, ?_⟩
        · rw [← hq]; exact normalizeQuestion_qid raw i
        · rw [← hq]; exact normalizeQuestion_text raw i

/-- Witness for C10: of the raw questions `{}` and `{key:'k', label:'L'}`, the
second comes out with the identifier `k` and the text `L`, both truthy. -/
theorem normalize_identifier_text_witness :
    normalizeQuestion
        { Question.empty with key := JSValue.str "k", label := JSValue.str "L" } 1
      ∈ normalize
        [Question.empty,
         { Question.empty with key := JSValue.str "k", label := JSValue.str "L" }] ∧
    truthy (normalizeQuestion
        { Question.empty with key := JSValue.str "k", label := JSValue.str "L" } 1)._qid
      = true ∧
    truthy (normalizeQuestion
        { Question.empty with key := JSValue.str "k", label := JSValue.str "L" } 1).text
      = true :=
  let h := (normalize_identifier_text
      [Question.empty,
       { Question.empty with key := JSValue.str "k", label := JSValue.str "L" }]).1
      (normalizeQuestion
        { Question.empty with key := JSValue.str "k", label := JSValue.str "L" } 1)
      (by decide)
  ⟨by decide, h.1, h.2.1⟩

/-! ## Lemmas on normalizing twice -/

theorem head?_orderedInsert {α : Type} (r : α → α → Prop) [DecidableRel r] (a : α)
    (l : List α) :
    (l.orderedInsert r a).head? = some a ∨ (l.orderedInsert r a).head? = l.head? := by
  cases l with
  | nil => left; rfl
  | cons b l =>
      by_cases h : r a b
      · left; simp [List.orderedInsert, h]
      · right; simp [List.orderedInsert, h]

theorem chain_orderedInsert {α : Type} (r : α → α → Prop) [DecidableRel r]
    (htotal : ∀ a b, ¬ r a b → r b a) (a : α) (l : List α) (h : l.Chain' r) :
    (l.orderedInsert r a).Chain' r := by
  induction l with
  | nil => simp [List.orderedInsert]
  | cons b l ih =>
      by_cases hab : r a b
      · simp only [List.orderedInsert, hab, if_true]
        exact List.Chain'.cons' h (by intro y hy; simp at hy; subst hy; exact hab)
      · simp only [List.orderedInsert, hab, if_false]
        apply List.Chain'.cons' (ih h.tail)
        intro y hy
        rcases head?_orderedInsert r a l with h1 | h1
        · rw [h1] at hy
          simp at hy
          subst hy
          exact htotal a b hab
        · rw [h1] at hy
          exact h.rel_head? hy

theorem chain_insertionSort {α : Type} (r : α → α → Prop) [DecidableRel r]
    (htotal : ∀ a b, ¬ r a b → r b a) (l : List α) : (l.insertionSort r).Chain' r := by
  induction l with
  | nil => simp
  | cons a l ih => exact chain_orderedInsert r htotal a _ ih

theorem insertionSort_eq_of_chain {α : Type} (r : α → α → Prop) [DecidableRel r]
    (l : List α) (h : l.Chain' r) : l.insertionSort r = l := by
  induction l with
  | nil => rfl
  | cons a l ih =>
      simp only [List.insertionSort]
      rw [ih h.tail]
      cases l with
      | nil => rfl
      | cons b l =>
          have hab : r a b := (List.chain'_cons.mp h).1
          simp [List.orderedInsert, hab]

theorem sortLe_total (a b : Question) (h : ¬ sortLe a b = true) : sortLe b a = true := by
  unfold sortLe compareOrder at *
  cases ha : orderKey a with
  | none => simp [ha, numSub] at h
  | some x =>
      cases hb : orderKey b with
      | none => simp [ha, hb, numSub] at h
      | some y =>
          simp only [ha, hb, numSub, decide_eq_true_eq] at h ⊢
          omega

theorem chain_mapFrom_normalizeQuestion (l : List Question) (k : Nat)
    (h : l.Chain' (fun a b => sortLe a b = true)) :
    (mapFrom normalizeQuestion k l).Chain' (fun a b => sortLe a b = true) := by
  induction l generalizing k with
  | nil => simp [mapFrom]
  | cons a l ih =>
      cases l with
      | nil => simp [mapFrom]
      | cons b l =>
          have hab := (List.chain'_cons.mp h).1
          have htl := (List.chain'_cons.mp h).2
          have ih' := ih (k + 1) htl
          simp only [mapFrom] at ih' ⊢
          exact List.chain'_cons.mpr ⟨hab, ih'⟩

theorem jsOr_of_truthy (a b : JSValue) (h : truthy a = true) : jsOr a b = a := by
  simp [jsOr, h]

theorem normalizeQuestion_idem (q : Question) (idx : Nat) :
    normalizeQuestion (normalizeQuestion q idx) idx = normalizeQuestion q idx := by
  have htype : toStr (jsOr (JSValue.str (toLowerCase (toStr (jsOr q.type (JSValue.str "")))))
      (JSValue.str "")) = toLowerCase (toStr (jsOr q.type (JSValue.str ""))) := by
    generalize toLowerCase (toStr (jsOr q.type (JSValue.str ""))) = t
    by_cases ht : t = ""
    · subst ht; rfl
    · simp [jsOr, truthy, JSValue.str, JSPrim.truthy, ht, toStr, JSPrim.toStr]
  have htext : jsOr (jsOr
        (jsOr (jsOr q.text q.label) (JSValue.str ("Question " ++ toString (idx + 1))))
        q.label) (JSValue.str ("Question " ++ toString (idx + 1)))
      = jsOr (jsOr q.text q.label) (JSValue.str ("Question " ++ toString (idx + 1))) := by
    have ht := specText_truthy q idx
    rw [← normalizeQuestion_text] at ht
    simp only [normalizeQuestion] at ht
    rw [jsOr_of_truthy _ _ ht, jsOr_of_truthy _ _ ht]
  have hopts : (if isArray (if isArray q.options then q.options else JSValue.arr []) = true
        then (if isArray q.options then q.options else JSValue.arr []) else JSValue.arr [])
      = (if isArray q.options then q.options else JSValue.arr []) := by
    by_cases ho : isArray q.options = true
    · rw [if_pos ho, if_pos ho]
    · rw [if_neg ho]; rfl
  have hsm : (if numGt (toNumber (if numGt (toNumber q.scaleMax) (some 0) = true
          then numberValue (toNumber q.scaleMax) else JSValue.num 5)) (some 0) = true
        then numberValue (toNumber (if numGt (toNumber q.scaleMax) (some 0) = true
          then numberValue (toNumber q.scaleMax) else JSValue.num 5))
        else JSValue.num 5)
      = (if numGt (toNumber q.scaleMax) (some 0) = true
          then numberValue (toNumber q.scaleMax) else JSValue.num 5) := by
    cases hn : toNumber q.scaleMax with
    | none => simp [numGt, toNumber, JSValue.num, JSPrim.toNumber, numberValue]
    | some n =>
        by_cases hpos : 0 < n
        · simp [numGt, hpos, numberValue, toNumber, JSValue.num, JSPrim.toNumber]
        · simp [numGt, hpos, numberValue, toNumber, JSValue.num, JSPrim.toNumber]
  simp only [normalizeQuestion, htype, htext, hopts, hsm, toLowerCase_idem]
theorem mapFrom_normalizeQuestion_idem (l : List Question) (k : Nat) :
    mapFrom normalizeQuestion k (mapFrom normalizeQuestion k l)
      = mapFrom normalizeQuestion k l := by
  induction l generalizing k with
  | nil => rfl
  | cons a l ih => simp only [mapFrom, normalizeQuestion_idem, ih]

/-- Sorting the normalizer's output again leaves it as it is. -/
theorem sortedQuestions_normalize (arr : List Question) :
    sortedQuestions (normalize arr) = normalize arr := by
  unfold sortedQuestions normalize
  apply insertionSort_eq_of_chain
  apply chain_mapFrom_normalizeQuestion
  exact chain_insertionSort _ sortLe_total arr

/-! ## Normalizer idempotence: the claim -/

theorem normalizeQuestion_type_str (raw : Question) (idx : Nat) (s : String)
    (hs : raw.type = JSValue.str s) :
    (normalizeQuestion raw idx).type = JSValue.str (toLowerCase s) := by
  simp only [normalizeQuestion, hs]
  by_cases h : s = ""
  · subst h; rfl
  · simp [jsOr, truthy, JSValue.str, JSPrim.truthy, h, toStr, JSPrim.toStr]

theorem normalizeQuestion_scaleMax (q : Question) (idx : Nat) :
    (normalizeQuestion q idx).scaleMax
      = match toNumber q.scaleMax with
        | some n => if 0 < n then JSValue.num n else JSValue.num 5
        | none => JSValue.num 5 := by
  simp only [normalizeQuestion]
  cases h : toNumber q.scaleMax with
  | none => simp [numGt]
  | some n =>
      by_cases hn : 0 < n
      · simp [numGt, hn, numberValue]
      · simp [numGt, hn]

theorem normalizeQuestion_scaleMax_pos (q : Question) (idx : Nat) :
    ∃ m : Int, 0 < m ∧ (normalizeQuestion q idx).scaleMax = JSValue.num m := by
  rw [normalizeQuestion_scaleMax]
  cases h : toNumber q.scaleMax with
  | none => exact ⟨5, by decide, rfl⟩
  | some n =>
      by_cases hn : 0 < n
      · exact ⟨n, hn, by simp [hn]⟩
      · exact ⟨5, by decide, by simp [hn]⟩

theorem lowerChar_ascii (c : Char) (h : c.toNat < 128) : (lowerChar c).toNat < 128 := by
  have hk : ¬ c.toNat = 0x212A := by omega
  have h1 : lowerChar c = c.toLower := by simp [lowerChar, hk]
  rw [h1]
  unfold Char.toLower
  by_cases h2 : c.toNat ≥ 65 ∧ c.toNat ≤ 90
  · simp only [h2, and_self, if_true]
    obtain ⟨h3, h4⟩ := h2
    generalize c.toNat = n at h3 h4
    interval_cases n <;> decide
  · simp [h2, h]

/-- The normalized type of a question whose raw type is an ASCII string or
missing is an ASCII string again, and its order is the raw order. -/
theorem normalizeQuestion_in_fragment (raw : Question) (idx : Nat)
    (ht : hasAsciiType raw.type = true) :
    hasAsciiType (normalizeQuestion raw idx).type = true ∧
    (normalizeQuestion raw idx).order = raw.order := by
  refine ⟨?_, rfl⟩
  have hall : ∀ s : String, (s.data.all (fun c => decide (c.toNat < 128))) = true →
      hasAsciiType (JSValue.str (toLowerCase s)) = true := by
    intro s hs
    simp only [hasAsciiType, JSValue.str, toLowerCase, List.all_eq_true, List.mem_map,
      decide_eq_true_eq] at hs ⊢
    rintro c ⟨d, hd, rfl⟩
    exact lowerChar_ascii d (hs d hd)
  cases hty : raw.type with
  | prim p =>
      cases p with
      | undefined => simp only [normalizeQuestion, hty]; decide
      | null => simp only [normalizeQuestion, hty]; decide
      | bool b => rw [hty] at ht; simp [hasAsciiType] at ht
      | num n => rw [hty] at ht; simp [hasAsciiType] at ht
      | nan => rw [hty] at ht; simp [hasAsciiType] at ht
      | str t =>
          rw [hty] at ht
          have h2 := normalizeQuestion_type_str raw idx t hty
          rw [h2]
          exact hall t (by simpa [hasAsciiType] using ht)
  | arr xs => rw [hty] at ht; simp [hasAsciiType] at ht
  | obj => rw [hty] at ht; simp [hasAsciiType] at ht

/-- C11: the normalizer is idempotent on every raw question list whose orders
and scaleMax are numbers, booleans, `null`, `''`, `NaN` or missing and whose types are
ASCII strings or missing: normalizing the normalizer's output again gives a
list equal to that output, question by question and in the same order, so
with the same identifier, type, text, options and scaleMax (and every other
property) for each question; and the output is again such a list.  Any
identifiers, texts and options are allowed. -/
theorem normalize_idempotent (arr : List Question)
    (horder : ∀ q ∈ arr, hasExactNumber q.order = true)
    (hscale : ∀ q ∈ arr, hasExactNumber q.scaleMax = true)
    (htype : ∀ q ∈ arr, hasAsciiType q.type = true) :
    normalize (normalize arr) = normalize arr ∧
    (normalize (normalize arr)).map
        (fun q => (q._qid, q.type, q.text, q.options, q.scaleMax))
      = (normalize arr).map (fun q => (q._qid, q.type, q.text, q.options, q.scaleMax)) ∧
    (∀ q ∈ normalize arr,
      hasExactNumber q.order = true ∧ hasExactNumber q.scaleMax = true ∧
      hasAsciiType q.type = true ∧
      ∃ raw ∈ arr, hasExactNumber raw.scaleMax = true ∧ q.order = raw.order) := by
  have h : normalize (normalize arr) = normalize arr := by
    have hs := sortedQuestions_normalize arr
    unfold normalize at hs ⊢
    rw [hs, mapFrom_normalizeQuestion_idem]
  refine ⟨h, by rw [h], ?_⟩
  intro q hq
  obtain ⟨raw, idx, hraw, rfl⟩ := mem_normalize arr q hq
  have hf := normalizeQuestion_in_fragment raw idx (htype raw hraw)
  obtain ⟨m, _, hm⟩ := normalizeQuestion_scaleMax_pos raw idx
  exact ⟨by rw [hf.2]; exact horder raw hraw, by rw [hm]; rfl, hf.1,
    raw, hraw, hscale raw hraw, hf.2⟩

/-- Witness for C11: the list `[{id:'a', order:2, type:'Rating', scaleMax:7},
{type:'CHECKBOX'}, {order:1, text:'T'}]` is normalized to the same list once
and twice. -/
theorem normalize_idempotent_witness :
    normalize (normalize
        [{ Question.empty with
            id := JSValue.str "a", order := JSValue.num 2, type := JSValue.str "Rating",
            scaleMax := JSValue.num 7 },
         { Question.empty with type := JSValue.str "CHECKBOX" },
         { Question.empty with order := JSValue.num 1, text := JSValue.str "T" }])
      = normalize
        [{ Question.empty with
            id := JSValue.str "a", order := JSValue.num 2, type := JSValue.str "Rating",
            scaleMax := JSValue.num 7 },
         { Question.empty with type := JSValue.str "CHECKBOX" },
         { Question.empty with order := JSValue.num 1, text := JSValue.str "T" }] :=
  (normalize_idempotent
      [{ Question.empty with
          id := JSValue.str "a", order := JSValue.num 2, type := JSValue.str "Rating",
          scaleMax := JSValue.num 7 },
       { Question.empty with type := JSValue.str "CHECKBOX" },
       { Question.empty with order := JSValue.num 1, text := JSValue.str "T" }]
      (by decide) (by decide) (by decide)).1

/-! ## Lemmas on the answer store -/

theorem lookup_setKey (answers : Answers) (k k2 : String) (v : JSValue) :
    (setKey answers k v).lookup k2 = if k2 = k then some v else answers.lookup k2 := by
  induction answers with
  | nil =>
      by_cases h : k2 = k
      · subst h; simp [setKey, List.lookup]
      · have hb : (k2 == k) = false := by simpa using h
        simp [setKey, List.lookup, hb, h]
  | cons p rest ih =>
      obtain ⟨k1, v1⟩ := p
      by_cases h1 : k1 = k
      · subst h1
        by_cases h : k2 = k1
        · subst h; simp [setKey, List.lookup]
        · have hb : (k2 == k1) = false := by simpa using h
          simp [setKey, List.lookup, hb, h]
      · by_cases h2 : k2 = k1
        · subst h2
          simp [setKey, List.lookup, h1]
        · have hb : (k2 == k1) = false := by simpa using h2
          simp [setKey, List.lookup, h1, hb, ih]

theorem getAnswer_setAnswer_same (answers : Answers) (qid val : JSValue) :
    getAnswer (setAnswer answers qid val) qid = val := by
  simp [getAnswer, setAnswer, lookup_setKey]

theorem getAnswer_setAnswer_other (answers : Answers) (qid val k : JSValue)
    (h : toStr k ≠ toStr qid) :
    getAnswer (setAnswer answers qid val) k = getAnswer answers k := by
  simp [getAnswer, setAnswer, lookup_setKey, h]

theorem initFrom_cons (init : Answers) (q : Question) (qs : List Question) :
    initFrom init (q :: qs)
      = initFrom (setKey init (toStr q._qid) (specInitialAnswer q)) qs := by
  unfold initFrom specInitialAnswer
  by_cases h : isMultiType q.type = true <;> simp [List.foldl, h]

theorem initFrom_lookup_of_not_mem (init : Answers) (qs : List Question) (k : String)
    (h : k ∉ qs.map (fun q => toStr q._qid)) :
    (initFrom init qs).lookup k = init.lookup k := by
  induction qs generalizing init with
  | nil => rfl
  | cons q qs ih =>
      simp only [List.map_cons, List.mem_cons, not_or] at h
      rw [initFrom_cons, ih _ h.2, lookup_setKey, if_neg h.1]

theorem initFrom_lookup_of_mem (init : Answers) (qs : List Question) (q : Question)
    (hq : q ∈ qs) (hnodup : (qs.map (fun q => toStr q._qid)).Nodup) :
    (initFrom init qs).lookup (toStr q._qid) = some (specInitialAnswer q) := by
  induction qs generalizing init with
  | nil => simp at hq
  | cons p qs ih =>
      simp only [List.map_cons, List.nodup_cons] at hnodup
      rw [initFrom_cons]
      rcases List.mem_cons.mp hq with rfl | hmem
      · rw [initFrom_lookup_of_not_mem _ _ _ hnodup.1, lookup_setKey, if_pos rfl]
      · exact ih _ hmem hnodup.2

/-! ## Lemmas on the keys of the answer store -/

theorem setKey_of_not_mem (init : Answers) (k : String) (v : JSValue)
    (h : k ∉ init.map Prod.fst) : setKey init k v = init ++ [(k, v)] := by
  induction init with
  | nil => rfl
  | cons p rest ih =>
      obtain ⟨k1, v1⟩ := p
      simp only [List.map_cons, List.mem_cons, not_or] at h
      have hne : ¬ k1 = k := fun e => h.1 e.symm
      simp [setKey, hne, ih h.2]

/-- With pairwise distinct keys, none of them in `init` yet, the loop of lines
58-61 appends one entry per question, in list order. -/
theorem initFrom_of_nodup (init : Answers) (qs : List Question)
    (hnodup : (qs.map answerKey).Nodup)
    (hfresh : ∀ k ∈ qs.map answerKey, k ∉ init.map Prod.fst) :
    initFrom init qs = init ++ qs.map (fun q => (answerKey q, specInitialAnswer q)) := by
  induction qs generalizing init with
  | nil => simp [initFrom]
  | cons q qs ih =>
      simp only [List.map_cons, List.nodup_cons] at hnodup
      have hq : answerKey q ∉ init.map Prod.fst := hfresh _ (by simp)
      rw [initFrom_cons]
      have hstep : setKey init (toStr q._qid) (specInitialAnswer q)
          = init ++ [(answerKey q, specInitialAnswer q)] := setKey_of_not_mem _ _ _ hq
      rw [hstep, ih _ hnodup.2]
      · simp
      · intro k hk
        simp only [List.map_append, List.map_cons, List.map_nil, List.mem_append,
          List.mem_singleton, not_or]
        refine ⟨hfresh k (by simp [hk]), ?_⟩
        intro hkq
        subst hkq
        exact hnodup.1 hk

theorem initAnswers_of_nodup (qs : List Question) (hnodup : (qs.map answerKey).Nodup) :
    initAnswers qs = qs.map (fun q => (answerKey q, specInitialAnswer q)) := by
  have h := initFrom_of_nodup [] qs hnodup (by simp)
  simpa [initAnswers, initFrom] using h

theorem distinctStringKeys_nodup (qs : List Question) (h : distinctStringKeys qs = true) :
    (qs.map answerKey).Nodup := by
  simp only [distinctStringKeys, Bool.and_eq_true, decide_eq_true_eq] at h
  exact h.2

theorem distinctStringKeys_str (qs : List Question) (h : distinctStringKeys qs = true)
    (q : Question) (hq : q ∈ qs) :
    ∃ s : String, q._qid = JSValue.str s ∧ s ≠ "__proto__" ∧ answerKey q = s := by
  simp only [distinctStringKeys, Bool.and_eq_true, List.all_eq_true] at h
  have hk := h.1 q hq
  unfold answerKey
  cases hv : q._qid with
  | prim p =>
      cases p with
      | str t =>
          rw [hv] at hk
          refine ⟨t, rfl, ?_, rfl⟩
          simpa [isStringKey] using hk
      | undefined => rw [hv] at hk; simp [isStringKey] at hk
      | null => rw [hv] at hk; simp [isStringKey] at hk
      | bool b => rw [hv] at hk; simp [isStringKey] at hk
      | num n => rw [hv] at hk; simp [isStringKey] at hk
      | nan => rw [hv] at hk; simp [isStringKey] at hk
  | arr xs => rw [hv] at hk; simp [isStringKey] at hk
  | obj => rw [hv] at hk; simp [isStringKey] at hk

/-- With distinct string identifiers, the entries of the fresh store are the
questions' identifiers with their initial values, and nothing else. -/
theorem mem_initAnswers (qs : List Question) (h : distinctStringKeys qs = true)
    (p : String × JSValue) (hp : p ∈ initAnswers qs) :
    ∃ q ∈ qs, q._qid = JSValue.str p.1 ∧ p.1 ≠ "__proto__" ∧ p.2 = specInitialAnswer q := by
  rw [initAnswers_of_nodup qs (distinctStringKeys_nodup qs h)] at hp
  obtain ⟨q, hq, rfl⟩ := List.mem_map.mp hp
  obtain ⟨t, ht, hne, hkey⟩ := distinctStringKeys_str qs h q hq
  refine ⟨q, hq, ?_, ?_, rfl⟩
  · simp only [hkey]; exact ht
  · simp only [hkey]; exact hne

/-! ## Answer store: the claims -/

/-- C12, as stated, fails: the raw list `[{type:'checkbox'}, {id:'q0',
type:'text'}]` normalizes to two questions that both have the identifier
`q0`; the loop of lines 58-61 writes `[]` and then `''` under that one key, so
the store is `{q0: ''}` and the multi-choice question's identifier maps to the
empty string. -/
theorem initAnswers_shared_identifier :
    initAnswers
        (normalize
          [{ Question.empty with type := JSValue.str "checkbox" },
           { Question.empty with id := JSValue.str "q0", type := JSValue.str "text" }])
      = [("q0", JSValue.str "")] ∧
    ¬ (∀ q ∈ normalize
          [{ Question.empty with type := JSValue.str "checkbox" },
           { Question.empty with id := JSValue.str "q0", type := JSValue.str "text" }],
        getAnswer
            (initAnswers
              (normalize
                [{ Question.empty with type := JSValue.str "checkbox" },
                 { Question.empty with id := JSValue.str "q0",
                                       type := JSValue.str "text" }]))
            q._qid
          = specInitialAnswer q) := by
  decide

/-- C12, amended: for every question list whose identifiers are pairwise
distinct strings other than `__proto__`, the re-initialized answer store maps
the identifier of each multi-choice question to the empty list and the
identifier of every other question (a rating question included) to the empty
string, and holds nothing else; the list
`[{id:'multiQ', type:'checkbox'}, {id:'textQ', type:'short_text'}]` gives
`{multiQ: [], textQ: ''}`. -/
theorem initAnswers_distinct (qs : List Question) (hkeys : distinctStringKeys qs = true) :
    (∀ q ∈ qs, isMultiType q.type = true →
        getAnswer (initAnswers qs) q._qid = JSValue.arr []) ∧
    (∀ q ∈ qs, isMultiType q.type = false →
        getAnswer (initAnswers qs) q._qid = JSValue.str "") ∧
    (∀ p ∈ initAnswers qs, ∃ q ∈ qs, q._qid = JSValue.str p.1 ∧
        p.2 = (if isMultiType q.type then JSValue.arr [] else JSValue.str "")) ∧
    initAnswers
        (normalize
          [{ Question.empty with id := JSValue.str "multiQ", type := JSValue.str "checkbox" },
           { Question.empty with id := JSValue.str "textQ",
                                 type := JSValue.str "short_text" }])
      = [("multiQ", JSValue.arr []), ("textQ", JSValue.str "")] := by
  have hnodup : (qs.map (fun q => toStr q._qid)).Nodup := distinctStringKeys_nodup qs hkeys
  have key : ∀ q ∈ qs, getAnswer (initAnswers qs) q._qid = specInitialAnswer q := by
    intro q hq
    have h := initFrom_lookup_of_mem [] qs q hq hnodup
    have hinit : initAnswers qs = initFrom [] qs := rfl
    rw [getAnswer, hinit, h]
    rfl
  refine ⟨?_, ?_, ?_, by decide⟩
  · intro q hq hm
    rw [key q hq, specInitialAnswer, if_pos hm]
  · intro q hq hm
    rw [key q hq, specInitialAnswer]
    simp [hm]
  · intro p hp
    obtain ⟨q, hq, hid, _, hval⟩ := mem_initAnswers qs hkeys p hp
    exact ⟨q, hq, hid, hval⟩

/-- Witness for C12 amended: a rating question and a `multi` question with
the distinct identifiers `r` and `m`. -/
theorem initAnswers_distinct_witness :
    getAnswer
        (initAnswers
          [{ Question.empty with _qid := JSValue.str "r", type := JSValue.str "rating" },
           { Question.empty with _qid := JSValue.str "m", type := JSValue.str "multi" }])
        (JSValue.str "r") = JSValue.str "" ∧
    getAnswer
        (initAnswers
          [{ Question.empty with _qid := JSValue.str "r", type := JSValue.str "rating" },
           { Question.empty with _qid := JSValue.str "m", type := JSValue.str "multi" }])
        (JSValue.str "m") = JSValue.arr [] :=
  let h := initAnswers_distinct
    [{ Question.empty with _qid := JSValue.str "r", type := JSValue.str "rating" },
     { Question.empty with _qid := JSValue.str "m", type := JSValue.str "multi" }]
    (by decide)
  ⟨h.2.1 { Question.empty with _qid := JSValue.str "r", type := JSValue.str "rating" }
      (by decide) (by decide),
   h.1 { Question.empty with _qid := JSValue.str "m", type := JSValue.str "multi" }
      (by decide) (by decide)⟩

/-- The value `toggle` leaves under the question's key, for any primitive
option. -/
theorem getAnswer_toggle (answers : Answers) (q : Question) (opt : JSPrim) :
    getAnswer (toggle answers q opt) q._qid
      = if includes (answerList (getAnswer answers q._qid)) opt = true
        then JSValue.arr
          ((answerList (getAnswer answers q._qid)).filter (fun x => strictNe x opt))
        else JSValue.arr (answerList (getAnswer answers q._qid) ++ [opt]) := by
  by_cases h : includes (answerList (getAnswer answers q._qid)) opt = true
  · simp only [toggle, h, if_true]
    exact getAnswer_setAnswer_same _ _ _
  · simp only [toggle, h, if_false]
    exact getAnswer_setAnswer_same _ _ _

theorem getAnswer_toggle_other (answers : Answers) (q : Question) (opt : JSPrim)
    (k : JSValue) (h : toStr k ≠ toStr q._qid) :
    getAnswer (toggle answers q opt) k = getAnswer answers k := by
  by_cases hi : includes (answerList (getAnswer answers q._qid)) opt = true
  · simp only [toggle, hi, if_true]
    exact getAnswer_setAnswer_other _ _ _ _ h
  · simp only [toggle, hi, if_false]
    exact getAnswer_setAnswer_other _ _ _ _ h

theorem includes_map_str (arr : List String) (opt : String) :
    includes (arr.map JSPrim.str) (JSPrim.str opt) = decide (opt ∈ arr) := by
  simp [includes]

theorem filter_strictNe_map_str (arr : List String) (opt : String) :
    (arr.map JSPrim.str).filter (fun x => strictNe x (JSPrim.str opt))
      = (arr.filter (fun x => decide (x ≠ opt))).map JSPrim.str := by
  rw [List.filter_map]
  congr 1
  apply List.filter_congr
  intro x _
  simp [strictNe]

/-- C13: for a multi-choice answer holding the list of strings `arr` and every
option string `opt`, `toggle` stores `arr` with `opt` appended when `opt` is
absent from `arr` and `arr` without `opt` when it is present; in both cases
the other elements of `arr` are kept in their order (the stored list and `arr`
agree once `opt` is filtered out) and `opt` is in the stored list exactly
when it was absent; every other key of the answer store reads as before. -/
theorem toggle_multi_choice (answers : Answers) (q : Question) (arr : List String)
    (opt : String)
    (hval : getAnswer answers q._qid = JSValue.arr (arr.map JSPrim.str)) :
    (opt ∉ arr →
      getAnswer (toggle answers q (JSPrim.str opt)) q._qid
        = JSValue.arr ((arr ++ [opt]).map JSPrim.str)) ∧
    (opt ∈ arr →
      getAnswer (toggle answers q (JSPrim.str opt)) q._qid
        = JSValue.arr ((arr.filter (fun x => decide (x ≠ opt))).map JSPrim.str)) ∧
    (∃ stored : List String,
      getAnswer (toggle answers q (JSPrim.str opt)) q._qid
        = JSValue.arr (stored.map JSPrim.str) ∧
      stored.filter (fun x => decide (x ≠ opt)) = arr.filter (fun x => decide (x ≠ opt)) ∧
      (opt ∈ stored ↔ opt ∉ arr)) ∧
    (∀ k : JSValue, toStr k ≠ toStr q._qid →
      getAnswer (toggle answers q (JSPrim.str opt)) k = getAnswer answers k) := by
  have hget := getAnswer_toggle answers q (JSPrim.str opt)
  rw [hval] at hget
  simp only [answerList, includes_map_str, filter_strictNe_map_str, decide_eq_true_eq]
    at hget
  have habsent : opt ∉ arr →
      getAnswer (toggle answers q (JSPrim.str opt)) q._qid
        = JSValue.arr ((arr ++ [opt]).map JSPrim.str) := by
    intro h
    rw [hget, if_neg h]
    simp
  have hpresent : opt ∈ arr →
      getAnswer (toggle answers q (JSPrim.str opt)) q._qid
        = JSValue.arr ((arr.filter (fun x => decide (x ≠ opt))).map JSPrim.str) := by
    intro h
    rw [hget, if_pos h]
  refine ⟨habsent, hpresent, ?_, fun k hk => getAnswer_toggle_other answers q _ k hk⟩
  by_cases h : opt ∈ arr
  · refine ⟨arr.filter (fun x => decide (x ≠ opt)), hpresent h, ?_, ?_⟩
    · simp [List.filter_filter]
    · simp [h]
  · refine ⟨arr ++ [opt], habsent h, ?_, ?_⟩
    · simp [List.filter_append]
    · simp [h]

/-- Witness for C13: on the stored list `['a', 'b', 'c']`, toggling `b`
stores `['a', 'c']` and toggling `d` stores `['a', 'b', 'c', 'd']`. -/
theorem toggle_multi_choice_witness :
    getAnswer
        (toggle
          [("m", JSValue.arr [JSPrim.str "a", JSPrim.str "b", JSPrim.str "c"])]
          { Question.empty with _qid := JSValue.str "m", type := JSValue.str "checkbox" }
          (JSPrim.str "b"))
        (JSValue.str "m")
      = JSValue.arr [JSPrim.str "a", JSPrim.str "c"] ∧
    getAnswer
        (toggle
          [("m", JSValue.arr [JSPrim.str "a", JSPrim.str "b", JSPrim.str "c"])]
          { Question.empty with _qid := JSValue.str "m", type := JSValue.str "checkbox" }
          (JSPrim.str "d"))
        (JSValue.str "m")
      = JSValue.arr [JSPrim.str "a", JSPrim.str "b", JSPrim.str "c", JSPrim.str "d"] :=
  ⟨(toggle_multi_choice
      [("m", JSValue.arr [JSPrim.str "a", JSPrim.str "b", JSPrim.str "c"])]
      { Question.empty with _qid := JSValue.str "m", type := JSValue.str "checkbox" }
      ["a", "b", "c"] "b" (by decide)).2.1 (by decide),
   (toggle_multi_choice
      [("m", JSValue.arr [JSPrim.str "a", JSPrim.str "b", JSPrim.str "c"])]
      { Question.empty with _qid := JSValue.str "m", type := JSValue.str "checkbox" }
      ["a", "b", "c"] "d" (by decide)).1 (by decide)⟩

/-! ## Lemmas on the prober -/

/-- A run that fails a guard of line 9 or line 13 does nothing. -/
theorem useSurveyPrompt_guarded (run : ProberRun) (st : LocalStorage)
    (h : run.isAuthenticated = false ∨ isStudentOrAlumni (getRoleFromUser run.user) = false
      ∨ throttled run st = true) :
    useSurveyPrompt run st = { storage := st, effects := [], uncaught := none } := by
  unfold useSurveyPrompt
  rcases h with h | h | h
  · simp [h]
  · simp [h]
  · by_cases hg : (!run.isAuthenticated || !isStudentOrAlumni (getRoleFromUser run.user)) = true
    · simp [hg]
    · simp [hg, h]

/-- A run that passes both guards makes the eligibility call and continues
with the async function. -/
theorem useSurveyPrompt_run (run : ProberRun) (st : LocalStorage)
    (hauth : run.isAuthenticated = true)
    (hrole : isStudentOrAlumni (getRoleFromUser run.user) = true)
    (hnt : throttled run st = false) :
    useSurveyPrompt run st
      = { storage := (proberAsync run.options run.nowAfterCall run.outcome st).storage,
          effects := ProberEffect.eligible
            :: (proberAsync run.options run.nowAfterCall run.outcome st).effects,
          uncaught := (proberAsync run.options run.nowAfterCall run.outcome st).uncaught } := by
  simp [useSurveyPrompt, hauth, hrole, hnt]

theorem proberAsync_rejected (options : ProberOptions) (t : Int) (e : JSValue)
    (st : LocalStorage) :
    proberAsync options t (EligibleOutcome.rejected e) st
      = { storage := st, effects := [ProberEffect.warn (ProberError.rejection e)],
          uncaught := none } := by
  simp [proberAsync, proberTry]

theorem proberAsync_malformed (options : ProberOptions) (t : Int)
    (list : Option (List EligibilityRecord)) (st : LocalStorage)
    (h : parsePrompted st.survey_prompted_ids = none) :
    proberAsync options t (EligibleOutcome.resolved list) st
      = { storage := { st with survey_last_check := some (toString t) },
          effects := [ProberEffect.setLastCheck (toString t),
                      ProberEffect.warn ProberError.jsonSyntaxError],
          uncaught := none } := by
  simp [proberAsync, proberTry, h]

theorem proberAsync_none (options : ProberOptions) (t : Int)
    (list : Option (List EligibilityRecord)) (st : LocalStorage) (prompted : List String)
    (h : parsePrompted st.survey_prompted_ids = some prompted)
    (hfind : findFirst list prompted = none) :
    proberAsync options t (EligibleOutcome.resolved list) st
      = { storage := { st with survey_last_check := some (toString t) },
          effects := [ProberEffect.setLastCheck (toString t)],
          uncaught := none } := by
  simp [proberAsync, proberTry, h, hfind]

theorem proberAsync_found (options : ProberOptions) (t : Int)
    (list : Option (List EligibilityRecord)) (st : LocalStorage) (prompted : List String)
    (first : EligibilityRecord)
    (h : parsePrompted st.survey_prompted_ids = some prompted)
    (hfind : findFirst list prompted = some first) :
    proberAsync options t (EligibleOutcome.resolved list) st
      = { storage :=
            { survey_last_check := some (toString t),
              survey_prompted_ids := PromptedItem.array (prompted ++ [first._id]) },
          effects := [ProberEffect.setLastCheck (toString t),
                      ProberEffect.setPromptedIds (prompted ++ [first._id])]
            ++ (if options.onFound then [ProberEffect.onFound first] else []),
          uncaught := none } := by
  simp [proberAsync, proberTry, h, hfind]

theorem findFirst_not_mem (list : Option (List EligibilityRecord)) (prompted : List String)
    (first : EligibilityRecord) (h : findFirst list prompted = some first) :
    first._id ∉ prompted := by
  cases list with
  | none => simp [findFirst] at h
  | some records =>
      simp only [findFirst] at h
      have := List.find?_some h
      simpa using this

/-! ## Prober: the claims -/

/-- C14: when the user is not authenticated, or the role is neither
`'student'` nor `'alumni'`, a prober run makes no call to the eligibility
interface, leaves local storage as it is (no item is written) and has no
effect at all, so `onFound` is never invoked. -/
theorem prober_requires_student_or_alumni (run : ProberRun) (st : LocalStorage)
    (h : run.isAuthenticated = false ∨
      (getRoleFromUser run.user ≠ JSValue.str "student" ∧
        getRoleFromUser run.user ≠ JSValue.str "alumni")) :
    (useSurveyPrompt run st).effects = [] ∧
    ProberEffect.eligible ∉ (useSurveyPrompt run st).effects ∧
    (∀ first, ProberEffect.onFound first ∉ (useSurveyPrompt run st).effects) ∧
    (useSurveyPrompt run st).storage = st ∧
    (useSurveyPrompt run st).uncaught = none := by
  have hg : useSurveyPrompt run st = { storage := st, effects := [], uncaught := none } := by
    apply useSurveyPrompt_guarded
    rcases h with h | ⟨h1, h2⟩
    · exact Or.inl h
    · right; left
      simp [isStudentOrAlumni, strictEqStr, h1, h2]
  rw [hg]
  simp

/-- Witness for C14: an authenticated admin, and a logged-out visitor. -/
theorem prober_requires_student_or_alumni_witness :
    (useSurveyPrompt
        { isAuthenticated := true,
          user := some { role := JSValue.str "admin", userType := JSValue.undefined,
                         type := JSValue.undefined },
          options := { onFound := true, throttleMinutes := JSValue.undefined },
          now := 5000000, nowAfterCall := 5000100,
          outcome := EligibleOutcome.resolved
            (some [{ _id := "s1", title := JSValue.str "T",
                     description := JSValue.undefined }]) }
        { survey_last_check := none, survey_prompted_ids := PromptedItem.absent }).effects
      = [] ∧
    (useSurveyPrompt
        { isAuthenticated := false, user := none,
          options := { onFound := true, throttleMinutes := JSValue.undefined },
          now := 5000000, nowAfterCall := 5000100,
          outcome := EligibleOutcome.resolved
            (some [{ _id := "s1", title := JSValue.str "T",
                     description := JSValue.undefined }]) }
        { survey_last_check := none, survey_prompted_ids := PromptedItem.absent }).effects
      = [] :=
  ⟨(prober_requires_student_or_alumni
      { isAuthenticated := true,
        user := some { role := JSValue.str "admin", userType := JSValue.undefined,
                       type := JSValue.undefined },
        options := { onFound := true, throttleMinutes := JSValue.undefined },
        now := 5000000, nowAfterCall := 5000100,
        outcome := EligibleOutcome.resolved
          (some [{ _id := "s1", title := JSValue.str "T",
                   description := JSValue.undefined }]) }
      { survey_last_check := none, survey_prompted_ids := PromptedItem.absent }
      (Or.inr ⟨by decide, by decide⟩)).1,
   (prober_requires_student_or_alumni
      { isAuthenticated := false, user := none,
        options := { onFound := true, throttleMinutes := JSValue.undefined },
        now := 5000000, nowAfterCall := 5000100,
        outcome := EligibleOutcome.resolved
          (some [{ _id := "s1", title := JSValue.str "T",
                   description := JSValue.undefined }]) }
      { survey_last_check := none, survey_prompted_ids := PromptedItem.absent }
      (Or.inl rfl)).1⟩

/-- C15: for every current time `now`, stored last-checked time `last` and
throttle window `window`, if `now - last < window` the prober run makes no
eligibility call, has no effect and leaves local storage unchanged; a missing
timestamp is read as `0`, the window is `throttleMinutes * 60000`, and
`throttleMinutes` is `60` when not supplied. -/
theorem prober_throttled (run : ProberRun) (st : LocalStorage) (last window : Int)
    (hlast : lastChecked st = some last)
    (hwindow : throttleWindow run.options = some window)
    (h : run.now - last < window) :
    (useSurveyPrompt run st).effects = [] ∧
    ProberEffect.eligible ∉ (useSurveyPrompt run st).effects ∧
    (useSurveyPrompt run st).storage = st ∧
    (st.survey_last_check = none → last = 0) ∧
    (run.options.throttleMinutes = JSValue.undefined → window = 60 * 60000) ∧
    (∀ m : Int, run.options.throttleMinutes = JSValue.num m → window = m * 60000) := by
  have hthr : throttled run st = true := by
    simp [throttled, hlast, hwindow, numSub, numLt, h]
  have hg : useSurveyPrompt run st = { storage := st, effects := [], uncaught := none } :=
    useSurveyPrompt_guarded run st (Or.inr (Or.inr hthr))
  rw [hg]
  refine ⟨rfl, by simp, rfl, ?_, ?_, ?_⟩
  · intro hnone
    have : lastChecked st = some 0 := by
      simp [lastChecked, getLastCheck, hnone, jsOr, truthy, JSValue.null, JSPrim.truthy,
        toNumber, JSValue.num, JSPrim.toNumber]
    rw [this] at hlast
    exact (Option.some.inj hlast).symm
  · intro hundef
    have : throttleWindow run.options = some (60 * 60000) := by
      simp [throttleWindow, throttleMinutes, hundef, toNumber, JSValue.num, JSPrim.toNumber,
        numMul]
    rw [this] at hwindow
    exact (Option.some.inj hwindow).symm
  · intro m hm
    have : throttleWindow run.options = some (m * 60000) := by
      have hne : JSValue.num m ≠ JSValue.undefined := by
        simp [JSValue.num, JSValue.undefined]
      unfold throttleWindow throttleMinutes
      rw [hm, if_neg hne]
      rfl
    rw [this] at hwindow
    exact (Option.some.inj hwindow).symm

/-- Witness for C15: a student whose last check was stored as `1000`, at time
`2000`, with the default window of 60 minutes. -/
theorem prober_throttled_witness :
    (useSurveyPrompt
        { isAuthenticated := true,
          user := some { role := JSValue.str "student", userType := JSValue.undefined,
                         type := JSValue.undefined },
          options := { onFound := true, throttleMinutes := JSValue.undefined },
          now := 2000, nowAfterCall := 2100,
          outcome := EligibleOutcome.resolved
            (some [{ _id := "s1", title := JSValue.str "T",
                     description := JSValue.undefined }]) }
        { survey_last_check := some "1000",
          survey_prompted_ids := PromptedItem.absent }).effects = [] ∧
    (useSurveyPrompt
        { isAuthenticated := true,
          user := some { role := JSValue.str "student", userType := JSValue.undefined,
                         type := JSValue.undefined },
          options := { onFound := true, throttleMinutes := JSValue.undefined },
          now := 2000, nowAfterCall := 2100,
          outcome := EligibleOutcome.resolved
            (some [{ _id := "s1", title := JSValue.str "T",
                     description := JSValue.undefined }]) }
        { survey_last_check := some "1000",
          survey_prompted_ids := PromptedItem.absent }).storage
      = { survey_last_check := some "1000",
          survey_prompted_ids := PromptedItem.absent } :=
  let h := prober_throttled
    { isAuthenticated := true,
      user := some { role := JSValue.str "student", userType := JSValue.undefined,
                     type := JSValue.undefined },
      options := { onFound := true, throttleMinutes := JSValue.undefined },
      now := 2000, nowAfterCall := 2100,
      outcome := EligibleOutcome.resolved
        (some [{ _id := "s1", title := JSValue.str "T",
                 description := JSValue.undefined }]) }
    { survey_last_check := some "1000", survey_prompted_ids := PromptedItem.absent }
    1000 3600000 (by decide) (by decide) (by decide)
  ⟨h.1, h.2.2.1⟩

/-- C16, as stated, fails: a student's run at time `5000000` passes both
guards and makes the eligibility call; the call rejects, and the item
`survey_last_check` is not the current time `5000100` afterwards (it stays
absent): line 18 is only reached when the awaited call of line 17 resolves. -/
theorem last_check_not_updated_on_rejection :
    isStudentOrAlumni (getRoleFromUser
        (some { role := JSValue.str "student", userType := JSValue.undefined,
                type := JSValue.undefined })) = true ∧
    throttled
        { isAuthenticated := true,
          user := some { role := JSValue.str "student", userType := JSValue.undefined,
                         type := JSValue.undefined },
          options := { onFound := true, throttleMinutes := JSValue.undefined },
          now := 5000000, nowAfterCall := 5000100,
          outcome := EligibleOutcome.rejected JSValue.obj }
        { survey_last_check := none, survey_prompted_ids := PromptedItem.absent }
      = false ∧
    ProberEffect.eligible ∈
      (useSurveyPrompt
        { isAuthenticated := true,
          user := some { role := JSValue.str "student", userType := JSValue.undefined,
                         type := JSValue.undefined },
          options := { onFound := true, throttleMinutes := JSValue.undefined },
          now := 5000000, nowAfterCall := 5000100,
          outcome := EligibleOutcome.rejected JSValue.obj }
        { survey_last_check := none,
          survey_prompted_ids := PromptedItem.absent }).effects ∧
    (useSurveyPrompt
        { isAuthenticated := true,
          user := some { role := JSValue.str "student", userType := JSValue.undefined,
                         type := JSValue.undefined },
          options := { onFound := true, throttleMinutes := JSValue.undefined },
          now := 5000000, nowAfterCall := 5000100,
          outcome := EligibleOutcome.rejected JSValue.obj }
        { survey_last_check := none,
          survey_prompted_ids := PromptedItem.absent }).storage.survey_last_check
      ≠ some (toString (5000100 : Int)) := by
  decide

/-- C16, amended: on a non-throttled run by an authenticated student or
alumni, when the eligibility call resolves the item `survey_last_check` is set
to the current time right after the call (before the prompted set is read), and
it stays so whatever follows; when the call rejects the storage is left
exactly as it was and the only further effect is the warning. -/
theorem last_check_updated_on_success (run : ProberRun) (st : LocalStorage)
    (hauth : run.isAuthenticated = true)
    (hrole : isStudentOrAlumni (getRoleFromUser run.user) = true)
    (hnt : throttled run st = false) :
    (∀ list, run.outcome = EligibleOutcome.resolved list →
      (useSurveyPrompt run st).storage.survey_last_check
          = some (toString run.nowAfterCall) ∧
      (useSurveyPrompt run st).effects.take 2
          = [ProberEffect.eligible, ProberEffect.setLastCheck (toString run.nowAfterCall)]) ∧
    (∀ e, run.outcome = EligibleOutcome.rejected e →
      (useSurveyPrompt run st).storage = st ∧
      (useSurveyPrompt run st).effects
          = [ProberEffect.eligible, ProberEffect.warn (ProberError.rejection e)]) := by
  rw [useSurveyPrompt_run run st hauth hrole hnt]
  constructor
  · intro list hout
    rw [hout]
    cases hp : parsePrompted st.survey_prompted_ids with
    | none => rw [proberAsync_malformed _ _ _ _ hp]; simp
    | some prompted =>
        cases hf : findFirst list prompted with
        | none => rw [proberAsync_none _ _ _ _ _ hp hf]; simp
        | some first => rw [proberAsync_found _ _ _ _ _ _ hp hf]; simp
  · intro e hout
    rw [hout, proberAsync_rejected]
    simp

/-- Witness for C16 amended: the same student's run with a resolving call
stores `5000100`. -/
theorem last_check_updated_on_success_witness :
    (useSurveyPrompt
        { isAuthenticated := true,
          user := some { role := JSValue.str "student", userType := JSValue.undefined,
                         type := JSValue.undefined },
          options := { onFound := true, throttleMinutes := JSValue.undefined },
          now := 5000000, nowAfterCall := 5000100,
          outcome := EligibleOutcome.resolved (some []) }
        { survey_last_check := none,
          survey_prompted_ids := PromptedItem.absent }).storage.survey_last_check
      = some "5000100" :=
  ((last_check_updated_on_success
      { isAuthenticated := true,
        user := some { role := JSValue.str "student", userType := JSValue.undefined,
                       type := JSValue.undefined },
        options := { onFound := true, throttleMinutes := JSValue.undefined },
        now := 5000000, nowAfterCall := 5000100,
        outcome := EligibleOutcome.resolved (some []) }
      { survey_last_check := none, survey_prompted_ids := PromptedItem.absent }
      (by decide) (by decide) (by decide)).1 (some []) rfl).1

/-- C19: no prober run lets an error escape to its caller; and when the
eligibility call rejects, or the persisted prompted-id value cannot be parsed,
the run does not invoke `onFound` and writes no prompted-id set: once the call
has been made its last effect is the warning of line 31. -/
theorem prober_failure_is_silent (run : ProberRun) (st : LocalStorage) :
    (useSurveyPrompt run st).uncaught = none ∧
    (((∃ e, run.outcome = EligibleOutcome.rejected e) ∨
        parsePrompted st.survey_prompted_ids = none) →
      (∀ first, ProberEffect.onFound first ∉ (useSurveyPrompt run st).effects) ∧
      foundIds (useSurveyPrompt run st).effects = [] ∧
      (useSurveyPrompt run st).storage.survey_prompted_ids = st.survey_prompted_ids ∧
      (ProberEffect.eligible ∈ (useSurveyPrompt run st).effects →
        ∃ err, (useSurveyPrompt run st).effects.getLast? = some (ProberEffect.warn err))) := by
  by_cases hg : run.isAuthenticated = false ∨
      isStudentOrAlumni (getRoleFromUser run.user) = false ∨ throttled run st = true
  · rw [useSurveyPrompt_guarded run st hg]
    simp [foundIds]
  · simp only [not_or, Bool.not_eq_false, Bool.not_eq_true] at hg
    rw [useSurveyPrompt_run run st hg.1 hg.2.1 hg.2.2]
    constructor
    · simp [proberAsync]
      cases proberTry run.options run.nowAfterCall run.outcome st with
      | mk st1 rest =>
          cases rest with
          | mk effs thrown => cases thrown <;> rfl
    · intro hfail
      cases hout : run.outcome with
      | rejected e =>
          rw [proberAsync_rejected]
          simp [foundIds]
      | resolved list =>
          rcases hfail with ⟨e, he⟩ | hp
          · rw [hout] at he; cases he
          · rw [proberAsync_malformed _ _ _ _ hp]
            simp [foundIds]

/-- Witness for C19: a stored prompted-id text that cannot be parsed; the run
updates the timestamp, logs the error and calls nothing else. -/
theorem prober_failure_is_silent_witness :
    foundIds
        (useSurveyPrompt
          { isAuthenticated := true,
            user := some { role := JSValue.str "alumni", userType := JSValue.undefined,
                           type := JSValue.undefined },
            options := { onFound := true, throttleMinutes := JSValue.undefined },
            now := 5000000, nowAfterCall := 5000100,
            outcome := EligibleOutcome.resolved
              (some [{ _id := "s1", title := JSValue.str "T",
                       description := JSValue.undefined }]) }
          { survey_last_check := none,
            survey_prompted_ids := PromptedItem.malformed }).effects = [] ∧
    (useSurveyPrompt
        { isAuthenticated := true,
          user := some { role := JSValue.str "alumni", userType := JSValue.undefined,
                         type := JSValue.undefined },
          options := { onFound := true, throttleMinutes := JSValue.undefined },
          now := 5000000, nowAfterCall := 5000100,
          outcome := EligibleOutcome.resolved
            (some [{ _id := "s1", title := JSValue.str "T",
                     description := JSValue.undefined }]) }
        { survey_last_check := none,
          survey_prompted_ids := PromptedItem.malformed }).effects
      = [ProberEffect.eligible, ProberEffect.setLastCheck "5000100",
         ProberEffect.warn ProberError.jsonSyntaxError] :=
  ⟨((prober_failure_is_silent
      { isAuthenticated := true,
        user := some { role := JSValue.str "alumni", userType := JSValue.undefined,
                       type := JSValue.undefined },
        options := { onFound := true, throttleMinutes := JSValue.undefined },
        now := 5000000, nowAfterCall := 5000100,
        outcome := EligibleOutcome.resolved
          (some [{ _id := "s1", title := JSValue.str "T",
                   description := JSValue.undefined }]) }
      { survey_last_check := none, survey_prompted_ids := PromptedItem.malformed }).2
      (Or.inr rfl)).2.1,
   by decide⟩

/-- C17: on a non-throttled run by an authenticated student or alumni whose
call resolves with the list `records`, with the persisted prompted-id list
`prompted`: the record `first` that comes after records all in the set and is
itself not in the set is the one selected, the prompted set is left equal to
the old list with its identifier appended (written before the callback), and
the callback, when supplied, is invoked once, with `first`; when every record
is in the set the callback is not invoked and the stored set is unchanged. -/
theorem prober_selects_first_unprompted (run : ProberRun) (st : LocalStorage)
    (records : List EligibilityRecord) (prompted : List String)
    (hauth : run.isAuthenticated = true)
    (hrole : isStudentOrAlumni (getRoleFromUser run.user) = true)
    (hnt : throttled run st = false)
    (hout : run.outcome = EligibleOutcome.resolved (some records))
    (hprompted : parsePrompted st.survey_prompted_ids = some prompted) :
    (∀ before first after, records = before ++ first :: after →
      (∀ p ∈ before, p._id ∈ prompted) → first._id ∉ prompted →
      (useSurveyPrompt run st).storage.survey_prompted_ids
          = PromptedItem.array (prompted ++ [first._id]) ∧
      promptedIds (useSurveyPrompt run st).storage = prompted ++ [first._id] ∧
      (useSurveyPrompt run st).effects
          = [ProberEffect.eligible, ProberEffect.setLastCheck (toString run.nowAfterCall),
             ProberEffect.setPromptedIds (prompted ++ [first._id])]
            ++ (if run.options.onFound then [ProberEffect.onFound first] else []) ∧
      (run.options.onFound = true →
        (useSurveyPrompt run st).effects.getLast? = some (ProberEffect.onFound first) ∧
        foundIds (useSurveyPrompt run st).effects = [first._id])) ∧
    ((∀ r ∈ records, r._id ∈ prompted) →
      (∀ first, ProberEffect.onFound first ∉ (useSurveyPrompt run st).effects) ∧
      (useSurveyPrompt run st).storage.survey_prompted_ids = st.survey_prompted_ids ∧
      promptedIds (useSurveyPrompt run st).storage = prompted) := by
  rw [useSurveyPrompt_run run st hauth hrole hnt, hout]
  constructor
  · intro before first after hsplit hbefore hfirst
    have hfind : findFirst (some records) prompted = some first := by
      simp only [findFirst]
      rw [List.find?_eq_some]
      refine ⟨by simpa using hfirst, before, after, hsplit, ?_⟩
      intro a ha
      simpa using hbefore a ha
    rw [proberAsync_found _ _ _ _ _ _ hprompted hfind]
    refine ⟨rfl, rfl, rfl, ?_⟩
    intro hon
    simp [hon, foundIds]
  · intro hall
    have hfind : findFirst (some records) prompted = none := by
      simp only [findFirst]
      rw [List.find?_eq_none]
      intro x hx
      simpa using hall x hx
    rw [proberAsync_none _ _ _ _ _ hprompted hfind]
    refine ⟨by simp, rfl, ?_⟩
    simp [promptedIds, hprompted]

/-- Witness for C17: the result `[s1, s2]` with the prompted set `['s1']`
selects `s2`, and the set becomes `['s1', 's2']`. -/
theorem prober_selects_first_unprompted_witness :
    (useSurveyPrompt
        { isAuthenticated := true,
          user := some { role := JSValue.str "student", userType := JSValue.undefined,
                         type := JSValue.undefined },
          options := { onFound := true, throttleMinutes := JSValue.undefined },
          now := 5000000, nowAfterCall := 5000100,
          outcome := EligibleOutcome.resolved
            (some [{ _id := "s1", title := JSValue.str "One",
                     description := JSValue.undefined },
                   { _id := "s2", title := JSValue.str "Two",
                     description := JSValue.undefined }]) }
        { survey_last_check := none,
          survey_prompted_ids := PromptedItem.array ["s1"] }).storage.survey_prompted_ids
      = PromptedItem.array ["s1", "s2"] ∧
    (useSurveyPrompt
        { isAuthenticated := true,
          user := some { role := JSValue.str "student", userType := JSValue.undefined,
                         type := JSValue.undefined },
          options := { onFound := true, throttleMinutes := JSValue.undefined },
          now := 5000000, nowAfterCall := 5000100,
          outcome := EligibleOutcome.resolved
            (some [{ _id := "s1", title := JSValue.str "One",
                     description := JSValue.undefined },
                   { _id := "s2", title := JSValue.str "Two",
                     description := JSValue.undefined }]) }
        { survey_last_check := none,
          survey_prompted_ids := PromptedItem.array ["s1"] }).effects.getLast?
      = some (ProberEffect.onFound
          { _id := "s2", title := JSValue.str "Two", description := JSValue.undefined }) :=
  let h := (prober_selects_first_unprompted
    { isAuthenticated := true,
      user := some { role := JSValue.str "student", userType := JSValue.undefined,
                     type := JSValue.undefined },
      options := { onFound := true, throttleMinutes := JSValue.undefined },
      now := 5000000, nowAfterCall := 5000100,
      outcome := EligibleOutcome.resolved
        (some [{ _id := "s1", title := JSValue.str "One",
                 description := JSValue.undefined },
               { _id := "s2", title := JSValue.str "Two",
                 description := JSValue.undefined }]) }
    { survey_last_check := none, survey_prompted_ids := PromptedItem.array ["s1"] }
    [{ _id := "s1", title := JSValue.str "One", description := JSValue.undefined },
     { _id := "s2", title := JSValue.str "Two", description := JSValue.undefined }]
    ["s1"] (by decide) (by decide) (by decide) rfl rfl).1
    [{ _id := "s1", title := JSValue.str "One", description := JSValue.undefined }]
    { _id := "s2", title := JSValue.str "Two", description := JSValue.undefined }
    [] rfl (by decide) (by decide)
  ⟨h.1, (h.2.2.2 rfl).1⟩

/-! ## Lemmas on sequences of prober runs -/

theorem foundIds_append (a b : List ProberEffect) :
    foundIds (a ++ b) = foundIds a ++ foundIds b := by
  induction a with
  | nil => rfl
  | cons e a ih => cases e <;> simp [foundIds, ih]

/-- The shapes a run can take: no effect; the call and a warning; the call
and the timestamp, with or without a warning; or a selection. -/
theorem useSurveyPrompt_cases (run : ProberRun) (st : LocalStorage) :
    (useSurveyPrompt run st = { storage := st, effects := [], uncaught := none }) ∨
    (∃ e, useSurveyPrompt run st
        = { storage := st,
            effects := [ProberEffect.eligible, ProberEffect.warn e], uncaught := none }) ∨
    (∃ tail, (tail = [] ∨ ∃ e, tail = [ProberEffect.warn e]) ∧
      useSurveyPrompt run st
        = { storage := { st with survey_last_check := some (toString run.nowAfterCall) },
            effects := [ProberEffect.eligible,
                        ProberEffect.setLastCheck (toString run.nowAfterCall)] ++ tail,
            uncaught := none }) ∨
    (∃ prompted first, parsePrompted st.survey_prompted_ids = some prompted ∧
      first._id ∉ prompted ∧
      useSurveyPrompt run st
        = { storage :=
              { survey_last_check := some (toString run.nowAfterCall),
                survey_prompted_ids := PromptedItem.array (prompted ++ [first._id]) },
            effects := [ProberEffect.eligible,
                        ProberEffect.setLastCheck (toString run.nowAfterCall),
                        ProberEffect.setPromptedIds (prompted ++ [first._id])]
              ++ (if run.options.onFound then [ProberEffect.onFound first] else []),
            uncaught := none }) := by
  by_cases hg : run.isAuthenticated = false ∨
      isStudentOrAlumni (getRoleFromUser run.user) = false ∨ throttled run st = true
  · exact Or.inl (useSurveyPrompt_guarded run st hg)
  · simp only [not_or, Bool.not_eq_false, Bool.not_eq_true] at hg
    rw [useSurveyPrompt_run run st hg.1 hg.2.1 hg.2.2]
    cases run.outcome with
    | rejected e =>
        right; left
        exact ⟨ProberError.rejection e, by rw [proberAsync_rejected]⟩
    | resolved list =>
        cases hp : parsePrompted st.survey_prompted_ids with
        | none =>
            right; right; left
            refine ⟨[ProberEffect.warn ProberError.jsonSyntaxError], Or.inr ⟨_, rfl⟩, ?_⟩
            rw [proberAsync_malformed _ _ _ _ hp]
            rfl
        | some prompted =>
            cases hf : findFirst list prompted with
            | none =>
                right; right; left
                refine ⟨[], Or.inl rfl, ?_⟩
                rw [proberAsync_none _ _ _ _ _ hp hf]
                rfl
            | some first =>
                right; right; right
                refine ⟨prompted, first, rfl, findFirst_not_mem _ _ _ hf, ?_⟩
                rw [proberAsync_found _ _ _ _ _ _ hp hf]
                rfl

/-- One run: an identifier passed to `onFound` was not in the prompted set
before the run and is in it afterwards, and the prompted set only grows. -/
theorem useSurveyPrompt_found (run : ProberRun) (st : LocalStorage) :
    (foundIds (useSurveyPrompt run st).effects).Nodup ∧
    (∀ id ∈ foundIds (useSurveyPrompt run st).effects,
      id ∉ promptedIds st ∧ id ∈ promptedIds (useSurveyPrompt run st).storage) ∧
    (∀ id ∈ promptedIds st, id ∈ promptedIds (useSurveyPrompt run st).storage) := by
  rcases useSurveyPrompt_cases run st with h | ⟨e, h⟩ | ⟨tail, htail, h⟩ |
      ⟨prompted, first, hp, hnot, h⟩
  · rw [h]; simp [foundIds]
  · rw [h]; simp [foundIds]
  · rw [h]
    rcases htail with rfl | ⟨e, rfl⟩ <;> simp [foundIds, promptedIds]
  · rw [h]
    have hst : promptedIds st = prompted := by simp [promptedIds, hp]
    rw [hst]
    have hafter : ∀ id, id ∈ (parsePrompted
        (PromptedItem.array (prompted ++ [first._id]))).getD [] ↔
        (id ∈ prompted ∨ id = first._id) := by
      intro id
      simp [parsePrompted]
    cases run.options.onFound <;> simp [foundIds, promptedIds, hnot, hafter]
    all_goals intro id hid; exact Or.inl hid

/-- Within one run, a call of `onFound` is the last effect and comes right
after the write of a prompted set that holds the record's identifier. -/
theorem useSurveyPrompt_written_before (run : ProberRun) (st : LocalStorage)
    (first : EligibilityRecord)
    (h : ProberEffect.onFound first ∈ (useSurveyPrompt run st).effects) :
    ∃ before ids,
      (useSurveyPrompt run st).effects
        = before ++ [ProberEffect.setPromptedIds ids, ProberEffect.onFound first] ∧
      first._id ∈ ids ∧
      (useSurveyPrompt run st).storage.survey_prompted_ids = PromptedItem.array ids := by
  rcases useSurveyPrompt_cases run st with h1 | ⟨e, h1⟩ | ⟨tail, htail, h1⟩ |
      ⟨prompted, first1, hp, hnot, h1⟩
  · rw [h1] at h; simp at h
  · rw [h1] at h; simp at h
  · rw [h1] at h
    rcases htail with rfl | ⟨e, rfl⟩ <;> simp at h
  · rw [h1] at h ⊢
    cases hon : run.options.onFound with
    | false => simp [hon] at h
    | true =>
        simp only [hon, if_true, List.mem_append, List.mem_cons, List.mem_singleton,
          List.not_mem_nil, or_false, false_or] at h
        have hfirst : first = first1 := by
          rcases h with h | h
          · rcases h with h | h | h <;> cases h
          · exact ProberEffect.onFound.inj h
        subst hfirst
        exact ⟨[ProberEffect.eligible, ProberEffect.setLastCheck (toString run.nowAfterCall)],
          prompted ++ [first._id], by simp, by simp, rfl⟩

theorem proberRuns_found (runs : List ProberRun) (st : LocalStorage) :
    (foundIds (proberRuns runs st).2).Nodup ∧
    (∀ id ∈ foundIds (proberRuns runs st).2,
      id ∉ promptedIds st ∧ id ∈ promptedIds (proberRuns runs st).1) ∧
    (∀ id ∈ promptedIds st, id ∈ promptedIds (proberRuns runs st).1) := by
  induction runs generalizing st with
  | nil => simp [proberRuns, foundIds]
  | cons run rest ih =>
      obtain ⟨hn1, hf1, hg1⟩ := useSurveyPrompt_found run st
      obtain ⟨hn2, hf2, hg2⟩ := ih (useSurveyPrompt run st).storage
      simp only [proberRuns, foundIds_append]
      refine ⟨?_, ?_, ?_⟩
      · rw [List.nodup_append]
        refine ⟨hn1, hn2, ?_⟩
        intro id h1 h2
        exact (hf2 id h2).1 (hf1 id h1).2
      · intro id hid
        rcases List.mem_append.mp hid with h | h
        · exact ⟨(hf1 id h).1, hg2 id (hf1 id h).2⟩
        · exact ⟨fun hmem => (hf2 id h).1 (hg1 id hmem), (hf2 id h).2⟩
      · intro id hid
        exact hg2 id (hg1 id hid)

/-! ## Sequences of prober runs and the self-driven controller: the claims -/

/-- C18: over every sequence of prober runs sharing one local storage, the
identifiers passed to `onFound` are pairwise distinct, none of them was in the
prompted set the sequence started from, and all of them are in the prompted
set it ends with; and in every run a call of `onFound` comes right after the
write of a prompted set holding the record's identifier, which is the set the
run leaves in storage. -/
theorem prober_never_prompts_twice (runs : List ProberRun) (st : LocalStorage) :
    (foundIds (proberRuns runs st).2).Nodup ∧
    (∀ id ∈ foundIds (proberRuns runs st).2,
      id ∉ promptedIds st ∧ id ∈ promptedIds (proberRuns runs st).1) ∧
    (∀ (run : ProberRun) (st0 : LocalStorage) (first : EligibilityRecord),
      ProberEffect.onFound first ∈ (useSurveyPrompt run st0).effects →
      ∃ before ids,
        (useSurveyPrompt run st0).effects
          = before ++ [ProberEffect.setPromptedIds ids, ProberEffect.onFound first] ∧
        first._id ∈ ids ∧
        (useSurveyPrompt run st0).storage.survey_prompted_ids = PromptedItem.array ids) :=
  ⟨(proberRuns_found runs st).1, (proberRuns_found runs st).2.1,
   fun run st0 first h => useSurveyPrompt_written_before run st0 first h⟩

/-- Witness for C18: three runs with no throttle window on the result
`[s1, s2]`: the callback gets `s1`, then `s2`, then nothing. -/
theorem prober_never_prompts_twice_witness :
    foundIds
        (proberRuns
          [{ isAuthenticated := true,
             user := some { role := JSValue.str "student", userType := JSValue.undefined,
                            type := JSValue.undefined },
             options := { onFound := true, throttleMinutes := JSValue.num 0 },
             now := 1000, nowAfterCall := 1100,
             outcome := EligibleOutcome.resolved
               (some [{ _id := "s1", title := JSValue.str "One",
                        description := JSValue.undefined },
                      { _id := "s2", title := JSValue.str "Two",
                        description := JSValue.undefined }]) },
           { isAuthenticated := true,
             user := some { role := JSValue.str "student", userType := JSValue.undefined,
                            type := JSValue.undefined },
             options := { onFound := true, throttleMinutes := JSValue.num 0 },
             now := 2000, nowAfterCall := 2100,
             outcome := EligibleOutcome.resolved
               (some [{ _id := "s1", title := JSValue.str "One",
                        description := JSValue.undefined },
                      { _id := "s2", title := JSValue.str "Two",
                        description := JSValue.undefined }]) },
           { isAuthenticated := true,
             user := some { role := JSValue.str "student", userType := JSValue.undefined,
                            type := JSValue.undefined },
             options := { onFound := true, throttleMinutes := JSValue.num 0 },
             now := 3000, nowAfterCall := 3100,
             outcome := EligibleOutcome.resolved
               (some [{ _id := "s1", title := JSValue.str "One",
                        description := JSValue.undefined },
                      { _id := "s2", title := JSValue.str "Two",
                        description := JSValue.undefined }]) }]
          { survey_last_check := none, survey_prompted_ids := PromptedItem.absent }).2
      = ["s1", "s2"] ∧
    (foundIds
        (proberRuns
          [{ isAuthenticated := true,
             user := some { role := JSValue.str "student", userType := JSValue.undefined,
                            type := JSValue.undefined },
             options := { onFound := true, throttleMinutes := JSValue.num 0 },
             now := 1000, nowAfterCall := 1100,
             outcome := EligibleOutcome.resolved
               (some [{ _id := "s1", title := JSValue.str "One",
                        description := JSValue.undefined },
                      { _id := "s2", title := JSValue.str "Two",
                        description := JSValue.undefined }]) },
           { isAuthenticated := true,
             user := some { role := JSValue.str "student", userType := JSValue.undefined,
                            type := JSValue.undefined },
             options := { onFound := true, throttleMinutes := JSValue.num 0 },
             now := 2000, nowAfterCall := 2100,
             outcome := EligibleOutcome.resolved
               (some [{ _id := "s1", title := JSValue.str "One",
                        description := JSValue.undefined },
                      { _id := "s2", title := JSValue.str "Two",
                        description := JSValue.undefined }]) },
           { isAuthenticated := true,
             user := some { role := JSValue.str "student", userType := JSValue.undefined,
                            type := JSValue.undefined },
             options := { onFound := true, throttleMinutes := JSValue.num 0 },
             now := 3000, nowAfterCall := 3100,
             outcome := EligibleOutcome.resolved
               (some [{ _id := "s1", title := JSValue.str "One",
                        description := JSValue.undefined },
                      { _id := "s2", title := JSValue.str "Two",
                        description := JSValue.undefined }]) }]
          { survey_last_check := none,
            survey_prompted_ids := PromptedItem.absent }).2).Nodup :=
  ⟨by decide,
   (prober_never_prompts_twice
      [{ isAuthenticated := true,
         user := some { role := JSValue.str "student", userType := JSValue.undefined,
                        type := JSValue.undefined },
         options := { onFound := true, throttleMinutes := JSValue.num 0 },
         now := 1000, nowAfterCall := 1100,
         outcome := EligibleOutcome.resolved
           (some [{ _id := "s1", title := JSValue.str "One",
                    description := JSValue.undefined },
                  { _id := "s2", title := JSValue.str "Two",
                    description := JSValue.undefined }]) },
       { isAuthenticated := true,
         user := some { role := JSValue.str "student", userType := JSValue.undefined,
                        type := JSValue.undefined },
         options := { onFound := true, throttleMinutes := JSValue.num 0 },
         now := 2000, nowAfterCall := 2100,
         outcome := EligibleOutcome.resolved
           (some [{ _id := "s1", title := JSValue.str "One",
                    description := JSValue.undefined },
                  { _id := "s2", title := JSValue.str "Two",
                    description := JSValue.undefined }]) },
       { isAuthenticated := true,
         user := some { role := JSValue.str "student", userType := JSValue.undefined,
                        type := JSValue.undefined },
         options := { onFound := true, throttleMinutes := JSValue.num 0 },
         now := 3000, nowAfterCall := 3100,
         outcome := EligibleOutcome.resolved
           (some [{ _id := "s1", title := JSValue.str "One",
                    description := JSValue.undefined },
                  { _id := "s2", title := JSValue.str "Two",
                    description := JSValue.undefined }]) }]
      { survey_last_check := none, survey_prompted_ids := PromptedItem.absent }).1⟩

/-- C20, as stated, fails: a self-driven, closed controller receives the
eligibility result `[s1, s2]`.  With the prober's storage holding the prompted
set `['s1']` and no throttle in force, the rule asks for `s2`; and with a last
check stored one second before `now`, the rule asks for no query at all.  In
both cases the controller queries and opens with `s1`. -/
theorem autoPrompt_ignores_prober_rules :
    ¬ SelfDrivenFollowsProber
        { openProp := JSValue.undefined, survey := none, onClose := false,
          onSubmitted := false }
        { internalOpen := false, internalSurvey := none, answers := [], saving := false }
        { isAuthenticated := true,
          user := some { role := JSValue.str "student", userType := JSValue.undefined,
                         type := JSValue.undefined },
          options := { onFound := true, throttleMinutes := JSValue.undefined },
          now := 5000000, nowAfterCall := 5000100,
          outcome := EligibleOutcome.resolved none }
        { survey_last_check := none, survey_prompted_ids := PromptedItem.array ["s1"] }
        [{ _id := JSValue.str "s1", questions := some [] },
         { _id := JSValue.str "s2", questions := some [] }] ∧
    ¬ SelfDrivenFollowsProber
        { openProp := JSValue.undefined, survey := none, onClose := false,
          onSubmitted := false }
        { internalOpen := false, internalSurvey := none, answers := [], saving := false }
        { isAuthenticated := true,
          user := some { role := JSValue.str "student", userType := JSValue.undefined,
                         type := JSValue.undefined },
          options := { onFound := true, throttleMinutes := JSValue.undefined },
          now := 5000000, nowAfterCall := 5000100,
          outcome := EligibleOutcome.resolved none }
        { survey_last_check := some "4999000", survey_prompted_ids := PromptedItem.absent }
        [{ _id := JSValue.str "s1", questions := some [] },
         { _id := JSValue.str "s2", questions := some [] }] := by
  constructor
  · intro h
    have h2 := h.2 (by decide)
    revert h2
    decide
  · intro h
    have h1 := h.1 (by decide)
    revert h1
    decide

/-- C20, amended: in self-driven mode the controller makes exactly one
eligibility query, whatever the time and whatever local storage holds (the
effect reads neither), and when the call resolves with a non-empty list it
opens with the list's first survey, when it resolves with a single survey it
opens with that one, and otherwise (empty list, falsy value, rejection) it
stays as it was; in host-driven mode the effect does nothing. -/
theorem autoPrompt_opens_first (props : Props) (st : State) (outcome : FetchOutcome) :
    (controlled props = true → autoPrompt props st outcome = (st, [])) ∧
    (controlled props = false →
      (autoPrompt props st outcome).2 = [AutoEffect.eligibleQuery] ∧
      (∀ s rest, outcome = FetchOutcome.resolved (FetchData.list (s :: rest)) →
        (autoPrompt props st outcome).1
          = { st with internalSurvey := some s, internalOpen := true }) ∧
      (∀ s, outcome = FetchOutcome.resolved (FetchData.single s) →
        (autoPrompt props st outcome).1
          = { st with internalSurvey := some s, internalOpen := true }) ∧
      ((outcome = FetchOutcome.resolved (FetchData.list []) ∨
          outcome = FetchOutcome.resolved FetchData.falsy ∨
          outcome = FetchOutcome.rejected) →
        (autoPrompt props st outcome).1 = st)) := by
  constructor
  · intro hc
    simp [autoPrompt, hc]
  · intro hc
    refine ⟨?_, ?_, ?_, ?_⟩
    · cases outcome with
      | rejected => simp [autoPrompt, hc]
      | resolved data =>
          cases hd : firstSurvey data <;> simp [autoPrompt, hc, hd]
    · intro s rest hout
      simp [autoPrompt, hc, hout, firstSurvey]
    · intro s hout
      simp [autoPrompt, hc, hout, firstSurvey]
    · intro hout
      rcases hout with h | h | h <;> simp [autoPrompt, hc, h, firstSurvey]

/-- Witness for C20 amended: the self-driven controller of the counterexample
opens with `s1`. -/
theorem autoPrompt_opens_first_witness :
    (autoPrompt
        { openProp := JSValue.undefined, survey := none, onClose := false,
          onSubmitted := false }
        { internalOpen := false, internalSurvey := none, answers := [], saving := false }
        (FetchOutcome.resolved (FetchData.list
          [{ _id := JSValue.str "s1", questions := some [] },
           { _id := JSValue.str "s2", questions := some [] }]))).1
      = { internalOpen := true,
          internalSurvey := some { _id := JSValue.str "s1", questions := some [] },
          answers := [], saving := false } :=
  ((autoPrompt_opens_first
      { openProp := JSValue.undefined, survey := none, onClose := false,
        onSubmitted := false }
      { internalOpen := false, internalSurvey := none, answers := [], saving := false }
      (FetchOutcome.resolved (FetchData.list
        [{ _id := JSValue.str "s1", questions := some [] },
         { _id := JSValue.str "s2", questions := some [] }]))).2 (by decide)).2.1
    { _id := JSValue.str "s1", questions := some [] }
    [{ _id := JSValue.str "s2", questions := some [] }] rfl

/-! ## One entry per question: the claim -/

/-- C21, as stated, fails: the raw list `[{type:'checkbox'}, {id:'q0',
type:'text'}]` normalizes to two questions, yet the re-initialized store has
the single key `q0`, which both questions share. -/
theorem initAnswers_fewer_keys_than_questions :
    (normalize
        [{ Question.empty with type := JSValue.str "checkbox" },
         { Question.empty with id := JSValue.str "q0", type := JSValue.str "text" }]).length
      = 2 ∧
    (initAnswers
        (normalize
          [{ Question.empty with type := JSValue.str "checkbox" },
           { Question.empty with id := JSValue.str "q0",
                                 type := JSValue.str "text" }])).map Prod.fst
      = ["q0"] ∧
    ¬ OneEntryPerQuestion
        (normalize
          [{ Question.empty with type := JSValue.str "checkbox" },
           { Question.empty with id := JSValue.str "q0", type := JSValue.str "text" }]) := by
  refine ⟨by decide, by decide, ?_⟩
  intro h
  have hlen := h.1
  revert hlen
  decide

/-- C21, amended: for every question list whose identifiers are pairwise
distinct strings other than `__proto__`, the re-initialized answer store holds
exactly one entry per question: it has as many keys as there are questions,
its keys are the questions' identifiers (in some order) and no key is shared,
every entry is that of a question of the list, and the value read under a
question's identifier is that question's initial value. -/
theorem initAnswers_one_entry_per_question (qs : List Question)
    (hkeys : distinctStringKeys qs = true) :
    (initAnswers qs).length = qs.length ∧
    ((initAnswers qs).map Prod.fst).Perm (qs.map answerKey) ∧
    ((initAnswers qs).map Prod.fst).Nodup ∧
    (∀ p ∈ initAnswers qs, ∃ q ∈ qs, q._qid = JSValue.str p.1 ∧ p.1 ≠ "__proto__" ∧
        p.2 = specInitialAnswer q) ∧
    (∀ q ∈ qs, getAnswer (initAnswers qs) q._qid = specInitialAnswer q) ∧
    OneEntryPerQuestion qs := by
  have hnodup := distinctStringKeys_nodup qs hkeys
  have h := initAnswers_of_nodup qs hnodup
  have hk : (initAnswers qs).map Prod.fst = qs.map answerKey := by
    rw [h]; simp [Function.comp_def]
  have hlen : (initAnswers qs).length = qs.length := by rw [h]; simp
  refine ⟨hlen, by rw [hk], by rw [hk]; exact hnodup, mem_initAnswers qs hkeys, ?_, hlen, ?_⟩
  · intro q hq
    have hl := initFrom_lookup_of_mem [] qs q hq hnodup
    have hinit : initAnswers qs = initFrom [] qs := rfl
    rw [getAnswer, hinit, hl]
    rfl
  · exact (List.pairwise_map).mp hnodup

/-- Witness for C21 amended: three questions with the identifiers `a`, `b`
and `c` give a store of three keys. -/
theorem initAnswers_one_entry_per_question_witness :
    distinctStringKeys
        [{ Question.empty with _qid := JSValue.str "a", type := JSValue.str "text" },
         { Question.empty with _qid := JSValue.str "b", type := JSValue.str "checkbox" },
         { Question.empty with _qid := JSValue.str "c", type := JSValue.str "rating" }]
      = true ∧
    (initAnswers
        [{ Question.empty with _qid := JSValue.str "a", type := JSValue.str "text" },
         { Question.empty with _qid := JSValue.str "b", type := JSValue.str "checkbox" },
         { Question.empty with _qid := JSValue.str "c", type := JSValue.str "rating" }]).length
      = [{ Question.empty with _qid := JSValue.str "a", type := JSValue.str "text" },
         { Question.empty with _qid := JSValue.str "b", type := JSValue.str "checkbox" },
         { Question.empty with _qid := JSValue.str "c", type := JSValue.str "rating" }].length ∧
    initAnswers
        [{ Question.empty with _qid := JSValue.str "a", type := JSValue.str "text" },
         { Question.empty with _qid := JSValue.str "b", type := JSValue.str "checkbox" },
         { Question.empty with _qid := JSValue.str "c", type := JSValue.str "rating" }]
      = [("a", JSValue.str ""), ("b", JSValue.arr []), ("c", JSValue.str "")] :=
  ⟨by decide,
   (initAnswers_one_entry_per_question
    [{ Question.empty with _qid := JSValue.str "a", type := JSValue.str "text" },
     { Question.empty with _qid := JSValue.str "b", type := JSValue.str "checkbox" },
     { Question.empty with _qid := JSValue.str "c", type := JSValue.str "rating" }]
    (by decide)).1,
   by decide⟩

/-! ## Dismissal and late responses: the claims -/

/-- C22, as stated, fails: a self-driven prompt on survey `s1` with a submit
in flight (saving is true) is rendered; a click on the close button sets the
internal open flag to false and the prompt is no longer rendered. -/
theorem dismissal_not_blocked_while_saving :
    rendered
        { openProp := JSValue.undefined, survey := none, onClose := false,
          onSubmitted := false }
        { internalOpen := true,
          internalSurvey := some { _id := JSValue.str "s1", questions := some [] },
          answers := [], saving := true } = true ∧
    rendered
        { openProp := JSValue.undefined, survey := none, onClose := false,
          onSubmitted := false }
        (clickCloseButton
          { openProp := JSValue.undefined, survey := none, onClose := false,
            onSubmitted := false }
          { internalOpen := true,
            internalSurvey := some { _id := JSValue.str "s1", questions := some [] },
            answers := [], saving := true }).1 = false ∧
    ¬ DismissalBlockedWhileSaving
        { openProp := JSValue.undefined, survey := none, onClose := false,
          onSubmitted := false }
        { internalOpen := true,
          internalSurvey := some { _id := JSValue.str "s1", questions := some [] },
          answers := [], saving := true } := by
  refine ⟨by decide, by decide, ?_⟩
  intro h
  have h1 := (h (by decide) rfl).1
  revert h1
  decide

/-- C22, amended: on a rendered prompt the close button and a click on the
backdrop itself run `close()` whatever the saving flag is: in self-driven mode
the internal open flag becomes false and the prompt is no longer rendered; in
host-driven mode the state is unchanged and the host's `onClose`, when
supplied, is the only call; a click inside the panel does nothing. -/
theorem dismissal_closes (props : Props) (st : State) (h : rendered props st = true) :
    clickCloseButton props st = close props st ∧
    clickBackdrop true props st = close props st ∧
    clickBackdrop false props st = (st, []) ∧
    (controlled props = false →
      (clickCloseButton props st).1 = { st with internalOpen := false } ∧
      (clickCloseButton props st).2 = [] ∧
      rendered props (clickCloseButton props st).1 = false) ∧
    (controlled props = true →
      (clickCloseButton props st).1 = st ∧
      (clickCloseButton props st).2 = (if props.onClose then [Effect.onClose] else [])) := by
  have hbutton : clickCloseButton props st = close props st := by
    simp [clickCloseButton, h]
  refine ⟨hbutton, by simp [clickBackdrop, h], by simp [clickBackdrop, h], ?_, ?_⟩
  · intro hc
    rw [hbutton]
    simp [close, hc, rendered, isOpen, truthy, JSValue.bool, JSPrim.truthy]
  · intro hc
    rw [hbutton]
    simp [close, hc]

/-- Witness for C22 amended: the self-driven prompt of the counterexample,
with a submit in flight, is closed by the close button. -/
theorem dismissal_closes_witness :
    (clickCloseButton
        { openProp := JSValue.undefined, survey := none, onClose := false,
          onSubmitted := false }
        { internalOpen := true,
          internalSurvey := some { _id := JSValue.str "s1", questions := some [] },
          answers := [], saving := true }).1
      = { internalOpen := false,
          internalSurvey := some { _id := JSValue.str "s1", questions := some [] },
          answers := [], saving := true } :=
  ((dismissal_closes
      { openProp := JSValue.undefined, survey := none, onClose := false,
        onSubmitted := false }
      { internalOpen := true,
        internalSurvey := some { _id := JSValue.str "s1", questions := some [] },
        answers := [], saving := true }
      (by decide)).2.2.2.1 (by decide)).1

/-- C26, as stated, fails.  A self-driven prompt on survey `s1` is closed by
the user while its submit is in flight; when the call resolves the success
message is shown and `onSubmitted` is called.  A host-driven prompt whose host
has switched from `s1` to `s2` in the meantime gets, on top of these, a call
of `onClose`. -/
theorem late_response_not_discarded :
    (submitSettle
        { openProp := JSValue.undefined, survey := none, onClose := false,
          onSubmitted := true }
        { internalOpen := false,
          internalSurvey := some { _id := JSValue.str "s1", questions := some [] },
          answers := [], saving := true }
        SubmitOutcome.resolved).2
      = [Effect.toastSuccess "Thanks! Your response has been submitted.",
         Effect.onSubmitted] ∧
    ¬ StaleResponseDiscarded
        { _id := JSValue.str "s1", questions := some [] }
        { openProp := JSValue.undefined, survey := none, onClose := false,
          onSubmitted := true }
        { openProp := JSValue.undefined, survey := none, onClose := false,
          onSubmitted := true }
        { internalOpen := false,
          internalSurvey := some { _id := JSValue.str "s1", questions := some [] },
          answers := [], saving := true }
        SubmitOutcome.resolved ∧
    ¬ StaleResponseDiscarded
        { _id := JSValue.str "s1", questions := some [] }
        { openProp := JSValue.bool true,
          survey := some { _id := JSValue.str "s1", questions := some [] },
          onClose := true, onSubmitted := true }
        { openProp := JSValue.bool true,
          survey := some { _id := JSValue.str "s2", questions := some [] },
          onClose := true, onSubmitted := true }
        { internalOpen := false, internalSurvey := none, answers := [], saving := true }
        SubmitOutcome.resolved := by
  refine ⟨by decide, ?_, ?_⟩
  · intro h
    have h1 := (h (Or.inr (by decide))).1
    revert h1
    decide
  · intro h
    have h1 := (h (Or.inl (by decide))).1
    revert h1
    decide

/-- C26, amended: the continuation of `submit` is applied whatever the prompt
shows when the response arrives: for every current state, a resolved call
shows the success message, calls `onSubmitted` when supplied and runs
`close()` (in self-driven mode the internal open flag becomes false, in
host-driven mode `onClose` is called when supplied), a rejected call shows the
error message, and saving ends false in both cases. -/
theorem late_response_applied (props : Props) (st : State) :
    (submitSettle props st SubmitOutcome.resolved).2
      = [Effect.toastSuccess "Thanks! Your response has been submitted."]
          ++ (if props.onSubmitted then [Effect.onSubmitted] else [])
          ++ (if controlled props && props.onClose then [Effect.onClose] else []) ∧
    (controlled props = false →
      (submitSettle props st SubmitOutcome.resolved).1.internalOpen = false) ∧
    (controlled props = true →
      (submitSettle props st SubmitOutcome.resolved).1.internalOpen = st.internalOpen) ∧
    (submitSettle props st SubmitOutcome.resolved).1.saving = false ∧
    (∀ e, (submitSettle props st (SubmitOutcome.rejected e)).2
        = [Effect.toastError (failureMessage e)] ∧
      (submitSettle props st (SubmitOutcome.rejected e)).1 = { st with saving := false }) := by
  refine ⟨?_, ?_, ?_, ?_, ?_⟩
  · cases hc : controlled props <;> cases ho : props.onClose <;>
      simp [submitSettle, close, hc, ho]
  · intro hc; simp [submitSettle, close, hc]
  · intro hc; simp [submitSettle, close, hc]
  · cases hc : controlled props <;> simp [submitSettle, close, hc]
  · intro e; simp [submitSettle]

/-- Witness for C26 amended: in self-driven mode a resolved call arriving on a
newly opened prompt closes it. -/
theorem late_response_applied_witness :
    (submitSettle
        { openProp := JSValue.undefined, survey := none, onClose := false,
          onSubmitted := true }
        { internalOpen := true,
          internalSurvey := some { _id := JSValue.str "s2", questions := some [] },
          answers := [], saving := true }
        SubmitOutcome.resolved).1.internalOpen = false :=
  (late_response_applied
      { openProp := JSValue.undefined, survey := none, onClose := false,
        onSubmitted := true }
      { internalOpen := true,
        internalSurvey := some { _id := JSValue.str "s2", questions := some [] },
        answers := [], saving := true }).2.1 (by decide)

/-! ## Options, scale and renderer: lemmas and claims -/

theorem mem_ratingButtons (q : Question) (m : Int) (hm : 0 < m) (hlt : m < 4294967296)
    (hq : q.scaleMax = JSValue.num m) (n : Int) :
    n ∈ ratingButtons q ↔ (1 ≤ n ∧ n ≤ m) := by
  have hmax : toNumber (ratingMax q) = some m := by
    have hne : m ≠ 0 := by omega
    simp [ratingMax, jsOr, hq, truthy, JSValue.num, JSPrim.truthy, hne, toNumber,
      JSPrim.toNumber]
  simp only [ratingButtons, hmax, hlt, if_true, List.mem_map, List.mem_range]
  constructor
  · rintro ⟨i, hi, rfl⟩
    have h2 : (i : Int) < m := Int.lt_toNat.mp hi
    have h3 : (0 : Int) ≤ (i : Int) := Int.natCast_nonneg i
    simp only [Int.ofNat_eq_coe]
    exact ⟨by linarith, by linarith⟩
  · rintro ⟨h1, h2⟩
    have h4 : ((n - 1).toNat : Int) = n - 1 := Int.toNat_of_nonneg (by linarith)
    refine ⟨(n - 1).toNat, ?_, ?_⟩
    · apply Int.lt_toNat.mpr
      rw [h4]; linarith
    · simp only [Int.ofNat_eq_coe]
      rw [h4]; ring

theorem ratingButtons_of_large (q : Question) (m : Int)
    (hge : ¬ m < 4294967296) (hq : q.scaleMax = JSValue.num m) : ratingButtons q = [] := by
  have hmax : toNumber (ratingMax q) = some m := by
    have hne : m ≠ 0 := by omega
    simp [ratingMax, jsOr, hq, truthy, JSValue.num, JSPrim.truthy, hne, toNumber,
      JSPrim.toNumber]
  simp [ratingButtons, hmax, hge]

/-- C23, as stated, fails: the raw question `{type:'text', options:['a',
'b']}` is a short-text question, not a choice-based one, and its normalized
options list is still `['a', 'b']`: line 50 keeps any array, whatever the
type. -/
theorem options_kept_for_text_question :
    (normalize
        [{ Question.empty with
            type := JSValue.str "text",
            options := JSValue.arr [JSPrim.str "a", JSPrim.str "b"] }]).map
        (fun q => (q.type, q.options, isChoiceBased q.type))
      = [(JSValue.str "text", JSValue.arr [JSPrim.str "a", JSPrim.str "b"], false)] ∧
    ¬ (∀ q ∈ normalize
          [{ Question.empty with
              type := JSValue.str "text",
              options := JSValue.arr [JSPrim.str "a", JSPrim.str "b"] }],
        q.options ≠ JSValue.arr [] → isChoiceBased q.type = true) := by
  decide

/-- C23, amended: for every normalized question the options list is an array:
the provided `options` when that is an array and the empty list otherwise,
whatever the question's type is. -/
theorem options_array_or_empty (arr : List Question) :
    (∀ q ∈ normalize arr,
      isArray q.options = true ∧
      ∃ raw ∈ arr, q.options = (if isArray raw.options then raw.options else JSValue.arr [])) ∧
    (∀ (raw : Question) (idx : Nat) (t : JSValue),
      (normalizeQuestion { raw with type := t } idx).options
        = (normalizeQuestion raw idx).options) ∧
    (∀ (raw : Question) (idx : Nat) (xs : List JSPrim), raw.options = JSValue.arr xs →
      (normalizeQuestion raw idx).options = JSValue.arr xs) ∧
    (∀ (raw : Question) (idx : Nat), isArray raw.options = false →
      (normalizeQuestion raw idx).options = JSValue.arr []) := by
  refine ⟨?_, fun _ _ _ => rfl, ?_, ?_⟩
  · intro q hq
    obtain ⟨raw, idx, hraw, rfl⟩ := mem_normalize arr q hq
    refine ⟨?_, raw, hraw, rfl⟩
    simp only [normalizeQuestion]
    by_cases h : isArray raw.options = true
    · rw [if_pos h]; exact h
    · rw [if_neg h]; rfl
  · intro raw idx xs h
    simp [normalizeQuestion, h, isArray]
  · intro raw idx h
    simp [normalizeQuestion, h]

/-- Witness for C23 amended: a rating question with `options: 'x'` (not an
array) gets the empty list. -/
theorem options_array_or_empty_witness :
    (normalizeQuestion
        { Question.empty with type := JSValue.str "rating", options := JSValue.str "x" }
        0).options = JSValue.arr [] :=
  (options_array_or_empty []).2.2.2
    { Question.empty with type := JSValue.str "rating", options := JSValue.str "x" }
    0 (by decide)

/-- C24, as stated, fails: for the raw rating question `{type:'rating',
scaleMax:true}` the provided value is not a number, so the stated rule gives
`5`; but `Number(true)` is `1`, which is positive, and the normalized scaleMax
is `1`. -/
theorem scaleMax_coerces_true :
    (normalize
        [{ Question.empty with
            type := JSValue.str "rating", scaleMax := JSValue.bool true }]).map
        (fun q => q.scaleMax) = [JSValue.num 1] ∧
    specScaleMax (JSValue.bool true) = JSValue.num 5 ∧
    ¬ (∀ q ∈ [{ Question.empty with
                type := JSValue.str "rating", scaleMax := JSValue.bool true }],
        (normalizeQuestion q 0).scaleMax = specScaleMax q.scaleMax) := by
  decide

/-- C24, amended: for every normalized question whose provided scaleMax is
`undefined` (unset), `null`, a boolean, a number, `NaN` or `''`, scaleMax is
`Number(provided)` when that is positive, so a positive number is kept as it
is and `true` gives `1`, and `5` otherwise (unset, `null`, `false`, `''`,
zero, negative or `NaN`); it is a positive number `m`, every value the rating
input can store is an integer `n` with `1 <= n <= m`, stored under the
question's key as the number `n`, and below `2 ^ 32` every such integer has
its button. -/
theorem scaleMax_and_rating_values (arr : List Question)
    (hplain : ∀ raw ∈ arr, hasExactNumber raw.scaleMax = true) :
    (∀ q ∈ normalize arr,
      ∃ m : Int, 0 < m ∧ q.scaleMax = JSValue.num m ∧
        (∃ raw ∈ arr,
          raw.scaleMax = JSValue.num m ∨
          (raw.scaleMax = JSValue.bool true ∧ m = 1) ∨
          (m = 5 ∧
            (raw.scaleMax = JSValue.undefined ∨ raw.scaleMax = JSValue.null ∨
              raw.scaleMax = JSValue.bool false ∨ raw.scaleMax = JSValue.nan ∨
              raw.scaleMax = JSValue.str "" ∨
              ∃ n : Int, n ≤ 0 ∧ raw.scaleMax = JSValue.num n))) ∧
        (∀ n : Int, n ∈ ratingButtons q → (1 ≤ n ∧ n ≤ m)) ∧
        (m < 4294967296 → ∀ n : Int, (1 ≤ n ∧ n ≤ m) → n ∈ ratingButtons q) ∧
        (∀ (n : Int) (answers : Answers),
          getAnswer (clickRating answers q n) q._qid = JSValue.num n)) ∧
    (∀ (raw : Question) (idx : Nat) (n : Int), raw.scaleMax = JSValue.num n → 0 < n →
      (normalizeQuestion raw idx).scaleMax = JSValue.num n) ∧
    (∀ (raw : Question) (idx : Nat) (n : Int), raw.scaleMax = JSValue.num n → n ≤ 0 →
      (normalizeQuestion raw idx).scaleMax = JSValue.num 5) ∧
    (∀ (raw : Question) (idx : Nat), raw.scaleMax = JSValue.bool true →
      (normalizeQuestion raw idx).scaleMax = JSValue.num 1) ∧
    (∀ (raw : Question) (idx : Nat),
      (raw.scaleMax = JSValue.undefined ∨ raw.scaleMax = JSValue.null ∨
        raw.scaleMax = JSValue.bool false ∨ raw.scaleMax = JSValue.nan ∨
        raw.scaleMax = JSValue.str "") →
      (normalizeQuestion raw idx).scaleMax = JSValue.num 5) := by
  have hpos : ∀ (raw : Question) (idx : Nat) (n : Int), raw.scaleMax = JSValue.num n →
      0 < n → (normalizeQuestion raw idx).scaleMax = JSValue.num n := by
    intro raw idx n h hn
    rw [normalizeQuestion_scaleMax, h]
    simp [toNumber, JSValue.num, JSPrim.toNumber, hn]
  have hneg : ∀ (raw : Question) (idx : Nat) (n : Int), raw.scaleMax = JSValue.num n →
      n ≤ 0 → (normalizeQuestion raw idx).scaleMax = JSValue.num 5 := by
    intro raw idx n h hn
    rw [normalizeQuestion_scaleMax, h]
    have : ¬ 0 < n := by omega
    simp [toNumber, JSValue.num, JSPrim.toNumber, this]
  have htrue : ∀ (raw : Question) (idx : Nat), raw.scaleMax = JSValue.bool true →
      (normalizeQuestion raw idx).scaleMax = JSValue.num 1 := by
    intro raw idx h
    rw [normalizeQuestion_scaleMax, h]
    rfl
  have hfive : ∀ (raw : Question) (idx : Nat),
      (raw.scaleMax = JSValue.undefined ∨ raw.scaleMax = JSValue.null ∨
        raw.scaleMax = JSValue.bool false ∨ raw.scaleMax = JSValue.nan ∨
        raw.scaleMax = JSValue.str "") →
      (normalizeQuestion raw idx).scaleMax = JSValue.num 5 := by
    intro raw idx h
    rw [normalizeQuestion_scaleMax]
    rcases h with h | h | h | h | h <;> rw [h] <;> rfl
  have hnum : ∀ a b : Int, JSValue.num a = JSValue.num b → a = b := by
    intro a b h
    simpa [JSValue.num] using h
  refine ⟨?_, hpos, hneg, htrue, hfive⟩
  intro q hq
  obtain ⟨raw, idx, hraw, rfl⟩ := mem_normalize arr q hq
  obtain ⟨m, hm, hq⟩ := normalizeQuestion_scaleMax_pos raw idx
  refine ⟨m, hm, hq, ⟨raw, hraw, ?_⟩, ?_, ?_, fun n answers => getAnswer_setAnswer_same _ _ _⟩
  · rcases hasExactNumber_cases _ (hplain raw hraw) with h | h | h | h | ⟨b, h⟩ | ⟨n, h⟩
    · have h5 := hfive raw idx (Or.inl h)
      rw [hq] at h5
      exact Or.inr (Or.inr ⟨hnum _ _ h5, Or.inl h⟩)
    · have h5 := hfive raw idx (Or.inr (Or.inl h))
      rw [hq] at h5
      exact Or.inr (Or.inr ⟨hnum _ _ h5, Or.inr (Or.inl h)⟩)
    · have h5 := hfive raw idx (Or.inr (Or.inr (Or.inr (Or.inl h))))
      rw [hq] at h5
      exact Or.inr (Or.inr ⟨hnum _ _ h5, Or.inr (Or.inr (Or.inr (Or.inl h)))⟩)
    · have h5 := hfive raw idx (Or.inr (Or.inr (Or.inr (Or.inr h))))
      rw [hq] at h5
      exact Or.inr (Or.inr ⟨hnum _ _ h5, Or.inr (Or.inr (Or.inr (Or.inr (Or.inl h))))⟩)
    · cases b with
      | false =>
          have h5 := hfive raw idx (Or.inr (Or.inr (Or.inl h)))
          rw [hq] at h5
          exact Or.inr (Or.inr ⟨hnum _ _ h5, Or.inr (Or.inr (Or.inl h))⟩)
      | true =>
          have h1 := htrue raw idx h
          rw [hq] at h1
          exact Or.inr (Or.inl ⟨h, hnum _ _ h1⟩)
    · by_cases hn : 0 < n
      · have h1 := hpos raw idx n h hn
        rw [hq] at h1
        rw [hnum _ _ h1]
        exact Or.inl h
      · have h5 := hneg raw idx n h (by omega)
        rw [hq] at h5
        exact Or.inr (Or.inr ⟨hnum _ _ h5,
          Or.inr (Or.inr (Or.inr (Or.inr (Or.inr ⟨n, by omega, h⟩))))⟩)
  · intro n hn
    by_cases hlt : m < 4294967296
    · exact (mem_ratingButtons _ m hm hlt hq n).mp hn
    · rw [ratingButtons_of_large _ m hlt hq] at hn
      cases hn
  · intro hlt n hn
    exact (mem_ratingButtons _ m hm hlt hq n).mpr hn

/-- Witness for C24 amended: the raw rating question with `scaleMax: 3` has
the buttons `1`, `2` and `3`, and `scaleMax: 3` is kept. -/
theorem scaleMax_and_rating_values_witness :
    (∀ raw ∈ [{ Question.empty with
                  type := JSValue.str "rating", scaleMax := JSValue.num 3 }],
      hasExactNumber raw.scaleMax = true) ∧
    (normalizeQuestion
        { Question.empty with type := JSValue.str "rating", scaleMax := JSValue.num 3 }
        0).scaleMax = JSValue.num 3 ∧
    ratingButtons
        (normalizeQuestion
          { Question.empty with type := JSValue.str "rating", scaleMax := JSValue.num 3 }
          0) = [1, 2, 3] :=
  ⟨by decide,
   (scaleMax_and_rating_values
      [{ Question.empty with type := JSValue.str "rating", scaleMax := JSValue.num 3 }]
      (by decide)).2.1
      { Question.empty with type := JSValue.str "rating", scaleMax := JSValue.num 3 }
      0 3 rfl (by decide),
   by decide⟩

theorem strictEqStr_str (t s : String) : strictEqStr (JSValue.str t) s = decide (t = s) := by
  simp [strictEqStr, JSValue.str]

theorem renderQuestion_of_not_alias (t : String) (h : t ∉ recognizedAliases) :
    renderQuestion (JSValue.str t) = InputKind.textInput := by
  simp only [recognizedAliases, List.mem_cons, List.mem_singleton, List.not_mem_nil,
    or_false, not_or] at h
  obtain ⟨h1, h2, h3, h4, h5, h6, h7, h8, h9, h10, h11, h12, h13, h14, h15⟩ := h
  simp [renderQuestion, strictEqStr_str, h1, h2, h3, h4, h5, h6, h7, h8, h9, h10, h11,
    h12, h13, h14, h15]

/-- C25: for every raw type string `s`, the renderer's choice for the
normalized question is its choice for the lower-cased `s`, so two raw types
with the same lower-cased form get the same input; a lower-cased form of
`text`, `short` or `short_text` selects the text input, and so does every
lower-cased form that is none of the recognized aliases, the empty type
included.  Lower-casing is what makes the choice: the fifteen aliases written
in capitals, and `checkbox` written with the Kelvin sign for its `k`, select
the input of their kind. -/
theorem renderer_depends_on_lowercased_type (raw : Question) (idx : Nat) (s : String)
    (hs : raw.type = JSValue.str s) :
    renderQuestion (normalizeQuestion raw idx).type
      = renderQuestion (JSValue.str (toLowerCase s)) ∧
    ((toLowerCase s = "text" ∨ toLowerCase s = "short" ∨ toLowerCase s = "short_text") →
      renderQuestion (normalizeQuestion raw idx).type = InputKind.textInput) ∧
    (toLowerCase s ∉ recognizedAliases →
      renderQuestion (normalizeQuestion raw idx).type = InputKind.textInput) ∧
    (∀ (raw2 : Question) (idx2 : Nat) (s2 : String), raw2.type = JSValue.str s2 →
      toLowerCase s2 = toLowerCase s →
      renderQuestion (normalizeQuestion raw2 idx2).type
        = renderQuestion (normalizeQuestion raw idx).type) ∧
    ([("TEXT" : String), "Text", "Short", "SHORT", "Short_Text", "SHORT_TEXT", "",
        "Dropdown"].map
        (fun s => renderQuestion
          (normalizeQuestion { Question.empty with type := JSValue.str s } 0).type)
      = List.replicate 8 InputKind.textInput) ∧
    ([("TEXTAREA" : String), "ESSAY", "PARAGRAPH", "SHORT_ESSAY", "LONG_TEXT",
        "RADIO", "CHOICE", "SINGLE", "MULTIPLE_CHOICE",
        "CHECKBOX", "MULTI", "CHEC\u212ABOX",
        "RATING"].map
        (fun s => renderQuestion
          (normalizeQuestion { Question.empty with type := JSValue.str s } 0).type)
      = [InputKind.textarea, InputKind.textarea, InputKind.textarea, InputKind.textarea,
         InputKind.textarea,
         InputKind.radioGroup, InputKind.radioGroup, InputKind.radioGroup,
         InputKind.radioGroup,
         InputKind.checkboxGroup, InputKind.checkboxGroup, InputKind.checkboxGroup,
         InputKind.rating]) := by
  have htype := normalizeQuestion_type_str raw idx s hs
  refine ⟨by rw [htype], ?_, ?_, ?_, by decide, by decide⟩
  · intro h
    rw [htype]
    rcases h with h | h | h <;> rw [h] <;> decide
  · intro h
    rw [htype]
    exact renderQuestion_of_not_alias _ h
  · intro raw2 idx2 s2 hs2 heq
    rw [htype, normalizeQuestion_type_str raw2 idx2 s2 hs2, heq]

/-- Witness for C25: the raw type `ShOrT` selects the text input, and the raw
type `Rating` selects what `rating` selects. -/
theorem renderer_depends_on_lowercased_type_witness :
    renderQuestion
        (normalizeQuestion { Question.empty with type := JSValue.str "ShOrT" } 3).type
      = InputKind.textInput ∧
    renderQuestion
        (normalizeQuestion { Question.empty with type := JSValue.str "Rating" } 3).type
      = InputKind.rating :=
  ⟨(renderer_depends_on_lowercased_type
      { Question.empty with type := JSValue.str "ShOrT" } 3 "ShOrT" rfl).2.1
    (Or.inr (Or.inl (by decide))),
   (renderer_depends_on_lowercased_type
      { Question.empty with type := JSValue.str "Rating" } 3 "Rating" rfl).1.trans
      (by decide)⟩

/-! ## Payload identifiers: the claim -/

/-- C27: for every normalized question the chain `_id || id || _qid` of line
95 gives the same value as the question's `_qid`, the identifier under which
its answer is kept; so the questionIds of the payload are the `_qid`s of the
questions, in order, and the value of every payload entry is what the answer
store holds under that entry's questionId. -/
theorem payload_questionId_is_answer_key (arr : List Question) (answers : Answers) :
    (∀ q ∈ normalize arr, jsOr (jsOr q._id q.id) q._qid = q._qid) ∧
    (buildPayload (normalize arr) answers).map (fun e => e.questionId)
      = (normalize arr).map (fun q => q._qid) ∧
    (∀ e ∈ buildPayload (normalize arr) answers,
      e.value = getAnswer answers e.questionId) := by
  have hchain : ∀ q ∈ normalize arr, jsOr (jsOr q._id q.id) q._qid = q._qid := by
    intro q hq
    obtain ⟨raw, idx, _, rfl⟩ := mem_normalize arr q hq
    exact questionId_eq_qid raw idx
  refine ⟨hchain, ?_, ?_⟩
  · simp only [buildPayload, List.map_map]
    apply List.map_congr_left
    intro q hq
    exact hchain q hq
  · intro e he
    simp only [buildPayload, List.mem_map] at he
    obtain ⟨q, hq, rfl⟩ := he
    simp only [hchain q hq]

/-- Witness for C27: a raw question with only a `key`, and one with nothing:
the payload is labelled `k` and `q1`, and carries the answers kept under `k`
and `q1`. -/
theorem payload_questionId_is_answer_key_witness :
    buildPayload
        (normalize
          [{ Question.empty with key := JSValue.str "k" }, Question.empty])
        [("k", JSValue.str "x"), ("q1", JSValue.str "y")]
      = [{ questionId := JSValue.str "k", type := JSValue.str "",
           label := JSValue.str "Question 1", value := JSValue.str "x" },
         { questionId := JSValue.str "q1", type := JSValue.str "",
           label := JSValue.str "Question 2", value := JSValue.str "y" }] ∧
    jsOr (jsOr (normalizeQuestion Question.empty 1)._id (normalizeQuestion Question.empty 1).id)
        (normalizeQuestion Question.empty 1)._qid
      = (normalizeQuestion Question.empty 1)._qid :=
  ⟨by decide,
   (payload_questionId_is_answer_key
      [{ Question.empty with key := JSValue.str "k" }, Question.empty]
      [("k", JSValue.str "x"), ("q1", JSValue.str "y")]).1
      (normalizeQuestion Question.empty 1) (by decide)⟩

/-! ## Multi-choice in three places: lemmas and the claim -/

theorem isMultiType_str (t : String) :
    isMultiType (JSValue.str t) = true ↔ (t = "checkbox" ∨ t = "multi") := by
  simp [isMultiType, strictEqStr_str]

theorem renderQuestion_checkboxGroup (t : String) :
    renderQuestion (JSValue.str t) = InputKind.checkboxGroup
      ↔ (t = "checkbox" ∨ t = "multi") := by
  constructor
  · intro h
    by_cases hc : t = "checkbox"
    · exact Or.inl hc
    · by_cases hm : t = "multi"
      · exact Or.inr hm
      · exfalso
        simp only [renderQuestion, strictEqStr_str, hc, hm, decide_False, Bool.or_false,
          Bool.false_eq_true, if_false] at h
        split_ifs at h
  · rintro (h | h) <;> subst h <;> decide

theorem initAnswers_singleton (q : Question) :
    initAnswers [q] = [(answerKey q, specInitialAnswer q)] := by
  unfold initAnswers specInitialAnswer answerKey
  by_cases h : isMultiType q.type = true <;> simp [List.foldl, h, setKey]

theorem validatorAppliesListCheck_iff (t : String) :
    ValidatorAppliesListCheck t ↔ (t = "checkbox" ∨ t = "multi") := by
  constructor
  · intro h
    by_contra hne
    have hmulti : isMultiType (JSValue.str t) = false := by
      cases hm : isMultiType (JSValue.str t)
      · rfl
      · exact absurd ((isMultiType_str t).mp hm) hne
    have hq := h
      { Question.empty with
          type := JSValue.str t, required := JSValue.bool true, _qid := JSValue.str "k" }
      [("k", JSValue.str "x")] rfl rfl
    have hsome := hq.mpr rfl
    rw [requiredMissing_cons] at hsome
    by_cases hr : isRatingType (JSValue.str t) = true
    · simp [specUnmet, specRequirementFails, hmulti, hr, requiredMissing] at hsome
      revert hsome
      decide
    · simp only [Bool.not_eq_true] at hr
      simp [specUnmet, specRequirementFails, hmulti, hr, requiredMissing] at hsome
      revert hsome
      decide
  · intro h q answers hq hreq
    have hmulti : isMultiType q.type = true := by rw [hq]; exact (isMultiType_str t).mpr h
    rw [requiredMissing_cons]
    simp only [specUnmet, specRequirementFails, hreq, hmulti, requiredMissing]
    cases isNonEmptyList (getAnswer answers q._qid) <;> simp

/-- C28: for every type string `t`, the three places agree on multi-choice:
the init effect stores the empty list for a question of type `t`, the
validator applies the non-empty-list check to it, and the renderer draws the
checkbox group with `toggle` for it, each exactly when `t` is `checkbox` or
`multi`; for `multiple_choice` the init effect stores the empty string, the
validator does not apply the list check and the renderer draws the radio
group. -/
theorem multi_choice_treated_alike (t : String) :
    ((∀ q : Question, q.type = JSValue.str t →
        initAnswers [q] = [(answerKey q, JSValue.arr [])])
      ↔ (t = "checkbox" ∨ t = "multi")) ∧
    (ValidatorAppliesListCheck t ↔ (t = "checkbox" ∨ t = "multi")) ∧
    (renderQuestion (JSValue.str t) = InputKind.checkboxGroup
      ↔ (t = "checkbox" ∨ t = "multi")) ∧
    ((∀ q : Question, q.type = JSValue.str "multiple_choice" →
        initAnswers [q] = [(answerKey q, JSValue.str "")]) ∧
      ¬ ValidatorAppliesListCheck "multiple_choice" ∧
      renderQuestion (JSValue.str "multiple_choice") = InputKind.radioGroup) := by
  refine ⟨?_, validatorAppliesListCheck_iff t, renderQuestion_checkboxGroup t, ?_, ?_, ?_⟩
  · constructor
    · intro h
      have h1 := h { Question.empty with type := JSValue.str t } rfl
      rw [initAnswers_singleton] at h1
      have h2 : specInitialAnswer { Question.empty with type := JSValue.str t }
          = JSValue.arr [] := by
        have := (List.cons.inj h1).1
        exact (Prod.mk.inj this).2
      apply (isMultiType_str t).mp
      cases hm : isMultiType (JSValue.str t)
      · have h3 : specInitialAnswer { Question.empty with type := JSValue.str t }
            = JSValue.str "" := by
          simp [specInitialAnswer, hm]
        rw [h3] at h2
        exact absurd h2 (by decide)
      · rfl
    · intro h q hq
      rw [initAnswers_singleton]
      have hm : isMultiType q.type = true := by rw [hq]; exact (isMultiType_str t).mpr h
      simp [specInitialAnswer, hm]
  · intro q hq
    rw [initAnswers_singleton]
    have hm : isMultiType q.type = false := by rw [hq]; decide
    simp [specInitialAnswer, hm]
  · intro h
    have := (validatorAppliesListCheck_iff "multiple_choice").mp h
    revert this
    decide
  · decide

/-- Witness for C28: a required `multi` question with the stored value `'x'`,
which is not a list, is reported by the validator. -/
theorem multi_choice_treated_alike_witness :
    requiredMissing
        [{ Question.empty with
            type := JSValue.str "multi", required := JSValue.bool true,
            _qid := JSValue.str "k" }]
        [("k", JSValue.str "x")]
      = some { Question.empty with
            type := JSValue.str "multi", required := JSValue.bool true,
            _qid := JSValue.str "k" } :=
  (((multi_choice_treated_alike "multi").2.1.mpr (Or.inr rfl))
      { Question.empty with
          type := JSValue.str "multi", required := JSValue.bool true,
          _qid := JSValue.str "k" }
      [("k", JSValue.str "x")] rfl (by decide)).mpr (by decide)

/-! ## Validating a fresh store: lemmas and the claim -/

/-- The initial value of a question fails that question's requirement
check. -/
theorem specRequirementFails_initial (q : Question) :
    specRequirementFails q (specInitialAnswer q) = true := by
  unfold specRequirementFails specInitialAnswer
  by_cases hm : isMultiType q.type = true
  · simp [hm, isNonEmptyList]
  · by_cases hr : isRatingType q.type = true
    · simp only [hm, hr, if_false, if_true]
      decide
    · simp [hm, hr]

theorem find?_congr_mem {α : Type} (p r : α → Bool) (l : List α)
    (h : ∀ a ∈ l, p a = r a) : l.find? p = l.find? r := by
  induction l with
  | nil => rfl
  | cons a l ih =>
      rw [List.find?_cons, List.find?_cons, h a (by simp),
        ih (fun b hb => h b (by simp [hb]))]

theorem requiredMissing_initAnswers (qs : List Question)
    (hnodup : (qs.map answerKey).Nodup) :
    requiredMissing qs (initAnswers qs) = qs.find? (fun q => truthy q.required) := by
  rw [requiredMissing_eq_find]
  apply find?_congr_mem
  intro q hq
  have hlookup := initFrom_lookup_of_mem [] qs q hq hnodup
  have hget : getAnswer (initAnswers qs) q._qid = specInitialAnswer q := by
    have hinit : initAnswers qs = initFrom [] qs := rfl
    rw [getAnswer, hinit, hlookup]
    rfl
  simp [specUnmet, hget, specRequirementFails_initial]

/-- C29, counterexample: the raw list `[{id:1, type:'text', required:true}, {id:'1',
type:'checkbox'}]` has the distinct identifiers `1` (a number) and `'1'` (a
string), which are the same property key; the fresh store is `{'1': []}`, the
required text question reads `[]`, which is neither `''` nor `null`, and the
validator returns `null` although the first question is required. -/
theorem fresh_store_shared_key :
    ((normalize
        [{ Question.empty with
            id := JSValue.num 1, type := JSValue.str "text", required := JSValue.bool true },
         { Question.empty with id := JSValue.str "1", type := JSValue.str "checkbox" }]).map
        (fun q => q._qid) = [JSValue.num 1, JSValue.str "1"] ∧
      ((normalize
        [{ Question.empty with
            id := JSValue.num 1, type := JSValue.str "text", required := JSValue.bool true },
         { Question.empty with id := JSValue.str "1", type := JSValue.str "checkbox" }]).map
        (fun q => q._qid)).Nodup) ∧
    initAnswers
        (normalize
          [{ Question.empty with
              id := JSValue.num 1, type := JSValue.str "text",
              required := JSValue.bool true },
           { Question.empty with id := JSValue.str "1", type := JSValue.str "checkbox" }])
      = [("1", JSValue.arr [])] ∧
    requiredMissing
        (normalize
          [{ Question.empty with
              id := JSValue.num 1, type := JSValue.str "text",
              required := JSValue.bool true },
           { Question.empty with id := JSValue.str "1", type := JSValue.str "checkbox" }])
        (initAnswers
          (normalize
            [{ Question.empty with
                id := JSValue.num 1, type := JSValue.str "text",
                required := JSValue.bool true },
             { Question.empty with id := JSValue.str "1", type := JSValue.str "checkbox" }]))
      = none ∧
    ¬ FreshStoreReportsFirstRequired
        (normalize
          [{ Question.empty with
              id := JSValue.num 1, type := JSValue.str "text",
              required := JSValue.bool true },
           { Question.empty with id := JSValue.str "1", type := JSValue.str "checkbox" }]) := by
  refine ⟨by decide, by decide, by decide, ?_⟩
  unfold FreshStoreReportsFirstRequired
  decide

/-- C29, amended: for every question list whose identifiers are pairwise
distinct strings other than `__proto__`, validating the freshly re-initialized
answer store returns the first required question of the list (every earlier
one is not required), and `null` exactly when no question is required; so on a
rendered prompt whose store is fresh and whose survey has a required question,
`submit` makes no call to the submit interface. -/
theorem fresh_store_reports_first_required (qs : List Question)
    (hkeys : distinctStringKeys qs = true) :
    FreshStoreReportsFirstRequired qs ∧
    (∀ q, requiredMissing qs (initAnswers qs) = some q →
      truthy q.required = true ∧
      ∃ before after, qs = before ++ q :: after ∧
        ∀ p ∈ before, truthy p.required = false) ∧
    (requiredMissing qs (initAnswers qs) = none ↔ ∀ q ∈ qs, truthy q.required = false) ∧
    (∀ (props : Props) (st : State) (outcome : SubmitOutcome) (survey : Survey),
      rendered props st = true → currentSurvey props st = some survey →
      questions (some survey) = qs → st.answers = initAnswers qs →
      (∃ q ∈ qs, truthy q.required = true) →
      ∀ surveyId payload,
        Effect.submitCall surveyId payload ∉ (submit props st outcome).2) := by
  have hfind := requiredMissing_initAnswers qs (distinctStringKeys_nodup qs hkeys)
  refine ⟨hfind, ?_, ?_, ?_⟩
  · intro q hq
    rw [hfind, List.find?_eq_some] at hq
    obtain ⟨hreq, before, after, hsplit, hbefore⟩ := hq
    refine ⟨hreq, before, after, hsplit, ?_⟩
    intro p hp
    simpa using hbefore p hp
  · rw [hfind, List.find?_eq_none]
    simp
  · intro props st outcome survey hopen hsurvey hqs hans hex surveyId payload
    obtain ⟨q0, hq0, hreq0⟩ := hex
    have hsome : ∃ q, requiredMissing qs (initAnswers qs) = some q := by
      cases hr : requiredMissing qs (initAnswers qs) with
      | some q => exact ⟨q, rfl⟩
      | none =>
          rw [hfind, List.find?_eq_none] at hr
          exact absurd hreq0 (hr q0 hq0)
    obtain ⟨q, hq⟩ := hsome
    have hsub : submit props st outcome
        = (st, [Effect.toastError (JSValue.str ("Please answer: " ++ toStr q.text))]) := by
      have hq2 : requiredMissing (questions (some survey)) st.answers = some q := by
        rw [hqs, hans]; exact hq
      simp [submit, hopen, hsurvey, submitBegin, hq2]
    rw [hsub]
    simp

/-- Witness for C29 amended: an optional text question followed by a required rating
and a required checkbox question; the fresh store reports the rating
question. -/
theorem fresh_store_reports_first_required_witness :
    requiredMissing
        [{ Question.empty with _qid := JSValue.str "a", type := JSValue.str "text" },
         { Question.empty with
            _qid := JSValue.str "b", type := JSValue.str "rating",
            required := JSValue.bool true },
         { Question.empty with
            _qid := JSValue.str "c", type := JSValue.str "checkbox",
            required := JSValue.bool true }]
        (initAnswers
          [{ Question.empty with _qid := JSValue.str "a", type := JSValue.str "text" },
           { Question.empty with
              _qid := JSValue.str "b", type := JSValue.str "rating",
              required := JSValue.bool true },
           { Question.empty with
              _qid := JSValue.str "c", type := JSValue.str "checkbox",
              required := JSValue.bool true }])
      = some { Question.empty with
            _qid := JSValue.str "b", type := JSValue.str "rating",
            required := JSValue.bool true } :=
  ((fresh_store_reports_first_required
      [{ Question.empty with _qid := JSValue.str "a", type := JSValue.str "text" },
       { Question.empty with
          _qid := JSValue.str "b", type := JSValue.str "rating",
          required := JSValue.bool true },
       { Question.empty with
          _qid := JSValue.str "c", type := JSValue.str "checkbox",
          required := JSValue.bool true }]
      (by decide)).1).trans (by decide)

/-! ## A rejected eligibility call: the claim -/

/-- C30: for every prober run in which the eligibility call rejects, local
storage after the run is exactly the storage before it, so the last-checked
timestamp and the prompted-id item are unchanged, and every later run is
throttled, and behaves, as it would have been without the failed attempt. -/
theorem rejected_call_leaves_storage (run : ProberRun) (st : LocalStorage) (e : JSValue)
    (h : run.outcome = EligibleOutcome.rejected e) :
    (useSurveyPrompt run st).storage = st ∧
    (useSurveyPrompt run st).storage.survey_last_check = st.survey_last_check ∧
    (useSurveyPrompt run st).storage.survey_prompted_ids = st.survey_prompted_ids ∧
    (∀ next : ProberRun,
      throttled next (useSurveyPrompt run st).storage = throttled next st) ∧
    (∀ next : ProberRun,
      useSurveyPrompt next (useSurveyPrompt run st).storage = useSurveyPrompt next st) ∧
    (∀ first, ProberEffect.onFound first ∉ (useSurveyPrompt run st).effects) := by
  have hst : (useSurveyPrompt run st).storage = st := by
    by_cases hg : run.isAuthenticated = false ∨
        isStudentOrAlumni (getRoleFromUser run.user) = false ∨ throttled run st = true
    · rw [useSurveyPrompt_guarded run st hg]
    · simp only [not_or, Bool.not_eq_false, Bool.not_eq_true] at hg
      rw [useSurveyPrompt_run run st hg.1 hg.2.1 hg.2.2, h, proberAsync_rejected]
  have heff : ∀ first, ProberEffect.onFound first ∉ (useSurveyPrompt run st).effects := by
    intro first
    by_cases hg : run.isAuthenticated = false ∨
        isStudentOrAlumni (getRoleFromUser run.user) = false ∨ throttled run st = true
    · rw [useSurveyPrompt_guarded run st hg]; simp
    · simp only [not_or, Bool.not_eq_false, Bool.not_eq_true] at hg
      rw [useSurveyPrompt_run run st hg.1 hg.2.1 hg.2.2, h, proberAsync_rejected]
      simp
  refine ⟨hst, by rw [hst], by rw [hst], fun next => by rw [hst],
    fun next => by rw [hst], heff⟩

/-- Witness for C30: a student's first run at time `5000000` fails; the run
that follows at `5000200` is not throttled and makes the call again. -/
theorem rejected_call_leaves_storage_witness :
    (useSurveyPrompt
        { isAuthenticated := true,
          user := some { role := JSValue.str "student", userType := JSValue.undefined,
                         type := JSValue.undefined },
          options := { onFound := true, throttleMinutes := JSValue.undefined },
          now := 5000000, nowAfterCall := 5000100,
          outcome := EligibleOutcome.rejected JSValue.obj }
        { survey_last_check := none, survey_prompted_ids := PromptedItem.absent }).storage
      = { survey_last_check := none, survey_prompted_ids := PromptedItem.absent } ∧
    ProberEffect.eligible ∈
      (useSurveyPrompt
        { isAuthenticated := true,
          user := some { role := JSValue.str "student", userType := JSValue.undefined,
                         type := JSValue.undefined },
          options := { onFound := true, throttleMinutes := JSValue.undefined },
          now := 5000200, nowAfterCall := 5000300,
          outcome := EligibleOutcome.resolved (some []) }
        (useSurveyPrompt
          { isAuthenticated := true,
            user := some { role := JSValue.str "student", userType := JSValue.undefined,
                           type := JSValue.undefined },
            options := { onFound := true, throttleMinutes := JSValue.undefined },
            now := 5000000, nowAfterCall := 5000100,
            outcome := EligibleOutcome.rejected JSValue.obj }
          { survey_last_check := none,
            survey_prompted_ids := PromptedItem.absent }).storage).effects :=
  ⟨(rejected_call_leaves_storage
      { isAuthenticated := true,
        user := some { role := JSValue.str "student", userType := JSValue.undefined,
                       type := JSValue.undefined },
        options := { onFound := true, throttleMinutes := JSValue.undefined },
        now := 5000000, nowAfterCall := 5000100,
        outcome := EligibleOutcome.rejected JSValue.obj }
      { survey_last_check := none, survey_prompted_ids := PromptedItem.absent }
      JSValue.obj rfl).1,
   by decide⟩

end SurveyPrompt
